import Mathlib

/-!
# morsectrl: transport abstraction and command/response framing

A shallow embedding of the transport dispatcher (`transport/transport.c`), the
packet backend (`transport/nl80211.c`) and the command sender (`command.c`),
followed by the properties proved about them.

Conventions of the embedding.

* A byte is a `Nat` below 256; a memory block is a `List Nat`.  A pointer into a
  block is the offset from the start of the block.
* `size_t` is 64 bits wide: arithmetic on it is reduced modulo `2 ^ 64`.
* `int` results are `Int`.
* A nullable pointer is an `Option`.
* A call through a null function pointer is the outcome `Except.error`.
* What a function prints, and which backend functions it calls, is recorded in a
  list of `event`s returned next to its result.
-/

namespace Morsectrl

/-! ## Machine arithmetic -/

/-- Number of values of `size_t` (64-bit host). -/
def SIZE_T_MOD : Nat := 2 ^ 64

/-- Unsigned `size_t` addition `a + b`. -/
def size_add (a b : Nat) : Nat := (a + b) % SIZE_T_MOD

/-- Unsigned `size_t` subtraction `a - b` (wraps below zero). -/
def size_sub (a b : Nat) : Nat := (((a : Int) - (b : Int)) % (SIZE_T_MOD : Int)).toNat

/-- Conversion of an `int` to `uint16_t`. -/
def int_to_u16 (v : Int) : Nat := (v % 65536).toNat

/-- Conversion of a `size_t` to `uint16_t`. -/
def size_to_u16 (v : Nat) : Nat := v % 65536

/-- Conversion of a `uint32_t` to `int` (two's complement). -/
def u32_to_int (v : Nat) : Int :=
  if v % 4294967296 < 2147483648 then ((v % 4294967296 : Nat) : Int)
  else ((v % 4294967296 : Nat) : Int) - 4294967296

/-! ## Memory -/

/-- Store of one byte at offset `i`. -/
def store8 (m : List Nat) (i v : Nat) : List Nat := m.set i (v % 256)

/-- Little-endian store of a 16-bit value at offset `i` (`htole16` then a 16-bit store). -/
def store16le (m : List Nat) (i v : Nat) : List Nat :=
  store8 (store8 m i (v % 256)) (i + 1) (v / 256 % 256)

/-- Load of one byte at offset `i`. -/
def load8 (m : List Nat) (i : Nat) : Nat := m.getD i 0

/-- Little-endian load of a 16-bit value at offset `i`. -/
def load16le (m : List Nat) (i : Nat) : Nat := load8 m i + 256 * load8 m (i + 1)

/-- Little-endian load of a 32-bit value at offset `i` (a 32-bit load then `le32toh`). -/
def load32le (m : List Nat) (i : Nat) : Nat :=
  load8 m i + 256 * load8 m (i + 1) + 65536 * load8 m (i + 2) + 16777216 * load8 m (i + 3)

/-- The C `memset(m + off, v, n)`. -/
def memset (m : List Nat) (off v : Nat) : Nat → List Nat
  | 0 => m
  | n + 1 => store8 (memset m off v n) (off + n) v

/-- The C `memcpy(m + off, src, src.length)`. -/
def memcpy (m : List Nat) (off : Nat) : List Nat → List Nat
  | [] => m
  | b :: bs => memcpy (store8 m off b) (off + 1) bs

/-! ## Error codes (`transport.h`, `errno.h`) -/

def ETRANSSUCC : Int := 0
def ETRANSERR : Int := 2
def ETRANSNL80211ERR : Int := 3
def ETRANSFTDISPIERR : Int := 4
def ENOMEM : Int := 12
def ENOENT : Int := 2

/-- The netlink callback results `NL_OK`, `NL_SKIP`, `NL_STOP`. -/
inductive nl_cb_action
  | NL_OK
  | NL_SKIP
  | NL_STOP
deriving DecidableEq, Repr

/-! ## Data model (`transport.h`) -/

/-- The C `enum morsectrl_transport_type`. -/
inductive morsectrl_transport_type
  | MORSECTRL_TRANSPORT_NONE
  | MORSECTRL_TRANSPORT_NL80211
  | MORSECTRL_TRANSPORT_FTDI_SPI
deriving DecidableEq, Repr

/-- The C `struct morsectrl_transport_buff`.  `memblock` is the content of the allocated
block, `data` the offset of the data pointer from `memblock`. -/
structure morsectrl_transport_buff where
  memblock : List Nat
  capacity : Nat
  data : Nat
  data_len : Nat
deriving DecidableEq, Repr

/-- The C `struct morsectrl_nl80211_state`.  The socket and the callback sets are
represented by whether they are allocated; `data` and `len` alias the response buffer of
the exchange in progress and are carried by that buffer. -/
structure morsectrl_nl80211_state where
  interface_index : Int
  nl80211_id : Int
  nl_socket : Bool
  cb : Bool
  s_cb : Bool
  wait_for_ack : Bool
deriving DecidableEq, Repr

/-- The C `struct morsectrl_ftdi_spi_state`.  The handle is represented by what the device
behind it holds: the blocks written to its memory, each with its address, the latest first.
The reset handle is not represented. -/
structure morsectrl_ftdi_spi_state where
  handle : List (Nat × List Nat)
deriving DecidableEq, Repr

/-- The fields of the C `struct morsectrl_transport` other than `tops`; this is what a
backend function receives.  `state` is the member `state.nl80211` of the union and
`ftdi_spi` the member `state.ftdi_spi`, empty until a byte-oriented backend writes. -/
structure morsectrl_transport_vars where
  type : morsectrl_transport_type
  debug : Bool
  has_reset : Bool
  has_error_function : Bool
  interface_name : Option String
  state : morsectrl_nl80211_state
  ftdi_spi : morsectrl_ftdi_spi_state := { handle := [] }
deriving DecidableEq, Repr

/-- The members of `struct morsectrl_transport_ops`. -/
inductive ops_member
  | parse | init | deinit | write_alloc | read_alloc | send
  | reg_read | reg_write | mem_read | mem_write
  | raw_read | raw_write | raw_read_write | reset_device
deriving DecidableEq, Repr

/-- Observable actions: a call through a member of the operations table, and the
diagnostics printed. -/
inductive event
  | ops_call (f : ops_member)
  | error_function (subsystem : String) (error_code : Int) (error_msg : String)
  | mctrl_print (msg : String)
  | mctrl_err_message_failed (ret : Int)
  | mctrl_err_command_failed
  | mctrl_err (msg : String)
deriving DecidableEq, Repr

/-- A call through a null function pointer: a member of the operations table, or the error
callback of the transport. -/
inductive crash
  | null_function_pointer (f : ops_member)
  | null_error_function
deriving DecidableEq, Repr

/-- Result of a backend function returning `int`. -/
structure int_out where
  ret : Int
  vars : morsectrl_transport_vars
  log : List event

/-- Result of a backend function returning `int` and writing into a buffer
(`send`, `mem_read`, `raw_read`, `raw_read_write`). -/
structure buff_out where
  ret : Int
  vars : morsectrl_transport_vars
  buff : morsectrl_transport_buff
  log : List event

/-- Result of `reg_read`: `value` is what `*value` holds afterwards. -/
structure reg_out where
  ret : Int
  vars : morsectrl_transport_vars
  value : Nat
  log : List event

/-- The C `struct morsectrl_transport_ops`: a table of nullable function pointers. -/
structure morsectrl_transport_ops where
  parse : Option (morsectrl_transport_vars → Option String → Option String → int_out)
  init : Option (morsectrl_transport_vars → int_out)
  deinit : Option (morsectrl_transport_vars → int_out)
  write_alloc : Option (morsectrl_transport_vars → Nat → Option morsectrl_transport_buff)
  read_alloc : Option (morsectrl_transport_vars → Nat → Option morsectrl_transport_buff)
  send : Option (morsectrl_transport_vars → morsectrl_transport_buff →
    morsectrl_transport_buff → buff_out)
  reg_read : Option (morsectrl_transport_vars → Nat → Nat → reg_out)
  reg_write : Option (morsectrl_transport_vars → Nat → Nat → int_out)
  mem_read : Option (morsectrl_transport_vars → morsectrl_transport_buff → Nat → buff_out)
  mem_write : Option (morsectrl_transport_vars → morsectrl_transport_buff → Nat → int_out)
  raw_read : Option (morsectrl_transport_vars → morsectrl_transport_buff → Bool → Bool →
    buff_out)
  raw_write : Option (morsectrl_transport_vars → morsectrl_transport_buff → Bool → Bool →
    int_out)
  raw_read_write : Option (morsectrl_transport_vars → morsectrl_transport_buff →
    morsectrl_transport_buff → Bool → Bool → buff_out)
  reset_device : Option (morsectrl_transport_vars → int_out)

/-- The C `struct morsectrl_transport`. -/
structure morsectrl_transport where
  vars : morsectrl_transport_vars
  tops : Option morsectrl_transport_ops

/-! ## Environment of the packet backend -/

/-- The behaviour of `malloc`: whether the allocation of a buffer descriptor succeeds, and
for a block of `n` bytes either `none` (out of memory) or the bytes found in the fresh
block. -/
structure heap where
  buff_ok : Bool
  block : Nat → Option (List Nat)

/-- The C `malloc(n)` for a block of bytes: null, or exactly `n` bytes of arbitrary content. -/
def malloc (h : heap) (n : Nat) : Option (List Nat) :=
  (h.block n).map (fun junk => (List.range n).map (fun i => junk.getD i 0 % 256))

/-- One callback that libnl runs while `nl_recvmsgs` processes the incoming messages. -/
inductive nl_delivery
  | valid (vendor_data : Option (List Nat))
  | ack
  | error (code : Int)
deriving DecidableEq, Repr

/-- The behaviour of libnl, the kernel and the C library seen by the packet backend. -/
structure nl80211_env where
  heap : heap
  default_interface_name : String
  if_nametoindex : Option String → Int
  nl_socket_alloc_ok : Bool
  genl_connect : Int
  genl_ctrl_resolve : Int
  nl_cb_alloc_s_cb_ok : Bool
  nl_cb_alloc_cb_ok : Bool
  nlmsg_alloc_ok : Bool
  genlmsg_put_ok : Bool
  nla_put_u32_ifindex : Int
  nla_put_vendor_id_ok : Bool
  nla_put_vendor_subcmd_ok : Bool
  nla_put_vendor_data_ok : Bool
  nl_send_auto_complete : Int
  nl_recvmsgs : Int
  deliveries : List nl_delivery
  nl_wait_for_ack : Int

/-! ## Packet backend (`transport/nl80211.c`) -/

/-- The C `morsectrl_nl80211_error`: forwards to the error callback when there is one. -/
def morsectrl_nl80211_error (transport : morsectrl_transport_vars) (error_code : Int)
    (error_msg : String) : List event :=
  if transport.has_error_function then [event.error_function "NL80211" error_code error_msg]
  else []

/-- The C `morsectrl_nl80211_parse`. -/
def morsectrl_nl80211_parse (env : nl80211_env) (transport : morsectrl_transport_vars)
    (iface_opts : Option String) (_cfg_opts : Option String) : int_out :=
  if transport.type ≠ morsectrl_transport_type.MORSECTRL_TRANSPORT_NL80211 then
    { ret := -ETRANSNL80211ERR, vars := transport, log := [] }
  else
    let name : String := match iface_opts with
      | none => env.default_interface_name
      | some s => s
    let t : morsectrl_transport_vars :=
      { transport with has_reset := false, interface_name := some name }
    { ret := ETRANSSUCC, vars := t,
      log := if transport.debug then [event.mctrl_print ("Using " ++ name ++ " interface")]
             else [] }

/-- The C `morsectrl_nl80211_receive_handler`, acting on the response buffer that
`state->data` and `state->len` point into.  `attr` is the vendor-data attribute of the
message (`none` when `nla_find` finds none); its length is below `2 ^ 16`, as every netlink
attribute length. -/
def morsectrl_nl80211_receive_handler (transport : morsectrl_transport_vars)
    (attr : Option (List Nat)) (resp : morsectrl_transport_buff) :
    nl_cb_action × morsectrl_transport_buff × List event :=
  if transport.type ≠ morsectrl_transport_type.MORSECTRL_TRANSPORT_NL80211 then
    (nl_cb_action.NL_SKIP, resp,
      morsectrl_nl80211_error transport (-ETRANSNL80211ERR) "Transport for receive invalid")
  else
    let dump : List event := if transport.debug then [event.mctrl_print "nla_msg_dump"] else []
    match attr with
    | none =>
      (nl_cb_action.NL_SKIP, resp,
        dump ++ morsectrl_nl80211_error transport 0 "Vendor data attribute missing")
    | some data =>
      let len : Nat := data.length
      let too_small : Bool := decide (len > resp.data_len)
      let len : Nat := if too_small then resp.data_len else len
      let log : List event :=
        if too_small then
          morsectrl_nl80211_error transport (-ETRANSNL80211ERR)
            "Output buffer too small limiting output"
        else []
      (nl_cb_action.NL_OK,
        { resp with memblock := memcpy resp.memblock resp.data (data.take len),
                    data_len := len },
        dump ++ log)

/-- The C `morsectrl_nl80211_ack_handler`. -/
def morsectrl_nl80211_ack_handler (transport : morsectrl_transport_vars) :
    nl_cb_action × morsectrl_transport_vars × List event :=
  (nl_cb_action.NL_STOP,
    { transport with state := { transport.state with wait_for_ack := false } },
    if transport.debug then [event.mctrl_print "nla_msg_dump"] else [])

/-- The C `morsectrl_nl80211_error_handler`. -/
def morsectrl_nl80211_error_handler (transport : morsectrl_transport_vars) (nlerr : Int) :
    nl_cb_action × List event :=
  (nl_cb_action.NL_STOP,
    if transport.type ≠ morsectrl_transport_type.MORSECTRL_TRANSPORT_NL80211 then
      morsectrl_nl80211_error transport nlerr "Error callback called"
    else [])

/-- The C `morsectrl_nl80211_alloc`. -/
def morsectrl_nl80211_alloc (h : heap) (size : Nat) : Option morsectrl_transport_buff :=
  if size ≤ 0 then none
  else if !h.buff_ok then none
  else
    let capacity := size
    match malloc h capacity with
    | none => none
    | some memblock =>
      some { memblock := memblock, capacity := capacity, data := 0, data_len := capacity }

/-- The C `morsectrl_nl80211_write_alloc`. -/
def morsectrl_nl80211_write_alloc (env : nl80211_env) (transport : morsectrl_transport_vars)
    (size : Nat) : Option morsectrl_transport_buff :=
  if transport.type ≠ morsectrl_transport_type.MORSECTRL_TRANSPORT_NL80211 then none
  else morsectrl_nl80211_alloc env.heap size

/-- The C `morsectrl_nl80211_read_alloc`. -/
def morsectrl_nl80211_read_alloc (env : nl80211_env) (transport : morsectrl_transport_vars)
    (size : Nat) : Option morsectrl_transport_buff :=
  if transport.type ≠ morsectrl_transport_type.MORSECTRL_TRANSPORT_NL80211 then none
  else morsectrl_nl80211_alloc env.heap size

/-- The C `morsectrl_nl80211_init`. -/
def morsectrl_nl80211_init (env : nl80211_env) (transport : morsectrl_transport_vars) :
    int_out :=
  if transport.type ≠ morsectrl_transport_type.MORSECTRL_TRANSPORT_NL80211 then
    { ret := -ETRANSNL80211ERR, vars := transport, log := [] }
  else
    let idx := env.if_nametoindex transport.interface_name
    let t0 : morsectrl_transport_vars :=
      { transport with state := { transport.state with interface_index := idx } }
    if idx = 0 then
      { ret := -ETRANSNL80211ERR, vars := t0,
        log := morsectrl_nl80211_error t0 idx "Invalid interface index" }
    else
      let t1 : morsectrl_transport_vars :=
        { t0 with state := { t0.state with wait_for_ack := false,
                                           nl_socket := env.nl_socket_alloc_ok } }
      if !env.nl_socket_alloc_ok then
        { ret := -ENOMEM, vars := t1,
          log := morsectrl_nl80211_error t1 (-ENOMEM) "Failed to allocate netlink socket" }
      else if env.genl_connect < ETRANSSUCC then
        { ret := env.genl_connect,
          vars := { t1 with state := { t1.state with nl_socket := false } },
          log := morsectrl_nl80211_error t1 env.genl_connect "genl_connect failed" }
      else
        let t2 : morsectrl_transport_vars :=
          { t1 with state := { t1.state with nl80211_id := env.genl_ctrl_resolve } }
        if env.genl_ctrl_resolve < 0 then
          { ret := -ENOENT,
            vars := { t2 with state := { t2.state with nl_socket := false } },
            log := morsectrl_nl80211_error t2 (-ENOENT) "Failed to get netlink id" }
        else
          let t3 : morsectrl_transport_vars :=
            { t2 with state := { t2.state with s_cb := env.nl_cb_alloc_s_cb_ok,
                                               cb := env.nl_cb_alloc_cb_ok } }
          if !env.nl_cb_alloc_cb_ok || !env.nl_cb_alloc_s_cb_ok then
            { ret := -ENOMEM,
              vars := { t3 with state := { t3.state with cb := false, s_cb := false,
                                                         nl_socket := false } },
              log := morsectrl_nl80211_error t3 (-ENOMEM)
                "Failed to allocate netlink callbacks" }
          else
            { ret := env.genl_connect, vars := t3, log := [] }

/-- The C `morsectrl_nl80211_deinit`. -/
def morsectrl_nl80211_deinit (transport : morsectrl_transport_vars) : int_out :=
  if transport.type ≠ morsectrl_transport_type.MORSECTRL_TRANSPORT_NL80211 then
    { ret := -ETRANSNL80211ERR, vars := transport, log := [] }
  else
    { ret := ETRANSSUCC,
      vars := { transport with
        state := { interface_index := 0, nl80211_id := 0, nl_socket := false, cb := false,
                   s_cb := false, wait_for_ack := false } },
      log := [] }

/-- The callbacks that libnl runs during `nl_recvmsgs`, in order of arrival, until one of
them answers `NL_STOP`. -/
def nl_recvmsgs_callbacks (transport : morsectrl_transport_vars)
    (resp : morsectrl_transport_buff) :
    List nl_delivery → morsectrl_transport_vars × morsectrl_transport_buff × List event
  | [] => (transport, resp, [])
  | nl_delivery.valid attr :: ds =>
    match morsectrl_nl80211_receive_handler transport attr resp with
    | (nl_cb_action.NL_STOP, resp1, log1) => (transport, resp1, log1)
    | (_, resp1, log1) =>
      match nl_recvmsgs_callbacks transport resp1 ds with
      | (t2, resp2, log2) => (t2, resp2, log1 ++ log2)
  | nl_delivery.ack :: ds =>
    match morsectrl_nl80211_ack_handler transport with
    | (nl_cb_action.NL_STOP, t1, log1) => (t1, resp, log1)
    | (_, t1, log1) =>
      match nl_recvmsgs_callbacks t1 resp ds with
      | (t2, resp2, log2) => (t2, resp2, log1 ++ log2)
  | nl_delivery.error code :: ds =>
    match morsectrl_nl80211_error_handler transport code with
    | (nl_cb_action.NL_STOP, log1) => (transport, resp, log1)
    | (_, log1) =>
      match nl_recvmsgs_callbacks transport resp ds with
      | (t2, resp2, log2) => (t2, resp2, log1 ++ log2)

/-- The C `morsectrl_nl80211_send`. -/
def morsectrl_nl80211_send (env : nl80211_env) (transport : morsectrl_transport_vars)
    (_cmd : morsectrl_transport_buff) (resp : morsectrl_transport_buff) : buff_out :=
  let ack_off (t : morsectrl_transport_vars) : morsectrl_transport_vars :=
    { t with state := { t.state with wait_for_ack := false } }
  if transport.type ≠ morsectrl_transport_type.MORSECTRL_TRANSPORT_NL80211 then
    { ret := -ETRANSNL80211ERR, vars := transport, buff := resp, log := [] }
  else if !env.nlmsg_alloc_ok then
    { ret := -ENOMEM, vars := transport, buff := resp,
      log := morsectrl_nl80211_error transport (-ENOMEM) "Failed to allocate netlink message" }
  else if !env.genlmsg_put_ok then
    { ret := -ENOMEM, vars := ack_off transport, buff := resp,
      log := morsectrl_nl80211_error transport (-ENOMEM) "Unable to put msg" }
  else if env.nla_put_u32_ifindex < ETRANSSUCC then
    { ret := env.nla_put_u32_ifindex, vars := ack_off transport, buff := resp,
      log := morsectrl_nl80211_error transport env.nla_put_u32_ifindex
        "Unable to put interface index" }
  else if !env.nla_put_vendor_id_ok || !env.nla_put_vendor_subcmd_ok
      || !env.nla_put_vendor_data_ok then
    { ret := env.nla_put_u32_ifindex, vars := ack_off transport, buff := resp, log := [] }
  else
    let t1 : morsectrl_transport_vars :=
      { transport with state := { transport.state with wait_for_ack := true } }
    if env.nl_send_auto_complete < ETRANSSUCC then
      { ret := env.nl_send_auto_complete, vars := ack_off t1, buff := resp,
        log := morsectrl_nl80211_error t1 env.nl_send_auto_complete
          "Failed to send_auto_complete" }
    else
      match nl_recvmsgs_callbacks t1 resp env.deliveries with
      | (t2, resp2, log2) =>
        if env.nl_recvmsgs < ETRANSSUCC then
          { ret := env.nl_recvmsgs, vars := ack_off t2, buff := resp2,
            log := log2 ++ morsectrl_nl80211_error t2 env.nl_recvmsgs "Failed to rcvmsgs" }
        else if t2.state.wait_for_ack then
          { ret := env.nl_wait_for_ack, vars := ack_off t2, buff := resp2,
            log := log2 ++
              (if env.nl_wait_for_ack < 0 then
                morsectrl_nl80211_error t2 env.nl_wait_for_ack "Failed to wait for ACK"
              else []) }
        else
          { ret := env.nl_recvmsgs, vars := ack_off t2, buff := resp2, log := log2 }

/-- The C table `nl80211_ops`. -/
def nl80211_ops (env : nl80211_env) : morsectrl_transport_ops :=
  { parse := some (morsectrl_nl80211_parse env),
    init := some (morsectrl_nl80211_init env),
    deinit := some morsectrl_nl80211_deinit,
    write_alloc := some (morsectrl_nl80211_write_alloc env),
    read_alloc := some (morsectrl_nl80211_read_alloc env),
    send := some (morsectrl_nl80211_send env),
    reg_read := none,
    reg_write := none,
    mem_read := none,
    mem_write := none,
    raw_read := none,
    raw_write := none,
    raw_read_write := none,
    reset_device := none }

/-! ## Envelope layout (`command.h`)

The header `command.h` that declares `struct command` and `struct response` is not part of
the sources.  The sizes `sizeof(struct command)` and `sizeof(struct response)` are
parameters (`sizeof_command`, `sizeof_response`) of the functions that use them; the header
of a command is the whole of `struct command` up to its trailing payload array, so
`sizeof(command->hdr)` is `sizeof_command` too.  The offsets of the fields are those of the
wire layout. -/

/-- Modelled from the spec: `offsetof(struct command, hdr.message_id)`, declared in the
absent `command.h`; the wire layout places `message_id` (u16) at bytes `[0..2)`. -/
def OFFSET_MESSAGE_ID : Nat := 0

/-- Modelled from the spec: `offsetof(struct command, hdr.len)`, declared in the absent
`command.h`; the wire layout places `payload_len` (u16) at bytes `[2..4)`. -/
def OFFSET_LEN : Nat := 2

/-- Modelled from the spec: `offsetof(struct command, hdr.flags)`, declared in the absent
`command.h`; the wire layout places `flags` (u8) at byte `[4]`. -/
def OFFSET_FLAGS : Nat := 4

/-- Modelled from the spec: `offsetof(struct response, status)`, declared in the absent
`command.h`; the wire layout places `status` (i32) at bytes `[0..4)`. -/
def OFFSET_STATUS : Nat := 0

/-- Modelled from the spec: `offsetof(struct response, data)`, the member that `TBUFF_TO_RSP`
points to, declared in the absent `command.h`; the wire layout places the payload at bytes
`[resp_header_len..)`. -/
def OFFSET_RESPONSE_DATA (sizeof_response : Nat) : Nat := sizeof_response

/-- The C `MORSECTRL_CMD_REQ_FLAG`, that is `BIT(0)`. -/
def MORSECTRL_CMD_REQ_FLAG : Nat := 1 <<< 0

/-! ## Transport dispatcher (`transport/transport.c`) -/

/-- Result of a dispatcher allocator. -/
structure alloc_out where
  buff : Option morsectrl_transport_buff
  log : List event

/-- The C `morsectrl_transport_cmd_alloc`. -/
def morsectrl_transport_cmd_alloc (sizeof_command : Nat) (transport : morsectrl_transport)
    (size : Nat) : Except crash alloc_out :=
  match transport.tops with
  | none => .ok { buff := none, log := [] }
  | some tops =>
    match tops.write_alloc with
    | none => .error (crash.null_function_pointer ops_member.write_alloc)
    | some write_alloc =>
      .ok { buff := write_alloc transport.vars (size_add sizeof_command size),
            log := [event.ops_call ops_member.write_alloc] }

/-- The C `morsectrl_transport_resp_alloc`. -/
def morsectrl_transport_resp_alloc (sizeof_response : Nat) (transport : morsectrl_transport)
    (size : Nat) : Except crash alloc_out :=
  match transport.tops with
  | none => .ok { buff := none, log := [] }
  | some tops =>
    match tops.read_alloc with
    | none => .error (crash.null_function_pointer ops_member.read_alloc)
    | some read_alloc =>
      .ok { buff := read_alloc transport.vars (size_add sizeof_response size),
            log := [event.ops_call ops_member.read_alloc] }

/-- The C `morsectrl_transport_raw_read_alloc`. -/
def morsectrl_transport_raw_read_alloc (transport : morsectrl_transport) (size : Nat) :
    alloc_out :=
  match transport.tops with
  | none => { buff := none, log := [] }
  | some tops =>
    match tops.read_alloc with
    | none => { buff := none, log := [] }
    | some read_alloc =>
      { buff := read_alloc transport.vars size, log := [event.ops_call ops_member.read_alloc] }

/-- The C `morsectrl_transport_raw_write_alloc`. -/
def morsectrl_transport_raw_write_alloc (transport : morsectrl_transport) (size : Nat) :
    alloc_out :=
  match transport.tops with
  | none => { buff := none, log := [] }
  | some tops =>
    match tops.write_alloc with
    | none => { buff := none, log := [] }
    | some write_alloc =>
      { buff := write_alloc transport.vars size,
        log := [event.ops_call ops_member.write_alloc] }

/-- The C `morsectrl_transport_set_cmd_data_length`; `length` is a `uint16_t`. -/
def morsectrl_transport_set_cmd_data_length (sizeof_command : Nat)
    (tbuff : morsectrl_transport_buff) (length : Nat) : morsectrl_transport_buff :=
  { tbuff with data_len := size_add sizeof_command (length % 65536) }

/-- The C `morsectrl_transport_send`. -/
def morsectrl_transport_send (transport : morsectrl_transport)
    (cmd resp : morsectrl_transport_buff) : Except crash buff_out :=
  match transport.tops with
  | none => .ok { ret := -ETRANSERR, vars := transport.vars, buff := resp, log := [] }
  | some tops =>
    match tops.send with
    | none => .error (crash.null_function_pointer ops_member.send)
    | some send =>
      let r := send transport.vars cmd resp
      .ok { r with log := event.ops_call ops_member.send :: r.log }

/-! ## Command sender (`command.c`) -/

/-- Result of `morsectrl_send_command`: the returned value, the transport fields and the
two buffers as the call leaves them, and what was called and printed. -/
structure send_command_out where
  ret : Int
  vars : morsectrl_transport_vars
  cmd : Option morsectrl_transport_buff
  resp : Option morsectrl_transport_buff
  log : List event

/-- Lines 32 to 36 of `morsectrl_send_command`: the stores into the command header, at the
data pointer of `cmd`. -/
def command_hdr_write (sizeof_command : Nat) (message_id : Int)
    (cmd : morsectrl_transport_buff) : morsectrl_transport_buff :=
  let command := cmd.data
  let m := memset cmd.memblock command 0 sizeof_command
  let m := store16le m (command + OFFSET_MESSAGE_ID) (int_to_u16 message_id)
  let m := store16le m (command + OFFSET_LEN)
    (size_to_u16 (size_sub cmd.data_len sizeof_command))
  let m := store8 m (command + OFFSET_FLAGS) MORSECTRL_CMD_REQ_FLAG
  { cmd with memblock := m }

/-- The C `morsectrl_send_command`. -/
def morsectrl_send_command (sizeof_command : Nat) (transport : morsectrl_transport)
    (message_id : Int) (cmd resp : Option morsectrl_transport_buff) :
    Except crash send_command_out :=
  match cmd, resp with
  | some c, some r =>
    let c1 : morsectrl_transport_buff := command_hdr_write sizeof_command message_id c
    let response := r.data
    match morsectrl_transport_send transport c1 r with
    | .error e => .error e
    | .ok out =>
      if out.ret < 0 then
        .ok { ret := out.ret, vars := out.vars, cmd := some c1, resp := some out.buff,
              log := out.log ++
                (if out.vars.debug then [event.mctrl_err_message_failed out.ret] else []) }
      else
        let ret := u32_to_int (load32le out.buff.memblock (response + OFFSET_STATUS))
        .ok { ret := ret, vars := out.vars, cmd := some c1, resp := some out.buff,
              log := out.log ++
                (if ret ≠ 0 ∧ out.vars.debug ∧ ret ≠ 110 then [event.mctrl_err_command_failed]
                 else []) }
  | _, _ =>
    .ok { ret := -ENOMEM, vars := transport.vars, cmd := cmd, resp := resp, log := [] }

/-! ## Transport dispatcher, continued (`transport/transport.c`) -/

/-- Result of a dispatcher function that may replace the backend selection
(`morsectrl_transport_parse`, `morsectrl_transport_init`, `morsectrl_transport_deinit`). -/
structure transport_out where
  ret : Int
  transport : morsectrl_transport
  log : List event

/-- The C `morsectrl_transport_init`. -/
def morsectrl_transport_init (transport : morsectrl_transport) : Except crash transport_out :=
  match transport.tops with
  | some tops =>
    match tops.init with
    | none => .error (crash.null_function_pointer ops_member.init)
    | some init =>
      let r := init transport.vars
      .ok { ret := r.ret, transport := { transport with vars := r.vars },
            log := event.ops_call ops_member.init :: r.log }
  | none => .ok { ret := -ETRANSERR, transport := transport, log := [] }

/-- The C `morsectrl_transport_deinit`. -/
def morsectrl_transport_deinit (transport : morsectrl_transport) :
    Except crash transport_out :=
  match transport.tops with
  | some tops =>
    match tops.deinit with
    | none => .error (crash.null_function_pointer ops_member.deinit)
    | some deinit =>
      let r := deinit transport.vars
      .ok { ret := r.ret, transport := { vars := r.vars, tops := none },
            log := event.ops_call ops_member.deinit :: r.log }
  | none =>
    .ok { ret := ETRANSSUCC, transport := { transport with tops := none }, log := [] }

/-- A call of `free`: on the block of a buffer, or on the buffer descriptor. -/
inductive free_call
  | memblock (block : List Nat)
  | buff (b : morsectrl_transport_buff)
deriving DecidableEq, Repr

/-- The C `morsectrl_transport_buff_free`: the returned value and the calls of `free`, in
order. -/
def morsectrl_transport_buff_free (buff : Option morsectrl_transport_buff) :
    Int × List free_call :=
  match buff with
  | none => (-ETRANSERR, [])
  | some b => (ETRANSSUCC, [free_call.memblock b.memblock, free_call.buff b])

/-- The C `morsectrl_transport_reg_read`; `value` is what `*value` holds before the call. -/
def morsectrl_transport_reg_read (transport : morsectrl_transport) (addr value : Nat) :
    reg_out :=
  match transport.tops with
  | none => { ret := -ETRANSERR, vars := transport.vars, value := value, log := [] }
  | some tops =>
    match tops.reg_read with
    | none => { ret := -ETRANSERR, vars := transport.vars, value := value, log := [] }
    | some reg_read =>
      let r := reg_read transport.vars addr value
      { r with log := event.ops_call ops_member.reg_read :: r.log }

/-- The C `morsectrl_transport_reg_write`. -/
def morsectrl_transport_reg_write (transport : morsectrl_transport) (addr value : Nat) :
    int_out :=
  match transport.tops with
  | none => { ret := -ETRANSERR, vars := transport.vars, log := [] }
  | some tops =>
    match tops.reg_write with
    | none => { ret := -ETRANSERR, vars := transport.vars, log := [] }
    | some reg_write =>
      let r := reg_write transport.vars addr value
      { r with log := event.ops_call ops_member.reg_write :: r.log }

/-- The C `morsectrl_transport_mem_read`. -/
def morsectrl_transport_mem_read (transport : morsectrl_transport)
    (read : morsectrl_transport_buff) (addr : Nat) : buff_out :=
  match transport.tops with
  | none => { ret := -ETRANSERR, vars := transport.vars, buff := read, log := [] }
  | some tops =>
    match tops.mem_read with
    | none => { ret := -ETRANSERR, vars := transport.vars, buff := read, log := [] }
    | some mem_read =>
      let r := mem_read transport.vars read addr
      { r with log := event.ops_call ops_member.mem_read :: r.log }

/-- The C `morsectrl_transport_mem_write`. -/
def morsectrl_transport_mem_write (transport : morsectrl_transport)
    (write : morsectrl_transport_buff) (addr : Nat) : int_out :=
  match transport.tops with
  | none => { ret := -ETRANSERR, vars := transport.vars, log := [] }
  | some tops =>
    match tops.mem_write with
    | none => { ret := -ETRANSERR, vars := transport.vars, log := [] }
    | some mem_write =>
      let r := mem_write transport.vars write addr
      { r with log := event.ops_call ops_member.mem_write :: r.log }

/-- The C `morsectrl_transport_raw_read`. -/
def morsectrl_transport_raw_read (transport : morsectrl_transport)
    (read : morsectrl_transport_buff) (start finish : Bool) : Except crash buff_out :=
  match transport.tops with
  | none => .ok { ret := -ETRANSERR, vars := transport.vars, buff := read, log := [] }
  | some tops =>
    match tops.raw_read with
    | none => .error (crash.null_function_pointer ops_member.raw_read)
    | some raw_read =>
      let r := raw_read transport.vars read start finish
      .ok { r with log := event.ops_call ops_member.raw_read :: r.log }

/-- The C `morsectrl_transport_raw_write`. -/
def morsectrl_transport_raw_write (transport : morsectrl_transport)
    (write : morsectrl_transport_buff) (start finish : Bool) : Except crash int_out :=
  match transport.tops with
  | none => .ok { ret := -ETRANSERR, vars := transport.vars, log := [] }
  | some tops =>
    match tops.raw_write with
    | none => .error (crash.null_function_pointer ops_member.raw_write)
    | some raw_write =>
      let r := raw_write transport.vars write start finish
      .ok { r with log := event.ops_call ops_member.raw_write :: r.log }

/-- The C `morsectrl_transport_raw_read_write`. -/
def morsectrl_transport_raw_read_write (transport : morsectrl_transport)
    (read write : morsectrl_transport_buff) (start finish : Bool) : Except crash buff_out :=
  match transport.tops with
  | none => .ok { ret := -ETRANSERR, vars := transport.vars, buff := read, log := [] }
  | some tops =>
    match tops.raw_read_write with
    | none => .error (crash.null_function_pointer ops_member.raw_read_write)
    | some raw_read_write =>
      let r := raw_read_write transport.vars read write start finish
      .ok { r with log := event.ops_call ops_member.raw_read_write :: r.log }

/-- The C `morsectrl_transport_reset_device`. -/
def morsectrl_transport_reset_device (transport : morsectrl_transport) : int_out :=
  match transport.tops with
  | none => { ret := -ETRANSERR, vars := transport.vars, log := [] }
  | some tops =>
    match tops.reset_device with
    | none => { ret := -ETRANSERR, vars := transport.vars, log := [] }
    | some reset_device =>
      let r := reset_device transport.vars
      { r with log := event.ops_call ops_member.reset_device :: r.log }

/-! ## Backend selection (`transport/transport.c`) -/

/-- The C test `strncmp(s1, s2, n) == 0` on strings without an embedded NUL. -/
def strncmp_eq (s1 s2 : List Char) : Nat → Bool
  | 0 => true
  | n + 1 =>
    match s1, s2 with
    | [], [] => true
    | c1 :: r1, c2 :: r2 => c1 == c2 && strncmp_eq r1 r2 n
    | _, _ => false

/-- The C test `strcmp(s1, s2) == 0`. -/
def strcmp_eq (s1 s2 : String) : Bool := decide (s1 = s2)

def transport_none : String := "none"
def transport_nl80211 : String := "nl80211"
def transport_ftdi_spi : String := "ftdi_spi"

/-- The compile-time configuration: which backends are compiled in, and the operations table
`ftdi_spi_ops` of the byte-oriented backend, whose source file is not part of the sources. -/
structure build_config where
  ENABLE_TRANS_NL80211 : Bool
  ENABLE_TRANS_FTDI_SPI : Bool
  ftdi_spi_ops : morsectrl_transport_ops

/-- Lines 26 to 64 of `morsectrl_transport_parse`: the type and the table selected for a
transport name, and the name printed in debug mode. -/
def transport_select (cfg : build_config) (env : nl80211_env) (trans_opts : Option String) :
    morsectrl_transport_type × Option morsectrl_transport_ops × String :=
  match trans_opts with
  | none =>
    if cfg.ENABLE_TRANS_NL80211 then
      (morsectrl_transport_type.MORSECTRL_TRANSPORT_NL80211, some (nl80211_ops env), "NL80211")
    else (morsectrl_transport_type.MORSECTRL_TRANSPORT_NONE, none, "None")
  | some name =>
    if cfg.ENABLE_TRANS_NL80211 &&
        strncmp_eq name.toList transport_nl80211.toList transport_nl80211.length then
      (morsectrl_transport_type.MORSECTRL_TRANSPORT_NL80211, some (nl80211_ops env), "NL80211")
    else if cfg.ENABLE_TRANS_FTDI_SPI &&
        strncmp_eq name.toList transport_ftdi_spi.toList transport_ftdi_spi.length then
      (morsectrl_transport_type.MORSECTRL_TRANSPORT_FTDI_SPI, some cfg.ftdi_spi_ops,
        "FTDI SPI")
    else (morsectrl_transport_type.MORSECTRL_TRANSPORT_NONE, none, "None")

/-- The C `morsectrl_transport_parse`. -/
def morsectrl_transport_parse (cfg : build_config) (env : nl80211_env)
    (transport : morsectrl_transport) (trans_opts iface_opts cfg_opts : Option String) :
    Except crash transport_out :=
  let sel := transport_select cfg env trans_opts
  let log1 : List event :=
    if transport.vars.debug then
      [event.mctrl_print "Transport set to: ", event.mctrl_print sel.2.2]
    else []
  let vars1 : morsectrl_transport_vars := { transport.vars with type := sel.1 }
  let invalid : List event :=
    [event.error_function "Transport parsing" (-ETRANSERR) "Invalid transport"]
  match sel.2.1 with
  | none =>
    if vars1.has_error_function then
      .ok { ret := -ETRANSERR, transport := { vars := vars1, tops := none },
            log := log1 ++ invalid }
    else .error crash.null_error_function
  | some tops =>
    match tops.parse with
    | none => .error (crash.null_function_pointer ops_member.parse)
    | some parse =>
      let r := parse vars1 iface_opts cfg_opts
      if r.ret ≠ 0 then
        if r.vars.has_error_function then
          .ok { ret := r.ret, transport := { vars := r.vars, tops := some tops },
                log := log1 ++ event.ops_call ops_member.parse :: r.log ++ invalid }
        else .error crash.null_error_function
      else
        .ok { ret := r.ret, transport := { vars := r.vars, tops := some tops },
              log := log1 ++ event.ops_call ops_member.parse :: r.log }

/-! ## The program entry (`morsectrl.c`, `morsectrl.h`) -/

def MORSE_OK : Int := 0
def MORSE_ARG_ERR : Int := 1
def MORSE_CMD_ERR : Int := 2
def ENODEV : Int := 19

/-- The C `struct command_handler`; the handler receives the transport and the arguments and
leaves a result and the transport. -/
structure command_handler where
  name : String
  handler : morsectrl_transport → List String → Int × morsectrl_transport
  is_intf_cmd : Bool
  direct_chip_supported_cmd : Bool

/-- What `main` calls, in order: the dispatcher functions and the handler, each with the
value it returned. -/
inductive main_event
  | transport_parse (ret : Int)
  | transport_init (ret : Int)
  | handler (name : String) (ret : Int)
  | transport_deinit (ret : Int)
deriving DecidableEq, Repr

/-- Result of `main`: the value returned to the system, the transport at that point and the
calls made. -/
structure main_out where
  ret : Int
  transport : morsectrl_transport
  trace : List main_event

/-- The label `exit` of `main` (lines 504 to 514): the value returned for `ret`. -/
def main_exit (ret : Int) : Int :=
  if ret < 0 ∨ ret > 254 then MORSE_CMD_ERR else ret

/-- Lines 492 to 514 of `main`: the handler of the command found, the label `transport_exit`
and the label `exit`. -/
def main_handler (c : command_handler) (transport : morsectrl_transport)
    (args : List String) (trace : List main_event) : Except crash main_out :=
  match c.handler transport args with
  | (ret, t1) =>
    if c.is_intf_cmd then
      match morsectrl_transport_deinit t1 with
      | .error e => .error e
      | .ok d =>
        .ok { ret := main_exit ret, transport := d.transport,
              trace := trace ++ [main_event.handler c.name ret,
                                 main_event.transport_deinit d.ret] }
    else
      .ok { ret := main_exit ret, transport := t1,
            trace := trace ++ [main_event.handler c.name ret] }

/-- Lines 455 to 514 of `main`: the body of the loop for the command found. -/
def main_command (cfg : build_config) (c : command_handler) (transport : morsectrl_transport)
    (args : List String) (trace : List main_event) : Except crash main_out :=
  if cfg.ENABLE_TRANS_FTDI_SPI ∧ c.direct_chip_supported_cmd = false ∧
      transport.vars.type = morsectrl_transport_type.MORSECTRL_TRANSPORT_FTDI_SPI then
    .ok { ret := main_exit ETRANSFTDISPIERR, transport := transport, trace := trace }
  else if c.is_intf_cmd ∨
      (strncmp_eq c.name.toList "reset".toList c.name.length = true ∧
        transport.vars.has_reset = true) then
    match morsectrl_transport_init transport with
    | .error e => .error e
    | .ok i =>
      if i.ret ≠ 0 then
        .ok { ret := main_exit i.ret, transport := i.transport,
              trace := trace ++ [main_event.transport_init i.ret] }
      else main_handler c i.transport args (trace ++ [main_event.transport_init i.ret])
  else main_handler c transport args trace

/-- Lines 352 to 359 of `main`, and the `-d` option: the transport before it is parsed. -/
def main_transport (debug : Bool) : morsectrl_transport :=
  { vars := { type := morsectrl_transport_type.MORSECTRL_TRANSPORT_NONE,
              debug := debug, has_reset := false, has_error_function := true,
              interface_name := none,
              state := { interface_index := 0, nl80211_id := 0, nl_socket := false,
                         cb := false, s_cb := false, wait_for_ack := false } },
    tops := none }

/-- The C `main` from line 419 on, after the options have been read: `debug` is the `-d`
flag, `file_opts`, `trans_opts`, `iface_opts` and `cfg_opts` the option arguments, `args` the
arguments from `optind` on, `commands` the command table and `config_file_parse` the
behaviour of `morsectrl_config_file_parse`, which returns a result and the three option
strings. -/
def main (cfg : build_config) (env : nl80211_env) (commands : List command_handler)
    (config_file_parse : String → Option String → Option String → Option String →
      Int × Option String × Option String × Option String)
    (debug : Bool) (file_opts trans_opts iface_opts cfg_opts : Option String)
    (args : List String) : Except crash main_out :=
  let transport : morsectrl_transport := main_transport debug
  let file : Int × Option String × Option String × Option String :=
    match file_opts with
    | some f => config_file_parse f trans_opts iface_opts cfg_opts
    | none => (MORSE_OK, trans_opts, iface_opts, cfg_opts)
  if file.1 ≠ 0 then
    .ok { ret := main_exit file.1, transport := transport, trace := [] }
  else
    match morsectrl_transport_parse cfg env transport file.2.1 file.2.2.1 file.2.2.2 with
    | .error e => .error e
    | .ok p =>
      let trace := [main_event.transport_parse p.ret]
      if p.transport.vars.type = morsectrl_transport_type.MORSECTRL_TRANSPORT_NONE then
        .ok { ret := main_exit (-ENODEV), transport := p.transport, trace := trace }
      else if p.ret ≠ 0 then
        .ok { ret := main_exit p.ret, transport := p.transport, trace := trace }
      else
        match args with
        | [] => .ok { ret := MORSE_ARG_ERR, transport := p.transport, trace := trace }
        | argv0 :: _ =>
          match commands.find? (fun c => strcmp_eq argv0 c.name) with
          | some c => main_command cfg c p.transport args trace
          | none =>
            .ok { ret := main_exit MORSE_CMD_ERR, transport := p.transport, trace := trace }

/-! ## The force-assert command (`force_assert.c`) -/

def HOST_HARTID : Int := 0
def MAC_HARTID : Int := 1
def UPHY_HARTID : Int := 2
def LPHY_HARTID : Int := 3

/-- Conversion of an `int` to `uint32_t`. -/
def int_to_u32 (v : Int) : Nat := (v % 4294967296).toNat

/-- Little-endian store of a 32-bit value at offset `i` (`htole32` then a 32-bit store). -/
def store32le (m : List Nat) (i v : Nat) : List Nat :=
  store8 (store8 (store8 (store8 m i (v % 256)) (i + 1) (v / 256 % 256)) (i + 2)
    (v / 65536 % 256)) (i + 3) (v / 16777216 % 256)

/-- The C `usage` of `force_assert.c`: the lines printed. -/
def force_assert_usage : List event :=
  [event.mctrl_print "assert <core> forces the specified core to assert- defaults to mac if no arg",
   event.mctrl_print "-a App core",
   event.mctrl_print "-m Mac core",
   event.mctrl_print "-u Uphy core",
   event.mctrl_print "-l Lphy core"]

/-- Lines 73 to 95 of `force_assert`: the loop over the option characters that `getopt`
returns, from the current `hart_id`; `none` when a character is not one of `a`, `m`, `u`,
`l`. -/
def force_assert_getopt (hart_id : Int) : List Char → Option Int
  | [] => some hart_id
  | option :: rest =>
    if option = 'a' then force_assert_getopt HOST_HARTID rest
    else if option = 'm' then force_assert_getopt MAC_HARTID rest
    else if option = 'u' then force_assert_getopt UPHY_HARTID rest
    else if option = 'l' then force_assert_getopt LPHY_HARTID rest
    else none

/-- The state of `force_assert` when it reaches its label `exit`. -/
structure force_assert_state where
  ret : Int
  cmd_tbuff : Option morsectrl_transport_buff
  rsp_tbuff : Option morsectrl_transport_buff
  log : List event

/-- Lines 59 to 100 of `force_assert`, for `argc` 1 or 2: the allocations, the choice of the
hart and the round trip.  `force_assert_id` is `MORSE_TEST_COMMAND_FORCE_ASSERT`, declared in
the absent `command.h`; `options` are the characters `getopt` returns and `hart_id` the value
the uninitialised variable holds. -/
def force_assert_exchange (sizeof_command sizeof_response : Nat) (force_assert_id : Int)
    (transport : morsectrl_transport) (argc : Nat) (options : List Char) (hart_id : Int) :
    Except crash force_assert_state :=
  match morsectrl_transport_cmd_alloc sizeof_command transport 4 with
  | .error e => .error e
  | .ok ca =>
    match morsectrl_transport_resp_alloc sizeof_response transport 0 with
    | .error e => .error e
    | .ok ra =>
      match ca.buff, ra.buff with
      | some c, some r =>
        match (if argc = 1 then some MAC_HARTID else force_assert_getopt hart_id options) with
        | none =>
          .ok { ret := -1, cmd_tbuff := some c, rsp_tbuff := some r,
                log := ca.log ++ ra.log ++ event.mctrl_err "Invalid hart" ::
                  force_assert_usage }
        | some hart =>
          let c1 : morsectrl_transport_buff :=
            { c with memblock :=
                store32le c.memblock (c.data + sizeof_command) (int_to_u32 hart) }
          match morsectrl_send_command sizeof_command transport force_assert_id (some c1)
              (some r) with
          | .error e => .error e
          | .ok sc =>
            .ok { ret := sc.ret, cmd_tbuff := sc.cmd, rsp_tbuff := sc.resp,
                  log := ca.log ++ ra.log ++ sc.log }
      | _, _ =>
        .ok { ret := -1, cmd_tbuff := ca.buff, rsp_tbuff := ra.buff, log := ca.log ++ ra.log }

/-- Result of `force_assert`: the returned value, what was printed and called, and the calls
of `free`. -/
structure force_assert_out where
  ret : Int
  log : List event
  frees : List free_call

/-- The C `force_assert`. -/
def force_assert (sizeof_command sizeof_response : Nat) (force_assert_id : Int)
    (transport : morsectrl_transport) (argc : Nat) (options : List Char) (hart_id : Int) :
    Except crash force_assert_out :=
  if argc = 0 then .ok { ret := 0, log := force_assert_usage, frees := [] }
  else if argc > 2 then
    .ok { ret := -1, log := event.mctrl_err "Invalid command parameters" :: force_assert_usage,
          frees := [] }
  else
    match force_assert_exchange sizeof_command sizeof_response force_assert_id transport argc
        options hart_id with
    | .error e => .error e
    | .ok st =>
      .ok { ret := if st.ret ≠ -110 then -1 else 0,
            log := st.log ++
              (if st.ret ≠ -110 then
                event.mctrl_err "Chip didn't timeout. Command failed" ::
                  (if st.ret ≠ 0 then
                    [event.mctrl_err ("Wrong error code returned: " ++ toString st.ret)]
                   else [])
               else []),
            frees := (morsectrl_transport_buff_free st.cmd_tbuff).2 ++
              (morsectrl_transport_buff_free st.rsp_tbuff).2 }

/-! ## Statistics (`stats.c`, `offchip_statistics.h`, `offchip_statistics.c`) -/

/-- The C `STATS_TLV_OVERHEAD`: `sizeof(stats_tlv_tag_t) + sizeof(stats_tlv_len_t)`, a
`size_t`. -/
def STATS_TLV_OVERHEAD : Nat := 2 + 2

/-- Conversion of an `int` to `size_t`. -/
def int_to_size (v : Int) : Nat := (v % (SIZE_T_MOD : Int)).toNat

/-- Conversion of a `size_t` to `int` (32 bits, two's complement). -/
def size_to_int (v : Nat) : Int := u32_to_int v

/-- What the TLV loop of `morsectrl_stats_cmd` does with the response, in order: the read of
a TLV header (tag and length) at an offset of the block, the report of a malformed TLV, and
the hand-over of a value (offset and length) to a formatter or to `hexdump`; a known tag that
the filter leaves out is noted too. -/
inductive tlv_event
  | header (offset : Nat)
  | malformed (tag len : Nat) (resp_sz : Int)
  | format (tag offset len : Nat)
  | filtered (tag offset len : Nat)
  | hexdump (tag offset len : Nat)
deriving DecidableEq, Repr

/-- Lines 193 to 239 of `morsectrl_stats_cmd`: one pass through the body of the loop, with
`buf` the offset of the read pointer in the block `m` and `resp_sz` the remaining size.
`known` tells whether `get_stats_offchip` finds the tag and `selected` whether the filter
keeps it.  The second component is `none` after a `break`, and the read pointer and the
remaining size otherwise. -/
def stats_tlv_body (known selected : Nat → Bool) (m : List Nat) (buf : Nat) (resp_sz : Int) :
    List tlv_event × Option (Nat × Int) :=
  let tag := load16le m buf
  let len := load16le m (buf + 2)
  if (len : Int) > resp_sz ∨ len = 0 then
    ([tlv_event.header buf, tlv_event.malformed tag len resp_sz], none)
  else
    let value := buf + 2 + 2
    let handled : tlv_event :=
      if known tag then
        if selected tag then tlv_event.format tag value len
        else tlv_event.filtered tag value len
      else tlv_event.hexdump tag value len
    ([tlv_event.header buf, handled],
      some (value + len,
        size_to_int (size_sub (int_to_size resp_sz) (size_add STATS_TLV_OVERHEAD len))))

/-- Lines 191 to 240 of `morsectrl_stats_cmd`: the loop, run for at most `fuel` passes;
`none` when the passes are used up before the loop ends. -/
def stats_tlv_loop (known selected : Nat → Bool) (m : List Nat) :
    Nat → Nat → Int → Option (List tlv_event)
  | 0, _, _ => none
  | fuel + 1, buf, resp_sz =>
    if int_to_size resp_sz > STATS_TLV_OVERHEAD then
      match stats_tlv_body known selected m buf resp_sz with
      | (events, none) => some events
      | (events, some (buf1, resp_sz1)) =>
        (stats_tlv_loop known selected m fuel buf1 resp_sz1).map (fun rest => events ++ rest)
    else some []

/-- Lines 150 and 167 to 240 of `morsectrl_stats_cmd` for a response that was received with
status 0 and is to be printed: the remaining size computed from the received length, and the
loop over the statistics, which start at `TBUFF_TO_RSP(rsp_tbuff, struct stats_response)`. -/
def stats_tlv_walk (sizeof_response : Nat) (known selected : Nat → Bool)
    (rsp_tbuff : morsectrl_transport_buff) : Option (List tlv_event) :=
  let resp_sz := size_to_int (size_sub rsp_tbuff.data_len sizeof_response)
  stats_tlv_loop known selected rsp_tbuff.memblock (resp_sz.toNat / 5 + 1)
    (rsp_tbuff.data + OFFSET_RESPONSE_DATA sizeof_response) resp_sz

/-- The value of the `n` bytes at offset `off`, the first byte the least significant: what
`memcpy` into an integer gives on a little-endian host. -/
def load_le (m : List Nat) (off : Nat) : Nat → Nat
  | 0 => 0
  | n + 1 => load8 m off + 256 * load_le m (off + 1) n

/-- Conversion of an unsigned value of `bits` bits to the signed type of the same width and
then to `int64_t`. -/
def sign_extend (bits : Nat) (v : Nat) : Int :=
  if v % 2 ^ bits < 2 ^ (bits - 1) then ((v % 2 ^ bits : Nat) : Int)
  else ((v % 2 ^ bits : Nat) : Int) - ((2 ^ bits : Nat) : Int)

/-- The C `get_signed_value_as_int64`: the value returned and what is printed; `size` is a
`uint32_t` that the message renders with `%d`. -/
def get_signed_value_as_int64 (buf : List Nat) (size : Nat) : Int × List event :=
  if size = 1 then (sign_extend 8 (load_le buf 0 1), [])
  else if size = 2 then (sign_extend 16 (load_le buf 0 2), [])
  else if size = 4 then (sign_extend 32 (load_le buf 0 4), [])
  else if size = 8 then (sign_extend 64 (load_le buf 0 8), [])
  else (0, [event.mctrl_err ("get_signed_value_as_int64 can't convert " ++
    toString (u32_to_int size) ++ "-byte quantity")])

/-- The C `get_unsigned_value_as_uint64`: the value returned and what is printed; `size` is a
`uint32_t` that the message renders with `%d`. -/
def get_unsigned_value_as_uint64 (buf : List Nat) (size : Nat) : Nat × List event :=
  if size = 1 then (load_le buf 0 1, [])
  else if size = 2 then (load_le buf 0 2, [])
  else if size = 4 then (load_le buf 0 4, [])
  else if size = 8 then (load_le buf 0 8, [])
  else (0, [event.mctrl_err ("get_unsigned_value_as_uint64 can't convert " ++
    toString (u32_to_int size) ++ "-byte quantity")])

/-! ## Raw access test (`transraw.c`) -/

/-- The number of values of a `uint32_t`. -/
def UINT32_MOD : Nat := 2 ^ 32

/-- Lines 46 to 51 of `transraw.c`: the sizes of the memory tests; `sizeof(uint32_t)` is 4
and `UINT16_MAX` is 65535. -/
def BYTE_TEST_SIZE : Nat := 4 * 16
def BLOCK_TEST_SIZE : Nat := 512
def BLOCK1_5_TEST_SIZE : Nat := 512 + 256
def BLOCK2_TEST_SIZE : Nat := 2 * 512
def BLOCK2_5_TEST_SIZE : Nat := (2 * 512) + 256
def BOUND_TEST_SIZE : Nat := 65535 + 1 + BLOCK1_5_TEST_SIZE

/-- The sizes that `transraw_test` passes to `transraw_memtest`, in the order of the calls. -/
def transraw_test_sizes : List Nat :=
  [BYTE_TEST_SIZE, BYTE_TEST_SIZE, BLOCK_TEST_SIZE, BLOCK1_5_TEST_SIZE, BLOCK2_TEST_SIZE,
   BLOCK2_5_TEST_SIZE, BOUND_TEST_SIZE]

/-- The C `transport_buff_is_equal`; `memcmp` over the `data_len` bytes of `a`. -/
def transport_buff_is_equal (a b : Option morsectrl_transport_buff) : Bool :=
  match a, b with
  | some a, some b =>
    if a.data_len ≠ b.data_len then false
    else (List.range a.data_len).all
      (fun i => load8 a.memblock (a.data + i) == load8 b.memblock (b.data + i))
  | _, _ => false

/-- Lines 114 to 120 of `transraw_memtest`: the loop that fills the block `m` of the write
buffer, run for at most the given number of tests of its condition from the counter `ii`, a
`uint32_t`; `none` when they are used up before the loop ends. -/
def transraw_fill (base_value data data_len : Nat) : Nat → Nat → List Nat → Option (List Nat)
  | 0, _, _ => none
  | fuel + 1, ii, m =>
    if (ii + 3) % UINT32_MOD < data_len then
      let m1 := store8 m (data + ii) (ii &&& 0xFF)
      let m2 := store8 m1 (data + (ii + 1) % UINT32_MOD) ((ii >>> 8) &&& 0xFF)
      let m3 := store8 m2 (data + (ii + 2) % UINT32_MOD) ((base_value >>> 16) &&& 0xFF)
      let m4 := store8 m3 (data + (ii + 3) % UINT32_MOD) ((base_value >>> 24) &&& 0xFF)
      transraw_fill base_value data data_len fuel ((ii + 4) % UINT32_MOD) m4
    else some m

/-- The `%0<width>x` conversion of `printf`. -/
def format_hex (width n : Nat) : String :=
  String.mk (List.replicate (width - (Nat.toDigits 16 n).length) '0' ++ Nat.toDigits 16 n)

/-- Lines 141 to 146 of `transraw_memtest`: the octets reported as different. -/
def transraw_differences (write_buff read_buff : morsectrl_transport_buff) : List event :=
  (List.range write_buff.data_len).filterMap (fun ii =>
    if load8 write_buff.memblock (write_buff.data + ii) ≠
        load8 read_buff.memblock (read_buff.data + ii) then
      some (event.mctrl_err ("Difference starts at octet 0x" ++ format_hex 8 ii ++ ": 0x" ++
        format_hex 2 (load8 write_buff.memblock (write_buff.data + ii)) ++ " != 0x" ++
        format_hex 2 (load8 read_buff.memblock (read_buff.data + ii))))
    else none)

/-- Result of `transraw_memtest`: the value returned, the transport fields afterwards, what
was called and printed, and the calls of `free`. -/
structure memtest_out where
  ret : Int
  vars : morsectrl_transport_vars
  log : List event
  frees : List free_call

/-- The C `transraw_memtest`; `none` when the fill loop does not end. -/
def transraw_memtest (transport : morsectrl_transport) (base_addr size base_value : Nat) :
    Option memtest_out :=
  let wa := morsectrl_transport_raw_write_alloc transport size
  let ra := morsectrl_transport_raw_read_alloc transport size
  match wa.buff, ra.buff with
  | some write_alloc, some read_buff =>
    match transraw_fill base_value write_alloc.data write_alloc.data_len
        (write_alloc.data_len / 4 + 1) 0 write_alloc.memblock with
    | none => none
    | some m =>
      let write_buff := { write_alloc with memblock := m }
      let w := morsectrl_transport_mem_write transport write_buff base_addr
      if w.ret ≠ 0 then
        some { ret := w.ret, vars := w.vars,
               log := wa.log ++ ra.log ++ w.log ++ [event.mctrl_err "Mem write failed"],
               frees := (morsectrl_transport_buff_free (some write_buff)).2 ++
                 (morsectrl_transport_buff_free (some read_buff)).2 }
      else
        let r := morsectrl_transport_mem_read { transport with vars := w.vars } read_buff
          base_addr
        if r.ret ≠ 0 then
          some { ret := r.ret, vars := r.vars,
                 log := wa.log ++ ra.log ++ w.log ++ r.log ++
                   [event.mctrl_err "Mem read failed"],
                 frees := (morsectrl_transport_buff_free (some write_buff)).2 ++
                   (morsectrl_transport_buff_free (some r.buff)).2 }
        else if !transport_buff_is_equal (some write_buff) (some r.buff) then
          some { ret := -1, vars := r.vars,
                 log := wa.log ++ ra.log ++ w.log ++ r.log ++
                   event.mctrl_err "Mem write not equal to read" ::
                     transraw_differences write_buff r.buff,
                 frees := (morsectrl_transport_buff_free (some write_buff)).2 ++
                   (morsectrl_transport_buff_free (some r.buff)).2 }
        else
          some { ret := r.ret, vars := r.vars, log := wa.log ++ ra.log ++ w.log ++ r.log,
                 frees := (morsectrl_transport_buff_free (some write_buff)).2 ++
                   (morsectrl_transport_buff_free (some r.buff)).2 }
  | write_buff, read_buff =>
    some { ret := -1, vars := transport.vars, log := wa.log ++ ra.log,
           frees := (morsectrl_transport_buff_free write_buff).2 ++
             (morsectrl_transport_buff_free read_buff).2 }

/-! ## Predicates used in the statements -/

/-- The Wire Buffer invariant `data_len <= capacity - (data - memblock)`. -/
def wire_buffer_invariant (b : morsectrl_transport_buff) : Prop :=
  (b.data_len : Int) ≤ (b.capacity : Int) - (b.data : Int)

instance (b : morsectrl_transport_buff) : Decidable (wire_buffer_invariant b) := by
  unfold wire_buffer_invariant; infer_instance

/-- The block `memblock` points to holds `capacity` bytes. -/
def block_allocated (b : morsectrl_transport_buff) : Prop :=
  b.memblock.length = b.capacity

instance (b : morsectrl_transport_buff) : Decidable (block_allocated b) := by
  unfold block_allocated; infer_instance

/-- The selected backend, if there is one, provides `send`. -/
def send_provided (transport : morsectrl_transport) : Prop :=
  ∀ tops, transport.tops = some tops → tops.send.isSome = true

/-- What the round trip of `transraw_memtest` amounts to: both buffers were allocated, the
write buffer was filled, `mem_write` and then `mem_read` returned 0, and the read buffer
equals the written one in length and in every byte. -/
def round_trip_succeeds (transport : morsectrl_transport) (base_addr size base_value : Nat) :
    Prop :=
  ∃ (write_alloc read_alloc : morsectrl_transport_buff) (m : List Nat),
    (morsectrl_transport_raw_write_alloc transport size).buff = some write_alloc ∧
    (morsectrl_transport_raw_read_alloc transport size).buff = some read_alloc ∧
    transraw_fill base_value write_alloc.data write_alloc.data_len
      (write_alloc.data_len / 4 + 1) 0 write_alloc.memblock = some m ∧
    (morsectrl_transport_mem_write transport { write_alloc with memblock := m }
      base_addr).ret = 0 ∧
    (morsectrl_transport_mem_read
      { transport with vars := (morsectrl_transport_mem_write transport
          { write_alloc with memblock := m } base_addr).vars }
      read_alloc base_addr).ret = 0 ∧
    (morsectrl_transport_mem_read
      { transport with vars := (morsectrl_transport_mem_write transport
          { write_alloc with memblock := m } base_addr).vars }
      read_alloc base_addr).buff.data_len = write_alloc.data_len ∧
    ∀ i, i < write_alloc.data_len →
      load8 (morsectrl_transport_mem_read
        { transport with vars := (morsectrl_transport_mem_write transport
            { write_alloc with memblock := m } base_addr).vars }
        read_alloc base_addr).buff.memblock
        ((morsectrl_transport_mem_read
          { transport with vars := (morsectrl_transport_mem_write transport
              { write_alloc with memblock := m } base_addr).vars }
          read_alloc base_addr).buff.data + i) =
      load8 m (write_alloc.data + i)

/-- The buffer `b` holds `size` bytes of data inside an allocated block of bytes. -/
def buffer_of_bytes (b : morsectrl_transport_buff) (size : Nat) : Prop :=
  b.data_len = size ∧ wire_buffer_invariant b ∧ block_allocated b ∧
    ∀ i, load8 b.memblock i < 256

/-- A backend in which `mem_read` at an address returns exactly the bytes last stored there by
`mem_write`: from every state, `mem_write` of a buffer of `size` bytes returns 0, and a
`mem_read` of `size` bytes at the same address in the state that `mem_write` left returns 0
with the data of the read buffer equal to the data written, byte for byte. -/
def round_trip_backend
    (mem_write : morsectrl_transport_vars → morsectrl_transport_buff → Nat → int_out)
    (mem_read : morsectrl_transport_vars → morsectrl_transport_buff → Nat → buff_out) : Prop :=
  ∀ (vars : morsectrl_transport_vars) (write read : morsectrl_transport_buff)
    (addr size : Nat),
    buffer_of_bytes write size → buffer_of_bytes read size →
    (mem_write vars write addr).ret = 0 ∧
    (mem_read (mem_write vars write addr).vars read addr).ret = 0 ∧
    (mem_read (mem_write vars write addr).vars read addr).buff.data_len = size ∧
    ∀ i, i < size →
      load8 (mem_read (mem_write vars write addr).vars read addr).buff.memblock
        ((mem_read (mem_write vars write addr).vars read addr).buff.data + i) =
      load8 write.memblock (write.data + i)

/-! ## Fixtures for the worked instances -/

/-- A heap on which every allocation succeeds and fresh blocks are filled with `0xAA`. -/
def example_heap : heap :=
  { buff_ok := true, block := fun n => some (List.replicate n 170) }

/-- An environment in which every libnl call succeeds and the kernel answers with one
vendor-data message followed by an acknowledgement. -/
def example_env : nl80211_env :=
  { heap := example_heap,
    default_interface_name := "wlan0",
    if_nametoindex := fun _ => 3,
    nl_socket_alloc_ok := true, genl_connect := 0, genl_ctrl_resolve := 20,
    nl_cb_alloc_s_cb_ok := true, nl_cb_alloc_cb_ok := true, nlmsg_alloc_ok := true,
    genlmsg_put_ok := true, nla_put_u32_ifindex := 0, nla_put_vendor_id_ok := true,
    nla_put_vendor_subcmd_ok := true, nla_put_vendor_data_ok := true,
    nl_send_auto_complete := 0, nl_recvmsgs := 0,
    deliveries := [nl_delivery.valid (some [0, 0, 0, 0, 1, 2, 3, 4]), nl_delivery.ack],
    nl_wait_for_ack := 0 }

/-- Transport fields of a parsed packet transport. -/
def example_vars : morsectrl_transport_vars :=
  { type := morsectrl_transport_type.MORSECTRL_TRANSPORT_NL80211,
    debug := false, has_reset := false, has_error_function := true,
    interface_name := some "wlan0",
    state := { interface_index := 3, nl80211_id := 20, nl_socket := true, cb := true,
               s_cb := true, wait_for_ack := false } }

/-- A packet transport. -/
def example_transport : morsectrl_transport :=
  { vars := example_vars, tops := some (nl80211_ops example_env) }

/-- A backend whose only member is a `send` that returns `ret` after copying `bytes` to the
start of the response data. -/
def mock_ops (ret : Int) (bytes : List Nat) : morsectrl_transport_ops :=
  { parse := none, init := none, deinit := none, write_alloc := none, read_alloc := none,
    send := some (fun vars _ resp =>
      { ret := ret, vars := vars,
        buff := { resp with memblock := memcpy resp.memblock resp.data bytes }, log := [] }),
    reg_read := none, reg_write := none, mem_read := none, mem_write := none,
    raw_read := none, raw_write := none, raw_read_write := none, reset_device := none }

/-- A 15-byte command buffer (12-byte header, 3 payload bytes) with arbitrary content. -/
def example_cmd : morsectrl_transport_buff :=
  { memblock := [9, 9, 9, 9, 9, 9, 9, 9, 9, 9, 9, 9, 7, 8, 9], capacity := 15, data := 0,
    data_len := 15 }

/-- A 20-byte response buffer. -/
def example_resp : morsectrl_transport_buff :=
  { memblock := List.replicate 20 170, capacity := 20, data := 0, data_len := 20 }

/-- A 12-byte command buffer: a header and no payload. -/
def example_cmd_no_payload : morsectrl_transport_buff :=
  { memblock := List.replicate 12 170, capacity := 12, data := 0, data_len := 12 }

/-- A build with both backends compiled in; the byte-oriented table is a stand-in whose
`parse` accepts every configuration and reports a reset line, and whose `init` and `deinit`
succeed. -/
def example_build : build_config :=
  { ENABLE_TRANS_NL80211 := true,
    ENABLE_TRANS_FTDI_SPI := true,
    ftdi_spi_ops :=
      { parse := some (fun vars _ _ =>
          { ret := 0, vars := { vars with has_reset := true }, log := [] }),
        init := some (fun vars => { ret := 0, vars := vars, log := [] }),
        deinit := some (fun vars => { ret := 0, vars := vars, log := [] }),
        write_alloc := none, read_alloc := none, send := none,
        reg_read := none, reg_write := none, mem_read := none, mem_write := none,
        raw_read := none, raw_write := none, raw_read_write := none,
        reset_device := some (fun vars => { ret := 0, vars := vars, log := [] }) } }

/-- The transport as `main` sets it up before the options are read, with debug off. -/
def example_unparsed : morsectrl_transport :=
  { vars := { type := morsectrl_transport_type.MORSECTRL_TRANSPORT_NONE,
              debug := false, has_reset := false, has_error_function := true,
              interface_name := none,
              state := { interface_index := 0, nl80211_id := 0, nl_socket := false,
                         cb := false, s_cb := false, wait_for_ack := false } },
    tops := none }

/-- The entry `reset` of the command table (`is_intf_cmd` false), with the handler as it
runs for one argument: lines 226 to 232 of `reset.c`, the reset line of the transport when
there is one. -/
def example_reset_entry : command_handler :=
  { name := "reset",
    handler := fun transport _ =>
      if transport.vars.has_reset then
        ((morsectrl_transport_reset_device transport).ret, transport)
      else (-1, transport),
    is_intf_cmd := false,
    direct_chip_supported_cmd := true }

/-- The entry `version` of the command table, with a handler that succeeds. -/
def example_version_entry : command_handler :=
  { name := "version", handler := fun transport _ => (0, transport), is_intf_cmd := true,
    direct_chip_supported_cmd := true }

/-- A configuration-file reader that is never consulted. -/
def example_config_file_parse (_f : String) (t i c : Option String) :
    Int × Option String × Option String × Option String := (0, t, i, c)

/-- An environment in which every libnl call succeeds and the kernel answers with two bytes of
vendor data followed by an acknowledgement. -/
def example_env_short : nl80211_env :=
  { example_env with deliveries := [nl_delivery.valid (some [1, 2]), nl_delivery.ack] }

/-- An environment in which every libnl call succeeds and the kernel answers with an
acknowledgement only. -/
def example_env_silent : nl80211_env :=
  { example_env with deliveries := [nl_delivery.ack] }

/-- A 16-byte response buffer whose block holds zeros. -/
def example_resp_clear : morsectrl_transport_buff :=
  { memblock := List.replicate 16 0, capacity := 16, data := 0, data_len := 16 }

/-- An environment in which every libnl call succeeds and the kernel answers with the status
bytes `6E 00 00 00` (110) followed by an acknowledgement. -/
def example_env_status_110 : nl80211_env :=
  { example_env with
    deliveries := [nl_delivery.valid (some [110, 0, 0, 0]), nl_delivery.ack] }

/-- An environment in which every libnl call succeeds and the kernel answers with the status
bytes `92 FF FF FF` (-110) followed by an acknowledgement. -/
def example_env_status_minus_110 : nl80211_env :=
  { example_env with
    deliveries := [nl_delivery.valid (some [146, 255, 255, 255]), nl_delivery.ack] }

/-- The payload of a response buffer: the bytes after the `sizeof_response` bytes of the
envelope header, up to `data_len`. -/
def resp_payload (sizeof_response : Nat) (b : morsectrl_transport_buff) : List Nat :=
  (List.range (b.data_len - sizeof_response)).map
    (fun i => load8 b.memblock (b.data + sizeof_response + i))

/-- A backend whose `send` returns 0 after writing a 16-byte envelope with status 0 and the
payload `01 02 03 04`. -/
def example_echo_ops : morsectrl_transport_ops :=
  mock_ops 0 [0, 0, 0, 0, 0, 0, 0, 0, 0, 0, 0, 0, 0, 0, 0, 0, 1, 2, 3, 4]

/-- A statistics response as the packet backend leaves it: a block of 16 + 2048 bytes of which
24 were received, the 16 bytes of the envelope (status 0) and 8 bytes of statistics, one TLV
with tag 1 and length 8 and the first 4 bytes of its value; the bytes after the received ones
are what the block held before. -/
def example_stats_resp : morsectrl_transport_buff :=
  { memblock := List.replicate 16 0 ++ [1, 0, 8, 0, 1, 2, 3, 4] ++ List.replicate 2040 170,
    capacity := 2064, data := 0, data_len := 24 }

/-- The allocator of the example device: a zeroed block of the requested size, and null for
a size of 0. -/
def example_chip_alloc (_vars : morsectrl_transport_vars) (size : Nat) :
    Option morsectrl_transport_buff :=
  if size = 0 then none
  else some { memblock := List.replicate size 0, capacity := size, data := 0,
              data_len := size }

/-- The `mem_write` of the example device: the data of the buffer is stored in the device
with its address. -/
def example_chip_mem_write (vars : morsectrl_transport_vars)
    (write : morsectrl_transport_buff) (addr : Nat) : int_out :=
  { ret := 0,
    vars := { vars with
              ftdi_spi := { handle :=
                (addr, (List.range write.data_len).map
                  (fun i => load8 write.memblock (write.data + i))) ::
                  vars.ftdi_spi.handle } },
    log := [] }

/-- The `mem_read` of the example device: the block last stored at the address is copied to
the data of the buffer, as many bytes as the buffer asks for; a buffer read from an address
that was never written is left as it is. -/
def example_chip_mem_read (vars : morsectrl_transport_vars)
    (read : morsectrl_transport_buff) (addr : Nat) : buff_out :=
  match vars.ftdi_spi.handle.find? (fun e => e.1 == addr) with
  | some e =>
    { ret := 0, vars := vars,
      buff := { read with memblock := memcpy read.memblock read.data (e.2.take read.data_len) },
      log := [] }
  | none => { ret := 0, vars := vars, buff := read, log := [] }

/-- A byte-oriented backend for the memory test, over a device that keeps what is written. -/
def example_chip_ops : morsectrl_transport_ops :=
  { parse := none, init := none, deinit := none,
    write_alloc := some example_chip_alloc, read_alloc := some example_chip_alloc,
    send := none, reg_read := none, reg_write := none,
    mem_read := some example_chip_mem_read, mem_write := some example_chip_mem_write,
    raw_read := none, raw_write := none, raw_read_write := none, reset_device := none }

/-- A transport parsed for the byte-oriented backend `example_chip_ops`. -/
def example_chip_transport : morsectrl_transport :=
  { vars := { example_vars with
              type := morsectrl_transport_type.MORSECTRL_TRANSPORT_FTDI_SPI,
              interface_name := none },
    tops := some example_chip_ops }

/-- The same transport over a device that reports every write as done and stores nothing. -/
def example_deaf_chip_transport : morsectrl_transport :=
  { example_chip_transport with
    tops := some { example_chip_ops with
                   mem_write := some (fun vars _ _ => { ret := 0, vars := vars, log := [] }) } }

/-- The entry `channel` of the command table (an interface command), with a handler that ends
with the result `ret`. -/
def example_channel_entry (ret : Int) : command_handler :=
  { name := "channel", handler := fun transport _ => (ret, transport), is_intf_cmd := true,
    direct_chip_supported_cmd := true }

/-! ## Memory lemmas -/

theorem length_store8 (m : List Nat) (i v : Nat) : (store8 m i v).length = m.length := by
  simp [store8]

theorem load8_store8 (m : List Nat) (i v j : Nat) :
    load8 (store8 m i v) j = if j = i ∧ i < m.length then v % 256 else load8 m j := by
  unfold load8 store8
  by_cases hji : j = i
  · subst hji
    by_cases hlt : j < m.length
    · simp [List.getD_eq_getElem?_getD, List.getElem?_set, hlt]
    · have hnone : m[j]? = none := List.getElem?_eq_none (Nat.le_of_not_lt hlt)
      simp [List.getD_eq_getElem?_getD, List.getElem?_set, hlt, hnone]
  · have : ¬ i = j := fun h => hji h.symm
    simp [List.getD_eq_getElem?_getD, List.getElem?_set, hji, this]

theorem length_store16le (m : List Nat) (i v : Nat) : (store16le m i v).length = m.length := by
  simp [store16le, length_store8]

theorem length_memset (m : List Nat) (off v n : Nat) : (memset m off v n).length = m.length := by
  induction n with
  | zero => rfl
  | succ n ih => simp [memset, length_store8, ih]

theorem load8_memset (m : List Nat) (off v n j : Nat) :
    load8 (memset m off v n) j =
      if off ≤ j ∧ j < off + n ∧ j < m.length then v % 256 else load8 m j := by
  induction n with
  | zero =>
    have hfalse : ¬ (off ≤ j ∧ j < off + 0 ∧ j < m.length) := by omega
    simp only [memset, if_neg hfalse]
  | succ n ih =>
    simp only [memset, load8_store8, length_memset, ih]
    by_cases h1 : j = off + n
    · subst h1
      by_cases h2 : off + n < m.length
      · simp [h2]
      · simp [h2]
    · by_cases h3 : off ≤ j ∧ j < off + n ∧ j < m.length
      · have : off ≤ j ∧ j < off + (n + 1) ∧ j < m.length := ⟨h3.1, by omega, h3.2.2⟩
        simp [h1, h3, this]
      · have : ¬ (off ≤ j ∧ j < off + (n + 1) ∧ j < m.length) := by
          intro h; apply h3; exact ⟨h.1, by omega, h.2.2⟩
        simp [h1, h3, this]

theorem length_memcpy (m : List Nat) (off : Nat) (src : List Nat) :
    (memcpy m off src).length = m.length := by
  induction src generalizing m off with
  | nil => rfl
  | cons b bs ih => simp [memcpy, ih, length_store8]

/-! ## Command sender lemmas -/

theorem command_hdr_write_frame (hc : Nat) (id : Int) (cmd : morsectrl_transport_buff) :
    (command_hdr_write hc id cmd).capacity = cmd.capacity ∧
    (command_hdr_write hc id cmd).data = cmd.data ∧
    (command_hdr_write hc id cmd).data_len = cmd.data_len ∧
    (command_hdr_write hc id cmd).memblock.length = cmd.memblock.length := by
  simp [command_hdr_write, length_store8, length_store16le, length_memset]

theorem load8_command_hdr_write (hc : Nat) (id : Int) (cmd : morsectrl_transport_buff) (j : Nat)
    (h5 : 5 ≤ hc) (hfit : cmd.data + hc ≤ cmd.memblock.length) :
    load8 (command_hdr_write hc id cmd).memblock j =
      if j = cmd.data then int_to_u16 id % 256
      else if j = cmd.data + 1 then int_to_u16 id / 256 % 256
      else if j = cmd.data + 2 then size_to_u16 (size_sub cmd.data_len hc) % 256
      else if j = cmd.data + 3 then size_to_u16 (size_sub cmd.data_len hc) / 256 % 256
      else if j = cmd.data + 4 then 1
      else if cmd.data ≤ j ∧ j < cmd.data + hc then 0
      else load8 cmd.memblock j := by
  simp only [command_hdr_write, store16le, load8_store8, load8_memset, length_store8,
    length_memset, OFFSET_MESSAGE_ID, OFFSET_LEN, OFFSET_FLAGS, MORSECTRL_CMD_REQ_FLAG]
  split_ifs <;> omega

theorem transport_send_none (transport : morsectrl_transport)
    (cmd resp : morsectrl_transport_buff) (h : transport.tops = none) :
    morsectrl_transport_send transport cmd resp =
      .ok { ret := -ETRANSERR, vars := transport.vars, buff := resp, log := [] } := by
  simp [morsectrl_transport_send, h]

theorem transport_send_some (transport : morsectrl_transport)
    (cmd resp : morsectrl_transport_buff) (tops : morsectrl_transport_ops)
    (send : morsectrl_transport_vars → morsectrl_transport_buff → morsectrl_transport_buff →
      buff_out)
    (h : transport.tops = some tops) (hsend : tops.send = some send) :
    morsectrl_transport_send transport cmd resp =
      .ok { send transport.vars cmd resp with
            log := event.ops_call ops_member.send :: (send transport.vars cmd resp).log } := by
  simp [morsectrl_transport_send, h, hsend]

theorem transport_send_returns (transport : morsectrl_transport)
    (cmd resp : morsectrl_transport_buff) (hs : send_provided transport) :
    ∃ b, morsectrl_transport_send transport cmd resp = .ok b := by
  cases htops : transport.tops with
  | none => exact ⟨_, transport_send_none transport cmd resp htops⟩
  | some tops =>
    have h := hs tops htops
    cases hsend : tops.send with
    | none => simp [hsend] at h
    | some send => exact ⟨_, transport_send_some transport cmd resp tops send htops hsend⟩

theorem send_command_of_failure (hc : Nat) (transport : morsectrl_transport) (id : Int)
    (cmd resp : morsectrl_transport_buff) (b : buff_out)
    (h : morsectrl_transport_send transport (command_hdr_write hc id cmd) resp = .ok b)
    (hneg : b.ret < 0) :
    morsectrl_send_command hc transport id (some cmd) (some resp) =
      .ok { ret := b.ret, vars := b.vars, cmd := some (command_hdr_write hc id cmd),
            resp := some b.buff,
            log := b.log ++
              (if b.vars.debug then [event.mctrl_err_message_failed b.ret] else []) } := by
  simp [morsectrl_send_command, h, hneg]

theorem send_command_of_success (hc : Nat) (transport : morsectrl_transport) (id : Int)
    (cmd resp : morsectrl_transport_buff) (b : buff_out)
    (h : morsectrl_transport_send transport (command_hdr_write hc id cmd) resp = .ok b)
    (hpos : 0 ≤ b.ret) :
    morsectrl_send_command hc transport id (some cmd) (some resp) =
      .ok { ret := u32_to_int (load32le b.buff.memblock (resp.data + OFFSET_STATUS)),
            vars := b.vars, cmd := some (command_hdr_write hc id cmd), resp := some b.buff,
            log := b.log ++
              (if u32_to_int (load32le b.buff.memblock (resp.data + OFFSET_STATUS)) ≠ 0 ∧
                  b.vars.debug ∧
                  u32_to_int (load32le b.buff.memblock (resp.data + OFFSET_STATUS)) ≠ 110
               then [event.mctrl_err_command_failed] else []) } := by
  have hn : ¬ b.ret < 0 := by omega
  simp [morsectrl_send_command, h, hn]

/-- With a backend that provides `send` (or none selected) the command sender returns, and
the command buffer it leaves is the one with the header written. -/
theorem send_command_returns (hc : Nat) (transport : morsectrl_transport) (id : Int)
    (cmd resp : morsectrl_transport_buff) (hs : send_provided transport) :
    ∃ out, morsectrl_send_command hc transport id (some cmd) (some resp) = .ok out ∧
      out.cmd = some (command_hdr_write hc id cmd) := by
  obtain ⟨b, hb⟩ := transport_send_returns transport (command_hdr_write hc id cmd) resp hs
  by_cases hneg : b.ret < 0
  · exact ⟨_, send_command_of_failure hc transport id cmd resp b hb hneg, rfl⟩
  · exact ⟨_, send_command_of_success hc transport id cmd resp b hb (by omega), rfl⟩

theorem size_sub_of_le (a b : Nat) (hba : b ≤ a) (ha : a - b < SIZE_T_MOD) :
    size_sub a b = a - b := by
  unfold size_sub
  have h1 : ((a : Int) - (b : Int)) = ((a - b : Nat) : Int) := by omega
  rw [h1]
  have h2 : (((a - b : Nat) : Int) % (SIZE_T_MOD : Int)) = ((a - b : Nat) : Int) := by
    apply Int.emod_eq_of_lt <;> omega
  rw [h2]; simp

theorem size_add_of_lt (a b : Nat) (h : a + b < SIZE_T_MOD) : size_add a b = a + b := by
  unfold size_add; exact Nat.mod_eq_of_lt h

theorem int_to_u16_of_range (v : Int) (h0 : 0 ≤ v) (h1 : v ≤ 65535) :
    (int_to_u16 v : Int) = v := by
  unfold int_to_u16
  have h2 : v % 65536 = v := Int.emod_eq_of_lt h0 (by omega)
  rw [h2]; omega


/-! ## The command sender: claims C1 to C4 -/

theorem example_transport_send_provided : send_provided example_transport := by
  intro tops h
  have h2 : nl80211_ops example_env = tops := Option.some.inj h
  rw [← h2]; rfl

/-- C1: for non-null command and response buffers, a message id in 0..65535 and a command
length with `0 <= data_len - sizeof(struct command) <= 65535`, `morsectrl_send_command`
returns and leaves the command header holding the message id (little-endian), the payload
length `data_len - sizeof(struct command)` (little-endian), flags equal to the request bit,
and zero in every other header byte, whatever the header held before and whatever the
transport does; the bytes outside the header, the payload among them, are unchanged. -/
theorem send_command_header_stamped (hc : Nat) (transport : morsectrl_transport)
    (message_id : Int) (cmd resp : morsectrl_transport_buff)
    (h_hdr : 5 ≤ hc)
    (h_id : 0 ≤ message_id ∧ message_id ≤ 65535)
    (h_len : hc ≤ cmd.data_len ∧ cmd.data_len - hc ≤ 65535)
    (h_inv : wire_buffer_invariant cmd) (h_blk : block_allocated cmd)
    (h_send : send_provided transport) :
    ∃ out c, morsectrl_send_command hc transport message_id (some cmd) (some resp) = .ok out ∧
      out.cmd = some c ∧
      c.data = cmd.data ∧ c.data_len = cmd.data_len ∧ c.capacity = cmd.capacity ∧
      c.memblock.length = cmd.memblock.length ∧
      (load8 c.memblock (c.data + 0) : Int) = message_id % 256 ∧
      (load8 c.memblock (c.data + 1) : Int) = message_id / 256 ∧
      load8 c.memblock (c.data + 2) = (cmd.data_len - hc) % 256 ∧
      load8 c.memblock (c.data + 3) = (cmd.data_len - hc) / 256 ∧
      load8 c.memblock (c.data + 4) = 1 ∧
      (∀ i, 5 ≤ i → i < hc → load8 c.memblock (c.data + i) = 0) ∧
      (∀ j, j < c.data ∨ c.data + hc ≤ j → load8 c.memblock j = load8 cmd.memblock j) := by
  obtain ⟨out, hout, hcmd⟩ := send_command_returns hc transport message_id cmd resp h_send
  obtain ⟨hcap, hdata, hlen, hblk⟩ := command_hdr_write_frame hc message_id cmd
  have hfit : cmd.data + hc ≤ cmd.memblock.length := by
    unfold wire_buffer_invariant at h_inv
    unfold block_allocated at h_blk
    omega
  have hld := fun j => load8_command_hdr_write hc message_id cmd j h_hdr hfit
  have hsub : size_sub cmd.data_len hc = cmd.data_len - hc :=
    size_sub_of_le _ _ h_len.1 (by unfold SIZE_T_MOD; omega)
  have hid := int_to_u16_of_range message_id h_id.1 h_id.2
  refine ⟨out, _, hout, hcmd, hdata, hlen, hcap, hblk, ?_, ?_, ?_, ?_, ?_, ?_, ?_⟩
  · rw [hdata, hld]; simp only [Nat.add_zero, if_true]; omega
  · rw [hdata, hld]
    have : ¬ (cmd.data + 1 = cmd.data) := by omega
    simp only [this, if_false, if_true]; omega
  · rw [hdata, hld, hsub]
    have h1 : ¬ (cmd.data + 2 = cmd.data) := by omega
    have h2 : ¬ (cmd.data + 2 = cmd.data + 1) := by omega
    simp only [h1, h2, if_false, if_true, size_to_u16]; omega
  · rw [hdata, hld, hsub]
    have h1 : ¬ (cmd.data + 3 = cmd.data) := by omega
    have h2 : ¬ (cmd.data + 3 = cmd.data + 1) := by omega
    have h3 : ¬ (cmd.data + 3 = cmd.data + 2) := by omega
    simp only [h1, h2, h3, if_false, if_true, size_to_u16]; omega
  · rw [hdata, hld]
    have h1 : ¬ (cmd.data + 4 = cmd.data) := by omega
    have h2 : ¬ (cmd.data + 4 = cmd.data + 1) := by omega
    have h3 : ¬ (cmd.data + 4 = cmd.data + 2) := by omega
    have h4 : ¬ (cmd.data + 4 = cmd.data + 3) := by omega
    simp only [h1, h2, h3, h4, if_false, if_true]
  · intro i hi5 hihc
    rw [hdata, hld]
    split_ifs <;> omega
  · intro j hj
    rw [hdata] at hj
    rw [hld]
    split_ifs <;> omega

/-- Instance of C1: message id 0x42 on a 15-byte command buffer through the packet transport. -/
theorem send_command_header_stamped_witness :
    ∃ out c, morsectrl_send_command 12 example_transport 66 (some example_cmd)
        (some example_resp) = .ok out ∧
      out.cmd = some c ∧
      c.data = example_cmd.data ∧ c.data_len = example_cmd.data_len ∧
      c.capacity = example_cmd.capacity ∧
      c.memblock.length = example_cmd.memblock.length ∧
      (load8 c.memblock (c.data + 0) : Int) = 66 % 256 ∧
      (load8 c.memblock (c.data + 1) : Int) = 66 / 256 ∧
      load8 c.memblock (c.data + 2) = (example_cmd.data_len - 12) % 256 ∧
      load8 c.memblock (c.data + 3) = (example_cmd.data_len - 12) / 256 ∧
      load8 c.memblock (c.data + 4) = 1 ∧
      (∀ i, 5 ≤ i → i < 12 → load8 c.memblock (c.data + i) = 0) ∧
      (∀ j, j < c.data ∨ c.data + 12 ≤ j →
        load8 c.memblock j = load8 example_cmd.memblock j) :=
  send_command_header_stamped 12 example_transport 66 example_cmd example_resp
    (by decide) (by decide) (by decide) (by decide) (by decide)
    example_transport_send_provided

/-- C2: when the backend's `send` returns a negative value, `morsectrl_send_command` returns
exactly that value, whatever the response buffer holds: the response buffer is left as the
backend left it and nothing but the optional "message failed" diagnostic is printed. -/
theorem send_command_propagates_send_failure (hc : Nat) (vars : morsectrl_transport_vars)
    (tops : morsectrl_transport_ops)
    (send : morsectrl_transport_vars → morsectrl_transport_buff → morsectrl_transport_buff →
      buff_out)
    (message_id : Int) (cmd resp : morsectrl_transport_buff)
    (h_send : tops.send = some send)
    (h_neg : (send vars (command_hdr_write hc message_id cmd) resp).ret < 0) :
    ∃ out, morsectrl_send_command hc { vars := vars, tops := some tops } message_id
        (some cmd) (some resp) = .ok out ∧
      out.ret = (send vars (command_hdr_write hc message_id cmd) resp).ret ∧
      out.resp = some (send vars (command_hdr_write hc message_id cmd) resp).buff ∧
      out.log = event.ops_call ops_member.send ::
        (send vars (command_hdr_write hc message_id cmd) resp).log ++
        (if (send vars (command_hdr_write hc message_id cmd) resp).vars.debug
         then [event.mctrl_err_message_failed
                (send vars (command_hdr_write hc message_id cmd) resp).ret]
         else []) := by
  have hb := transport_send_some { vars := vars, tops := some tops }
    (command_hdr_write hc message_id cmd) resp tops send rfl h_send
  exact ⟨_, send_command_of_failure hc _ message_id cmd resp _ hb h_neg, rfl, rfl, rfl⟩

/-- Instance of C2: a backend whose `send` returns -5 after writing status bytes `6E 00 00 00`. -/
theorem send_command_propagates_send_failure_witness :
    ∃ out, morsectrl_send_command 12
        { vars := example_vars, tops := some (mock_ops (-5) [110, 0, 0, 0]) } 66
        (some example_cmd) (some example_resp) = .ok out ∧
      out.ret = -5 ∧
      out.resp = some { example_resp with
        memblock := memcpy example_resp.memblock example_resp.data [110, 0, 0, 0] } ∧
      out.log = [event.ops_call ops_member.send] :=
  send_command_propagates_send_failure 12 example_vars (mock_ops (-5) [110, 0, 0, 0]) _ 66
    example_cmd example_resp rfl (by decide)

/-- C3: when the backend's `send` returns 0, `morsectrl_send_command` returns the four
status bytes of the response, read little-endian as a signed 32-bit integer: `00 00 00 00`
gives 0, `6E 00 00 00` gives 110, `FF FF FF FF` gives -1. -/
theorem send_command_returns_status (hc : Nat) (vars : morsectrl_transport_vars)
    (tops : morsectrl_transport_ops)
    (send : morsectrl_transport_vars → morsectrl_transport_buff → morsectrl_transport_buff →
      buff_out)
    (message_id : Int) (cmd resp : morsectrl_transport_buff) (b0 b1 b2 b3 : Nat)
    (h_send : tops.send = some send)
    (h_ok : (send vars (command_hdr_write hc message_id cmd) resp).ret = 0)
    (h_status :
      load8 (send vars (command_hdr_write hc message_id cmd) resp).buff.memblock
        (resp.data + OFFSET_STATUS) = b0 ∧
      load8 (send vars (command_hdr_write hc message_id cmd) resp).buff.memblock
        (resp.data + OFFSET_STATUS + 1) = b1 ∧
      load8 (send vars (command_hdr_write hc message_id cmd) resp).buff.memblock
        (resp.data + OFFSET_STATUS + 2) = b2 ∧
      load8 (send vars (command_hdr_write hc message_id cmd) resp).buff.memblock
        (resp.data + OFFSET_STATUS + 3) = b3)
    (h_bytes : b0 < 256 ∧ b1 < 256 ∧ b2 < 256 ∧ b3 < 256) :
    ∃ out, morsectrl_send_command hc { vars := vars, tops := some tops } message_id
        (some cmd) (some resp) = .ok out ∧
      out.ret =
        (if b3 < 128 then (b0 : Int) + 256 * b1 + 65536 * b2 + 16777216 * b3
         else (b0 : Int) + 256 * b1 + 65536 * b2 + 16777216 * b3 - 4294967296) ∧
      (b0 = 0 ∧ b1 = 0 ∧ b2 = 0 ∧ b3 = 0 → out.ret = 0) ∧
      (b0 = 110 ∧ b1 = 0 ∧ b2 = 0 ∧ b3 = 0 → out.ret = 110) ∧
      (b0 = 255 ∧ b1 = 255 ∧ b2 = 255 ∧ b3 = 255 → out.ret = -1) := by
  have hb := transport_send_some { vars := vars, tops := some tops }
    (command_hdr_write hc message_id cmd) resp tops send rfl h_send
  have hval : u32_to_int (load32le
      (send vars (command_hdr_write hc message_id cmd) resp).buff.memblock
        (resp.data + OFFSET_STATUS)) =
      (if b3 < 128 then (b0 : Int) + 256 * b1 + 65536 * b2 + 16777216 * b3
       else (b0 : Int) + 256 * b1 + 65536 * b2 + 16777216 * b3 - 4294967296) := by
    obtain ⟨h0, h1, h2, h3⟩ := h_status
    unfold load32le u32_to_int
    rw [h0, h1, h2, h3]
    split_ifs <;> omega
  refine ⟨_, send_command_of_success hc _ message_id cmd resp _ hb (by simp [h_ok]), hval,
    ?_, ?_, ?_⟩
  · rintro ⟨rfl, rfl, rfl, rfl⟩; simp [hval]
  · rintro ⟨rfl, rfl, rfl, rfl⟩; simp [hval]
  · rintro ⟨rfl, rfl, rfl, rfl⟩; simp [hval]

/-- Instance of C3: a backend whose `send` returns 0 and leaves status bytes `FF FF FF FF`. -/
theorem send_command_returns_status_witness :
    ∃ out, morsectrl_send_command 12
        { vars := example_vars, tops := some (mock_ops 0 [255, 255, 255, 255]) } 66
        (some example_cmd) (some example_resp) = .ok out ∧ out.ret = -1 :=
  match send_command_returns_status 12 example_vars (mock_ops 0 [255, 255, 255, 255]) _ 66
    example_cmd example_resp 255 255 255 255 rfl rfl (by decide) (by decide) with
  | ⟨out, h, _, _, _, hff⟩ => ⟨out, h, hff ⟨rfl, rfl, rfl, rfl⟩⟩

/-- C4: when the command buffer or the response buffer is null, `morsectrl_send_command`
returns `-ENOMEM` (-12) at once: no header is written, no backend function is called,
nothing is printed, and both buffer arguments are left as they were. -/
theorem send_command_null_buffer (hc : Nat) (transport : morsectrl_transport)
    (message_id : Int) (cmd resp : Option morsectrl_transport_buff)
    (h_null : cmd = none ∨ resp = none) :
    morsectrl_send_command hc transport message_id cmd resp =
      .ok { ret := -12, vars := transport.vars, cmd := cmd, resp := resp, log := [] } := by
  rcases h_null with h | h
  · subst h; cases resp <;> rfl
  · subst h; cases cmd <;> rfl

/-- Instance of C4: a null response buffer. -/
theorem send_command_null_buffer_witness :
    morsectrl_send_command 12 example_transport 66 (some example_cmd) none =
      .ok { ret := -12, vars := example_transport.vars, cmd := some example_cmd,
            resp := none, log := [] } :=
  send_command_null_buffer 12 example_transport 66 (some example_cmd) none (Or.inr rfl)

/-! ## Buffers and allocation: claims C5 to C10 -/

theorem length_malloc (h : heap) (n : Nat) (m : List Nat) (hm : malloc h n = some m) :
    m.length = n := by
  unfold malloc at hm
  cases hb : h.block n with
  | none => simp [hb] at hm
  | some junk =>
    simp [hb] at hm
    subst hm
    simp

theorem nl80211_alloc_some (h : heap) (size : Nat) (b : morsectrl_transport_buff)
    (hb : morsectrl_nl80211_alloc h size = some b) :
    0 < size ∧ b.capacity = size ∧ b.data_len = size ∧ b.data = 0 ∧
      b.memblock.length = size := by
  unfold morsectrl_nl80211_alloc at hb
  by_cases h0 : size ≤ 0
  · simp [h0] at hb
  · by_cases hok : h.buff_ok
    · cases hm : malloc h size with
      | none => simp [h0, hok, hm] at hb
      | some m =>
        simp [h0, hok, hm] at hb
        subst hb
        exact ⟨by omega, rfl, rfl, rfl, length_malloc h size m hm⟩
    · simp [h0, hok] at hb

theorem nl80211_write_alloc_some (env : nl80211_env) (vars : morsectrl_transport_vars)
    (size : Nat) (b : morsectrl_transport_buff)
    (hb : morsectrl_nl80211_write_alloc env vars size = some b) :
    morsectrl_nl80211_alloc env.heap size = some b := by
  unfold morsectrl_nl80211_write_alloc at hb
  split_ifs at hb
  exact hb

theorem nl80211_read_alloc_some (env : nl80211_env) (vars : morsectrl_transport_vars)
    (size : Nat) (b : morsectrl_transport_buff)
    (hb : morsectrl_nl80211_read_alloc env vars size = some b) :
    morsectrl_nl80211_alloc env.heap size = some b := by
  unfold morsectrl_nl80211_read_alloc at hb
  split_ifs at hb
  exact hb

theorem cmd_alloc_packet (hc : Nat) (env : nl80211_env) (vars : morsectrl_transport_vars)
    (n : Nat) :
    morsectrl_transport_cmd_alloc hc { vars := vars, tops := some (nl80211_ops env) } n =
      .ok { buff := morsectrl_nl80211_write_alloc env vars (size_add hc n),
            log := [event.ops_call ops_member.write_alloc] } := rfl

theorem resp_alloc_packet (hr : Nat) (env : nl80211_env) (vars : morsectrl_transport_vars)
    (n : Nat) :
    morsectrl_transport_resp_alloc hr { vars := vars, tops := some (nl80211_ops env) } n =
      .ok { buff := morsectrl_nl80211_read_alloc env vars (size_add hr n),
            log := [event.ops_call ops_member.read_alloc] } := rfl

theorem load16le_command_hdr_write (hc : Nat) (id : Int) (cmd : morsectrl_transport_buff)
    (h5 : 5 ≤ hc) (hfit : cmd.data + hc ≤ cmd.memblock.length) :
    load16le (command_hdr_write hc id cmd).memblock (cmd.data + OFFSET_MESSAGE_ID) =
      int_to_u16 id % 65536 ∧
    load16le (command_hdr_write hc id cmd).memblock (cmd.data + OFFSET_LEN) =
      size_to_u16 (size_sub cmd.data_len hc) := by
  have hld := fun j => load8_command_hdr_write hc id cmd j h5 hfit
  unfold load16le OFFSET_MESSAGE_ID OFFSET_LEN
  rw [hld, hld, hld, hld]
  have h1 : ¬ (cmd.data + 0 + 1 = cmd.data) := by omega
  have h2 : ¬ (cmd.data + 2 = cmd.data) := by omega
  have h3 : ¬ (cmd.data + 2 = cmd.data + 1) := by omega
  have h4 : ¬ (cmd.data + 2 + 1 = cmd.data) := by omega
  have h5 : ¬ (cmd.data + 2 + 1 = cmd.data + 1) := by omega
  have h6 : ¬ (cmd.data + 2 + 1 = cmd.data + 2) := by omega
  have h7 : cmd.data + 0 + 1 = cmd.data + 1 := by omega
  have h8 : cmd.data + 2 + 1 = cmd.data + 3 := by omega
  simp only [h1, h2, h3, h4, h5, h6, h7, h8, if_false, if_true, Nat.add_zero, size_to_u16]
  constructor <;> omega

/-- C5: header round trip.  For a payload size `n <= 65535` and a 16-bit message id, a
buffer returned by `morsectrl_transport_cmd_alloc(transport, n)` on the packet backend and
then passed to `morsectrl_send_command` has a header whose length field reads `n` and whose
message-id field reads the id passed in. -/
theorem header_round_trip (hc : Nat) (env : nl80211_env) (vars : morsectrl_transport_vars)
    (n : Nat) (message_id : Int) (cmd resp : morsectrl_transport_buff)
    (h_hdr : 5 ≤ hc) (h_size : hc + 65535 < SIZE_T_MOD)
    (h_n : n ≤ 65535) (h_id : 0 ≤ message_id ∧ message_id ≤ 65535)
    (h_alloc : ∃ log,
      morsectrl_transport_cmd_alloc hc { vars := vars, tops := some (nl80211_ops env) } n =
        .ok { buff := some cmd, log := log }) :
    ∃ out c,
      morsectrl_send_command hc { vars := vars, tops := some (nl80211_ops env) } message_id
        (some cmd) (some resp) = .ok out ∧
      out.cmd = some c ∧
      load16le c.memblock (c.data + OFFSET_LEN) = n ∧
      (load16le c.memblock (c.data + OFFSET_MESSAGE_ID) : Int) = message_id := by
  obtain ⟨log, hlog⟩ := h_alloc
  rw [cmd_alloc_packet] at hlog
  have hbuf : morsectrl_nl80211_write_alloc env vars (size_add hc n) = some cmd := by
    injection hlog with h1
    injection h1 with h2
  have hsz : size_add hc n = hc + n := size_add_of_lt hc n (by omega)
  rw [hsz] at hbuf
  obtain ⟨_, hcap, hlen, hdata, hblk⟩ :=
    nl80211_alloc_some env.heap (hc + n) cmd (nl80211_write_alloc_some env vars _ cmd hbuf)
  have hsp : send_provided { vars := vars, tops := some (nl80211_ops env) } := by
    intro tops h
    have h2 : nl80211_ops env = tops := Option.some.inj h
    rw [← h2]; rfl
  obtain ⟨out, hout, hcmd⟩ := send_command_returns hc _ message_id cmd resp hsp
  obtain ⟨_, hd, _, _⟩ := command_hdr_write_frame hc message_id cmd
  have hfit : cmd.data + hc ≤ cmd.memblock.length := by omega
  obtain ⟨hid, hl⟩ := load16le_command_hdr_write hc message_id cmd h_hdr hfit
  have hsub : size_sub cmd.data_len hc = n := by
    rw [size_sub_of_le _ _ (by omega) (by omega)]; omega
  have hidv := int_to_u16_of_range message_id h_id.1 h_id.2
  refine ⟨out, _, hout, hcmd, ?_, ?_⟩
  · rw [hd, hl, hsub]; unfold size_to_u16; omega
  · rw [hd, hid]; omega

/-- Instance of C5: payload size 3, message id 0x42, header size 12. -/
theorem header_round_trip_witness :
    ∃ out c,
      morsectrl_send_command 12 example_transport 66
        (some { memblock := List.replicate 15 170, capacity := 15, data := 0, data_len := 15 })
        (some example_resp) = .ok out ∧
      out.cmd = some c ∧
      load16le c.memblock (c.data + OFFSET_LEN) = 3 ∧
      (load16le c.memblock (c.data + OFFSET_MESSAGE_ID) : Int) = 66 :=
  header_round_trip 12 example_env example_vars 3 66
    { memblock := List.replicate 15 170, capacity := 15, data := 0, data_len := 15 }
    example_resp (by decide) (by decide) (by decide) (by decide) ⟨_, rfl⟩

/-- C6: `morsectrl_transport_cmd_alloc(t, n)` returns what the backend's `write_alloc` returns
for `sizeof(struct command) + n` bytes, and `morsectrl_transport_resp_alloc(t, n)` what
`read_alloc` returns for `sizeof(struct response) + n` bytes (the sums being representable
in `size_t`); on the packet backend the buffer returned has exactly `n` bytes after the
envelope header; both return null when no backend is selected. -/
theorem alloc_adds_envelope_header (hc hr : Nat) (vars : morsectrl_transport_vars) (n : Nat)
    (h_cn : hc + n < SIZE_T_MOD) (h_rn : hr + n < SIZE_T_MOD) :
    (∀ tops write_alloc, tops.write_alloc = some write_alloc →
      morsectrl_transport_cmd_alloc hc { vars := vars, tops := some tops } n =
        .ok { buff := write_alloc vars (hc + n),
              log := [event.ops_call ops_member.write_alloc] }) ∧
    (∀ tops read_alloc, tops.read_alloc = some read_alloc →
      morsectrl_transport_resp_alloc hr { vars := vars, tops := some tops } n =
        .ok { buff := read_alloc vars (hr + n),
              log := [event.ops_call ops_member.read_alloc] }) ∧
    (∀ env b log,
      morsectrl_transport_cmd_alloc hc { vars := vars, tops := some (nl80211_ops env) } n =
        .ok { buff := some b, log := log } →
      b.data = 0 ∧ b.data_len = hc + n ∧ b.capacity = hc + n ∧ b.memblock.length = hc + n) ∧
    (∀ env b log,
      morsectrl_transport_resp_alloc hr { vars := vars, tops := some (nl80211_ops env) } n =
        .ok { buff := some b, log := log } →
      b.data = 0 ∧ b.data_len = hr + n ∧ b.capacity = hr + n ∧ b.memblock.length = hr + n) ∧
    morsectrl_transport_cmd_alloc hc { vars := vars, tops := none } n =
      .ok { buff := none, log := [] } ∧
    morsectrl_transport_resp_alloc hr { vars := vars, tops := none } n =
      .ok { buff := none, log := [] } := by
  have hc_sz := size_add_of_lt hc n h_cn
  have hr_sz := size_add_of_lt hr n h_rn
  refine ⟨?_, ?_, ?_, ?_, rfl, rfl⟩
  · intro tops write_alloc h
    simp [morsectrl_transport_cmd_alloc, h, hc_sz]
  · intro tops read_alloc h
    simp [morsectrl_transport_resp_alloc, h, hr_sz]
  · intro env b log h
    rw [cmd_alloc_packet, hc_sz] at h
    have hbuf : morsectrl_nl80211_write_alloc env vars (hc + n) = some b := by
      injection h with h1
      injection h1 with h2
    obtain ⟨_, hcap, hlen, hdata, hblk⟩ :=
      nl80211_alloc_some env.heap (hc + n) b (nl80211_write_alloc_some env vars _ b hbuf)
    exact ⟨hdata, hlen, hcap, hblk⟩
  · intro env b log h
    rw [resp_alloc_packet, hr_sz] at h
    have hbuf : morsectrl_nl80211_read_alloc env vars (hr + n) = some b := by
      injection h with h1
      injection h1 with h2
    obtain ⟨_, hcap, hlen, hdata, hblk⟩ :=
      nl80211_alloc_some env.heap (hr + n) b (nl80211_read_alloc_some env vars _ b hbuf)
    exact ⟨hdata, hlen, hcap, hblk⟩

/-- Instance of C6: a 3-byte payload with a 12-byte command header and a 16-byte response
header on the packet transport. -/
theorem alloc_adds_envelope_header_witness :
    morsectrl_transport_cmd_alloc 12 example_transport 3 =
      .ok { buff := some { memblock := List.replicate 15 170, capacity := 15, data := 0,
                           data_len := 15 },
            log := [event.ops_call ops_member.write_alloc] } ∧
    morsectrl_transport_resp_alloc 16 example_transport 3 =
      .ok { buff := some { memblock := List.replicate 19 170, capacity := 19, data := 0,
                           data_len := 19 },
            log := [event.ops_call ops_member.read_alloc] } :=
  ⟨(alloc_adds_envelope_header 12 16 example_vars 3 (by decide) (by decide)).1
      (nl80211_ops example_env) _ rfl,
   (alloc_adds_envelope_header 12 16 example_vars 3 (by decide) (by decide)).2.1
      (nl80211_ops example_env) _ rfl⟩

/-- C7: for every size above zero, a buffer returned by the packet backend's `write_alloc` or
`read_alloc` has `capacity == size`, `data_len == size` and `data == memblock`, over a block
of `size` bytes: its usable length is not less than the requested size.  The allocators do
return a buffer when the transport is a packet transport and both `malloc` calls succeed. -/
theorem nl80211_alloc_capacity (env : nl80211_env) (vars : morsectrl_transport_vars)
    (size : Nat) (h_pos : 0 < size) :
    (∀ b, morsectrl_nl80211_write_alloc env vars size = some b ∨
          morsectrl_nl80211_read_alloc env vars size = some b →
      b.capacity = size ∧ b.data_len = size ∧ b.data = 0 ∧ b.memblock.length = size ∧
      size ≤ b.memblock.length - b.data) ∧
    (vars.type = morsectrl_transport_type.MORSECTRL_TRANSPORT_NL80211 →
      env.heap.buff_ok = true → (env.heap.block size).isSome = true →
      ∃ b, morsectrl_nl80211_write_alloc env vars size = some b ∧
           morsectrl_nl80211_read_alloc env vars size = some b) := by
  constructor
  · intro b hb
    have halloc : morsectrl_nl80211_alloc env.heap size = some b := by
      rcases hb with h | h
      · exact nl80211_write_alloc_some env vars size b h
      · exact nl80211_read_alloc_some env vars size b h
    obtain ⟨_, hcap, hlen, hdata, hblk⟩ := nl80211_alloc_some env.heap size b halloc
    exact ⟨hcap, hlen, hdata, hblk, by omega⟩
  · intro htype hok hblock
    have h0 : ¬ size ≤ 0 := by omega
    cases hj : env.heap.block size with
    | none => simp [hj] at hblock
    | some junk =>
      refine ⟨{ memblock := (List.range size).map (fun i => junk.getD i 0 % 256),
                capacity := size, data := 0, data_len := size }, ?_, ?_⟩
      · simp [morsectrl_nl80211_write_alloc, morsectrl_nl80211_alloc, malloc, htype, hok, hj,
          h0]
      · simp [morsectrl_nl80211_read_alloc, morsectrl_nl80211_alloc, malloc, htype, hok, hj,
          h0]

/-- Instance of C7: a request for 16 bytes. -/
theorem nl80211_alloc_capacity_witness :
    (∀ b, morsectrl_nl80211_write_alloc example_env example_vars 16 = some b ∨
          morsectrl_nl80211_read_alloc example_env example_vars 16 = some b →
      b.capacity = 16 ∧ b.data_len = 16 ∧ b.data = 0 ∧ b.memblock.length = 16 ∧
      16 ≤ b.memblock.length - b.data) ∧
    (example_vars.type = morsectrl_transport_type.MORSECTRL_TRANSPORT_NL80211 →
      example_env.heap.buff_ok = true → (example_env.heap.block 16).isSome = true →
      ∃ b, morsectrl_nl80211_write_alloc example_env example_vars 16 = some b ∧
           morsectrl_nl80211_read_alloc example_env example_vars 16 = some b) :=
  nl80211_alloc_capacity example_env example_vars 16 (by decide)

theorem receive_handler_frame (vars : morsectrl_transport_vars) (attr : Option (List Nat))
    (resp : morsectrl_transport_buff) :
    (morsectrl_nl80211_receive_handler vars attr resp).2.1.capacity = resp.capacity ∧
    (morsectrl_nl80211_receive_handler vars attr resp).2.1.data = resp.data ∧
    (morsectrl_nl80211_receive_handler vars attr resp).2.1.data_len ≤ resp.data_len ∧
    (morsectrl_nl80211_receive_handler vars attr resp).2.1.memblock.length =
      resp.memblock.length := by
  unfold morsectrl_nl80211_receive_handler
  by_cases ht : vars.type ≠ morsectrl_transport_type.MORSECTRL_TRANSPORT_NL80211
  · simp [ht]
  · cases attr with
    | none => simp [ht]
    | some data =>
      simp only [ht, if_false, length_memcpy]
      refine ⟨trivial, trivial, ?_, trivial⟩
      by_cases hl : data.length > resp.data_len
      · simp [hl]
      · simp [hl]; omega

/-- C8, as the claim states it, fails: a command buffer allocated by the packet backend for a
12-byte header and no payload satisfies the Wire Buffer invariant, and
`morsectrl_transport_set_cmd_data_length(buf, 1)` leaves it with `data_len` 13 in a block of
capacity 12. -/
theorem set_cmd_data_length_breaks_invariant :
    morsectrl_transport_cmd_alloc 12 example_transport 0 =
      .ok { buff := some example_cmd_no_payload,
            log := [event.ops_call ops_member.write_alloc] } ∧
    wire_buffer_invariant example_cmd_no_payload ∧
    (morsectrl_transport_set_cmd_data_length 12 example_cmd_no_payload 1).data_len = 13 ∧
    (morsectrl_transport_set_cmd_data_length 12 example_cmd_no_payload 1).capacity = 12 ∧
    ¬ wire_buffer_invariant
        (morsectrl_transport_set_cmd_data_length 12 example_cmd_no_payload 1) :=
  ⟨rfl, by decide, by decide, by decide, by decide⟩

/-- C8, amended: the Wire Buffer invariant `data_len <= capacity - (data - memblock)` holds for
every buffer the packet backend allocates and is preserved by the packet backend's response
receive; after `morsectrl_transport_set_cmd_data_length(buf, n)` it holds exactly when
`sizeof(struct command) + n <= capacity - (data - memblock)`. -/
theorem wire_buffer_invariant_maintained (hc : Nat) (h_size : hc + 65535 < SIZE_T_MOD) :
    (∀ env vars size b,
      morsectrl_nl80211_write_alloc env vars size = some b ∨
      morsectrl_nl80211_read_alloc env vars size = some b → wire_buffer_invariant b) ∧
    (∀ vars attr resp, wire_buffer_invariant resp →
      wire_buffer_invariant (morsectrl_nl80211_receive_handler vars attr resp).2.1) ∧
    (∀ buf n, n < 65536 →
      (wire_buffer_invariant (morsectrl_transport_set_cmd_data_length hc buf n) ↔
        ((hc : Int) + (n : Int) ≤ (buf.capacity : Int) - (buf.data : Int)))) := by
  refine ⟨?_, ?_, ?_⟩
  · intro env vars size b hb
    have halloc : morsectrl_nl80211_alloc env.heap size = some b := by
      rcases hb with h | h
      · exact nl80211_write_alloc_some env vars size b h
      · exact nl80211_read_alloc_some env vars size b h
    obtain ⟨_, hcap, hlen, hdata, _⟩ := nl80211_alloc_some env.heap size b halloc
    unfold wire_buffer_invariant
    omega
  · intro vars attr resp hinv
    obtain ⟨hcap, hdata, hlen, _⟩ := receive_handler_frame vars attr resp
    unfold wire_buffer_invariant at *
    omega
  · intro buf n hn
    have hmod : n % 65536 = n := Nat.mod_eq_of_lt hn
    have hsz : size_add hc n = hc + n := size_add_of_lt hc n (by omega)
    unfold wire_buffer_invariant morsectrl_transport_set_cmd_data_length
    simp only [hmod, hsz]
    constructor <;> intro h <;> omega

/-- Instance of C8 as amended: a length of 3 set on a 15-byte buffer with a 12-byte header. -/
theorem wire_buffer_invariant_maintained_witness :
    (wire_buffer_invariant (morsectrl_transport_set_cmd_data_length 12 example_cmd 3) ↔
      (((12 : Nat) : Int) + ((3 : Nat) : Int) ≤
        (example_cmd.capacity : Int) - (example_cmd.data : Int))) ∧
    wire_buffer_invariant (morsectrl_transport_set_cmd_data_length 12 example_cmd 3) :=
  ⟨(wire_buffer_invariant_maintained 12 (by decide)).2.2 example_cmd 3 (by decide),
   ((wire_buffer_invariant_maintained 12 (by decide)).2.2 example_cmd 3 (by decide)).2
     (by decide)⟩

/-- C9: `morsectrl_transport_set_cmd_data_length(buf, n)` changes the logical length only:
afterwards `data_len == sizeof(struct command) + n`, while `capacity`, `memblock` (the
pointer and every byte of the block) and the data pointer are unchanged. -/
theorem set_cmd_data_length_frame (hc : Nat) (buf : morsectrl_transport_buff) (n : Nat)
    (h_n : n < 65536) (h_size : hc + 65535 < SIZE_T_MOD) :
    (morsectrl_transport_set_cmd_data_length hc buf n).data_len = hc + n ∧
    (morsectrl_transport_set_cmd_data_length hc buf n).capacity = buf.capacity ∧
    (morsectrl_transport_set_cmd_data_length hc buf n).memblock = buf.memblock ∧
    (morsectrl_transport_set_cmd_data_length hc buf n).data = buf.data := by
  have hmod : n % 65536 = n := Nat.mod_eq_of_lt h_n
  have hsz : size_add hc n = hc + n := size_add_of_lt hc n (by omega)
  simp [morsectrl_transport_set_cmd_data_length, hmod, hsz]

/-- Instance of C9: a length of 2 set on a 15-byte buffer with a 12-byte header. -/
theorem set_cmd_data_length_frame_witness :
    (morsectrl_transport_set_cmd_data_length 12 example_cmd 2).data_len = 12 + 2 ∧
    (morsectrl_transport_set_cmd_data_length 12 example_cmd 2).capacity =
      example_cmd.capacity ∧
    (morsectrl_transport_set_cmd_data_length 12 example_cmd 2).memblock =
      example_cmd.memblock ∧
    (morsectrl_transport_set_cmd_data_length 12 example_cmd 2).data = example_cmd.data :=
  set_cmd_data_length_frame 12 example_cmd 2 (by decide) (by decide)

/-- C10: on the packet backend an allocation of size 0 fails:
`morsectrl_transport_raw_read_alloc(t, 0)` and `morsectrl_transport_raw_write_alloc(t, 0)`
return null, and no allocator of the dispatcher returns a buffer of capacity 0. -/
theorem packet_alloc_zero_fails (hc hr : Nat) (env : nl80211_env)
    (vars : morsectrl_transport_vars) :
    (morsectrl_transport_raw_read_alloc
      { vars := vars, tops := some (nl80211_ops env) } 0).buff = none ∧
    (morsectrl_transport_raw_write_alloc
      { vars := vars, tops := some (nl80211_ops env) } 0).buff = none ∧
    (∀ size b,
      (morsectrl_transport_raw_read_alloc
        { vars := vars, tops := some (nl80211_ops env) } size).buff = some b ∨
      (morsectrl_transport_raw_write_alloc
        { vars := vars, tops := some (nl80211_ops env) } size).buff = some b ∨
      (∃ log, morsectrl_transport_cmd_alloc hc
        { vars := vars, tops := some (nl80211_ops env) } size =
          .ok { buff := some b, log := log }) ∨
      (∃ log, morsectrl_transport_resp_alloc hr
        { vars := vars, tops := some (nl80211_ops env) } size =
          .ok { buff := some b, log := log }) →
      0 < b.capacity) := by
  refine ⟨?_, ?_, ?_⟩
  · simp [morsectrl_transport_raw_read_alloc, nl80211_ops, morsectrl_nl80211_read_alloc,
      morsectrl_nl80211_alloc]
  · simp [morsectrl_transport_raw_write_alloc, nl80211_ops, morsectrl_nl80211_write_alloc,
      morsectrl_nl80211_alloc]
  · intro size b hb
    have key : ∃ sz, morsectrl_nl80211_alloc env.heap sz = some b := by
      rcases hb with h | h | ⟨log, h⟩ | ⟨log, h⟩
      · exact ⟨size, nl80211_read_alloc_some env vars size b h⟩
      · exact ⟨size, nl80211_write_alloc_some env vars size b h⟩
      · rw [cmd_alloc_packet] at h
        have hbuf : morsectrl_nl80211_write_alloc env vars (size_add hc size) = some b := by
          injection h with h1
          injection h1 with h2
        exact ⟨_, nl80211_write_alloc_some env vars _ b hbuf⟩
      · rw [resp_alloc_packet] at h
        have hbuf : morsectrl_nl80211_read_alloc env vars (size_add hr size) = some b := by
          injection h with h1
          injection h1 with h2
        exact ⟨_, nl80211_read_alloc_some env vars _ b hbuf⟩
    obtain ⟨sz, hsz⟩ := key
    obtain ⟨hpos, hcap, _⟩ := nl80211_alloc_some env.heap sz b hsz
    omega

/-- Instance of C10: a raw allocation of size 0, and the buffer of `cmd_alloc(t, 0)`. -/
theorem packet_alloc_zero_fails_witness :
    (morsectrl_transport_raw_write_alloc example_transport 0).buff = none ∧
    0 < example_cmd_no_payload.capacity :=
  ⟨(packet_alloc_zero_fails 12 16 example_env example_vars).2.1,
   (packet_alloc_zero_fails 12 16 example_env example_vars).2.2 0 example_cmd_no_payload
     (Or.inr (Or.inr (Or.inl ⟨_, rfl⟩)))⟩

/-! ## The dispatcher: claims C11 to C13 -/

/-- C11: `morsectrl_transport_buff_free(null)` returns (`-ETRANSERR`) without calling `free` at
all; for a non-null buffer it calls `free` once on the memblock and once on the buffer, and
returns 0. -/
theorem buff_free_null_safe_and_once (b : morsectrl_transport_buff) :
    morsectrl_transport_buff_free none = (-2, []) ∧
    morsectrl_transport_buff_free (some b) =
      (0, [free_call.memblock b.memblock, free_call.buff b]) ∧
    (morsectrl_transport_buff_free (some b)).2.count (free_call.memblock b.memblock) = 1 ∧
    (morsectrl_transport_buff_free (some b)).2.count (free_call.buff b) = 1 ∧
    (morsectrl_transport_buff_free (some b)).2.length = 2 := by
  refine ⟨rfl, rfl, ?_, ?_, rfl⟩
  · simp [morsectrl_transport_buff_free, List.count_cons]
  · simp [morsectrl_transport_buff_free, List.count_cons]

/-- C12: when the selected backend has no `reg_read`, `reg_write`, `mem_read`, `mem_write` or
`reset_device`, the dispatcher call returns `-ETRANSERR` (-2), calls no backend function
(empty log) and leaves the output value or buffer and the transport fields as they were; the
packet backend `nl80211_ops` is such a backend for all five. -/
theorem unsupported_operation_reported (vars : morsectrl_transport_vars)
    (tops : morsectrl_transport_ops) (env : nl80211_env) (addr value : Nat)
    (buf : morsectrl_transport_buff) :
    (tops.reg_read = none →
      morsectrl_transport_reg_read { vars := vars, tops := some tops } addr value =
        { ret := -2, vars := vars, value := value, log := [] }) ∧
    (tops.reg_write = none →
      morsectrl_transport_reg_write { vars := vars, tops := some tops } addr value =
        { ret := -2, vars := vars, log := [] }) ∧
    (tops.mem_read = none →
      morsectrl_transport_mem_read { vars := vars, tops := some tops } buf addr =
        { ret := -2, vars := vars, buff := buf, log := [] }) ∧
    (tops.mem_write = none →
      morsectrl_transport_mem_write { vars := vars, tops := some tops } buf addr =
        { ret := -2, vars := vars, log := [] }) ∧
    (tops.reset_device = none →
      morsectrl_transport_reset_device { vars := vars, tops := some tops } =
        { ret := -2, vars := vars, log := [] }) ∧
    morsectrl_transport_reg_read { vars := vars, tops := some (nl80211_ops env) } addr value =
      { ret := -2, vars := vars, value := value, log := [] } ∧
    morsectrl_transport_reg_write { vars := vars, tops := some (nl80211_ops env) } addr value =
      { ret := -2, vars := vars, log := [] } ∧
    morsectrl_transport_mem_read { vars := vars, tops := some (nl80211_ops env) } buf addr =
      { ret := -2, vars := vars, buff := buf, log := [] } ∧
    morsectrl_transport_mem_write { vars := vars, tops := some (nl80211_ops env) } buf addr =
      { ret := -2, vars := vars, log := [] } ∧
    morsectrl_transport_reset_device { vars := vars, tops := some (nl80211_ops env) } =
      { ret := -2, vars := vars, log := [] } := by
  refine ⟨?_, ?_, ?_, ?_, ?_, rfl, rfl, rfl, rfl, rfl⟩
  · intro h; simp [morsectrl_transport_reg_read, h, ETRANSERR]
  · intro h; simp [morsectrl_transport_reg_write, h, ETRANSERR]
  · intro h; simp [morsectrl_transport_mem_read, h, ETRANSERR]
  · intro h; simp [morsectrl_transport_mem_write, h, ETRANSERR]
  · intro h; simp [morsectrl_transport_reset_device, h, ETRANSERR]

/-- Instance of C12: `reg_read` on the packet transport. -/
theorem unsupported_operation_reported_witness :
    morsectrl_transport_reg_read example_transport 0x10054094 7 =
      { ret := -2, vars := example_vars, value := 7, log := [] } :=
  (unsupported_operation_reported example_vars (nl80211_ops example_env) example_env
    0x10054094 7 example_resp).1 rfl

/-- C13, the code at the failing input: on a packet transport `morsectrl_transport_raw_read`,
`morsectrl_transport_raw_write` and `morsectrl_transport_raw_read_write` call through the
null members of `nl80211_ops`; none of them returns `-ETRANSERR`. -/
theorem raw_operations_call_null_member (env : nl80211_env) (vars : morsectrl_transport_vars)
    (rd wr : morsectrl_transport_buff) (start finish : Bool) :
    morsectrl_transport_raw_read { vars := vars, tops := some (nl80211_ops env) } rd start
        finish = .error (crash.null_function_pointer ops_member.raw_read) ∧
    morsectrl_transport_raw_write { vars := vars, tops := some (nl80211_ops env) } wr start
        finish = .error (crash.null_function_pointer ops_member.raw_write) ∧
    morsectrl_transport_raw_read_write { vars := vars, tops := some (nl80211_ops env) } rd wr
        start finish = .error (crash.null_function_pointer ops_member.raw_read_write) :=
  ⟨rfl, rfl, rfl⟩

/-! ## Backend selection: claims C14 and C15 -/

theorem strncmp_eq_iff (s2 : List Char) : ∀ s1 : List Char,
    strncmp_eq s1 s2 s2.length = true ↔ s2 <+: s1 := by
  induction s2 with
  | nil => intro s1; simp [strncmp_eq]
  | cons c2 r2 ih =>
    intro s1
    cases s1 with
    | nil => simp [strncmp_eq]
    | cons c1 r1 =>
      simp only [List.length_cons, strncmp_eq, Bool.and_eq_true, beq_iff_eq, ih r1,
        List.cons_prefix_cons]
      constructor <;> rintro ⟨h, hr⟩ <;> exact ⟨h.symm, hr⟩

theorem transport_select_unknown (cfg : build_config) (env : nl80211_env) (name : String)
    (h_nl : cfg.ENABLE_TRANS_NL80211 = true → ¬ (transport_nl80211.toList <+: name.toList))
    (h_spi : cfg.ENABLE_TRANS_FTDI_SPI = true → ¬ (transport_ftdi_spi.toList <+: name.toList)) :
    transport_select cfg env (some name) =
      (morsectrl_transport_type.MORSECTRL_TRANSPORT_NONE, none, "None") := by
  unfold transport_select
  have e1 : transport_nl80211.length = transport_nl80211.toList.length := rfl
  have e2 : transport_ftdi_spi.length = transport_ftdi_spi.toList.length := rfl
  have h1 : (cfg.ENABLE_TRANS_NL80211 &&
      strncmp_eq name.toList transport_nl80211.toList transport_nl80211.length) = false := by
    cases hc : cfg.ENABLE_TRANS_NL80211 with
    | false => rfl
    | true =>
      have := h_nl hc
      rw [e1]
      simp only [Bool.true_and]
      rw [Bool.eq_false_iff]
      intro hh
      exact this ((strncmp_eq_iff _ _).1 hh)
  have h2 : (cfg.ENABLE_TRANS_FTDI_SPI &&
      strncmp_eq name.toList transport_ftdi_spi.toList transport_ftdi_spi.length) = false := by
    cases hc : cfg.ENABLE_TRANS_FTDI_SPI with
    | false => rfl
    | true =>
      have := h_spi hc
      rw [e2]
      simp only [Bool.true_and]
      rw [Bool.eq_false_iff]
      intro hh
      exact this ((strncmp_eq_iff _ _).1 hh)
  simp only [h1, h2]
  rfl

/-- C14: with no transport name and the packet backend compiled in,
`morsectrl_transport_parse` selects the nl80211 backend (type NL80211, `tops = &nl80211_ops`),
calls that backend's `parse` and returns its result 0; the interface name stored is
`iface_opts`, or the default interface name when `iface_opts` is null. -/
theorem parse_default_selects_nl80211 (cfg : build_config) (env : nl80211_env)
    (transport : morsectrl_transport) (iface_opts cfg_opts : Option String)
    (h_cfg : cfg.ENABLE_TRANS_NL80211 = true) :
    ∃ out, morsectrl_transport_parse cfg env transport none iface_opts cfg_opts = .ok out ∧
      out.ret = 0 ∧
      out.transport.vars.type = morsectrl_transport_type.MORSECTRL_TRANSPORT_NL80211 ∧
      out.transport.tops = some (nl80211_ops env) ∧
      out.transport.vars.interface_name =
        some (match iface_opts with
              | some name => name
              | none => env.default_interface_name) ∧
      event.ops_call ops_member.parse ∈ out.log ∧
      (morsectrl_nl80211_parse env
        { transport.vars with type := morsectrl_transport_type.MORSECTRL_TRANSPORT_NL80211 }
        iface_opts cfg_opts).ret = out.ret := by
  have hsel : transport_select cfg env none =
      (morsectrl_transport_type.MORSECTRL_TRANSPORT_NL80211, some (nl80211_ops env),
        "NL80211") := by
    simp [transport_select, h_cfg]
  have hret : (morsectrl_nl80211_parse env
      { transport.vars with type := morsectrl_transport_type.MORSECTRL_TRANSPORT_NL80211 }
      iface_opts cfg_opts).ret = 0 := by
    simp [morsectrl_nl80211_parse, ETRANSSUCC]
  have hparse : (nl80211_ops env).parse = some (morsectrl_nl80211_parse env) := rfl
  refine ⟨{ ret := (morsectrl_nl80211_parse env
              { transport.vars with
                type := morsectrl_transport_type.MORSECTRL_TRANSPORT_NL80211 }
              iface_opts cfg_opts).ret,
            transport :=
              { vars := (morsectrl_nl80211_parse env
                  { transport.vars with
                    type := morsectrl_transport_type.MORSECTRL_TRANSPORT_NL80211 }
                  iface_opts cfg_opts).vars,
                tops := some (nl80211_ops env) },
            log := (if transport.vars.debug then
                [event.mctrl_print "Transport set to: ", event.mctrl_print "NL80211"]
              else []) ++ event.ops_call ops_member.parse ::
                (morsectrl_nl80211_parse env
                  { transport.vars with
                    type := morsectrl_transport_type.MORSECTRL_TRANSPORT_NL80211 }
                  iface_opts cfg_opts).log }, ?_, hret, ?_, rfl, ?_, ?_, rfl⟩
  · unfold morsectrl_transport_parse
    simp only [hsel, hparse, hret, ne_eq, not_true_eq_false, if_false]
  · simp [morsectrl_nl80211_parse]
  · cases iface_opts <;> simp [morsectrl_nl80211_parse]
  · simp

/-- Instance of C14: no transport name and no interface name. -/
theorem parse_default_selects_nl80211_witness :
    ∃ out, morsectrl_transport_parse example_build example_env example_unparsed none none
        none = .ok out ∧
      out.ret = 0 ∧
      out.transport.vars.type = morsectrl_transport_type.MORSECTRL_TRANSPORT_NL80211 ∧
      out.transport.tops = some (nl80211_ops example_env) ∧
      out.transport.vars.interface_name = some "wlan0" ∧
      event.ops_call ops_member.parse ∈ out.log ∧
      (morsectrl_nl80211_parse example_env
        { example_unparsed.vars with
          type := morsectrl_transport_type.MORSECTRL_TRANSPORT_NL80211 } none none).ret =
        out.ret :=
  parse_default_selects_nl80211 example_build example_env example_unparsed none none rfl

/-- C15, as the claim states it, fails: the name `nl80211x` is not a backend identifier, and
`morsectrl_transport_parse` accepts it, selects the nl80211 backend and returns 0. -/
theorem parse_accepts_longer_name :
    morsectrl_transport_parse example_build example_env example_unparsed (some "nl80211x")
        none none =
      .ok { ret := 0,
            transport :=
              { vars := { example_unparsed.vars with
                          type := morsectrl_transport_type.MORSECTRL_TRANSPORT_NL80211,
                          interface_name := some "wlan0" },
                tops := some (nl80211_ops example_env) },
            log := [event.ops_call ops_member.parse] } ∧
    "nl80211x" ≠ transport_nl80211 ∧ "nl80211x" ≠ transport_ftdi_spi :=
  ⟨rfl, by decide, by decide⟩

/-- C15, amended: for every transport name that does not begin with one of the compiled-in
backend identifiers, `morsectrl_transport_parse` returns `-ETRANSERR` (-2), leaves the type
`MORSECTRL_TRANSPORT_NONE` and no backend selected, and calls no backend `parse`: it only
reports "Invalid transport" through the error callback (after the debug lines, if any). -/
theorem parse_rejects_unknown_name (cfg : build_config) (env : nl80211_env)
    (transport : morsectrl_transport) (name : String) (iface_opts cfg_opts : Option String)
    (h_nl : cfg.ENABLE_TRANS_NL80211 = true → ¬ (transport_nl80211.toList <+: name.toList))
    (h_spi : cfg.ENABLE_TRANS_FTDI_SPI = true → ¬ (transport_ftdi_spi.toList <+: name.toList))
    (h_err : transport.vars.has_error_function = true) :
    morsectrl_transport_parse cfg env transport (some name) iface_opts cfg_opts =
      .ok { ret := -2,
            transport :=
              { vars := { transport.vars with
                          type := morsectrl_transport_type.MORSECTRL_TRANSPORT_NONE },
                tops := none },
            log := (if transport.vars.debug then
                [event.mctrl_print "Transport set to: ", event.mctrl_print "None"]
              else []) ++
              [event.error_function "Transport parsing" (-2) "Invalid transport"] } := by
  unfold morsectrl_transport_parse
  simp only [transport_select_unknown cfg env name h_nl h_spi, h_err, if_true, ETRANSERR]

/-- Instance of C15 as amended: the name `spi`. -/
theorem parse_rejects_unknown_name_witness :
    morsectrl_transport_parse example_build example_env example_unparsed (some "spi") none
        none =
      .ok { ret := -2,
            transport :=
              { vars := { example_unparsed.vars with
                          type := morsectrl_transport_type.MORSECTRL_TRANSPORT_NONE },
                tops := none },
            log := (if example_unparsed.vars.debug then
                [event.mctrl_print "Transport set to: ", event.mctrl_print "None"]
              else []) ++
              [event.error_function "Transport parsing" (-2) "Invalid transport"] } :=
  parse_rejects_unknown_name example_build example_env example_unparsed "spi" none none
    (fun _ => by decide) (fun _ => by decide) rfl

/-! ## The program entry: claims C16 and C17 -/

theorem main_exit_range (r : Int) : 0 ≤ main_exit r ∧ main_exit r ≤ 254 := by
  unfold main_exit MORSE_CMD_ERR
  split_ifs <;> omega

theorem main_handler_ret (c : command_handler) (transport : morsectrl_transport)
    (args : List String) (trace : List main_event) (out : main_out)
    (h : main_handler c transport args trace = .ok out) :
    out.ret = main_exit (c.handler transport args).1 := by
  unfold main_handler at h
  by_cases hi : c.is_intf_cmd = true
  · simp only [hi, if_true] at h
    cases hd : morsectrl_transport_deinit (c.handler transport args).2 with
    | error e => simp [hd] at h
    | ok d =>
      simp only [hd] at h
      injection h with h
      rw [← h]
  · simp only [hi, if_false] at h
    injection h with h
    rw [← h]

theorem main_command_range (cfg : build_config) (c : command_handler)
    (transport : morsectrl_transport) (args : List String) (trace : List main_event)
    (out : main_out) (h : main_command cfg c transport args trace = .ok out) :
    0 ≤ out.ret ∧ out.ret ≤ 254 := by
  unfold main_command at h
  split_ifs at h with h1 h2
  · injection h with h; rw [← h]; exact main_exit_range ETRANSFTDISPIERR
  · cases hi : morsectrl_transport_init transport with
    | error e => simp [hi] at h
    | ok i =>
      simp only [hi] at h
      split_ifs at h with h3
      · injection h with h; rw [← h]; exact main_exit_range _
      · rw [main_handler_ret c _ args _ out h]; exact main_exit_range _
  · rw [main_handler_ret c _ args _ out h]; exact main_exit_range _

theorem main_range (cfg : build_config) (env : nl80211_env) (commands : List command_handler)
    (config_file_parse : String → Option String → Option String → Option String →
      Int × Option String × Option String × Option String)
    (debug : Bool) (file_opts trans_opts iface_opts cfg_opts : Option String)
    (args : List String) (out : main_out)
    (h : main cfg env commands config_file_parse debug file_opts trans_opts iface_opts
      cfg_opts args = .ok out) :
    0 ≤ out.ret ∧ out.ret ≤ 254 := by
  unfold main at h
  simp only at h
  split_ifs at h with h1
  · injection h with h; rw [← h]; exact main_exit_range _
  · split at h
    · simp at h
    · split_ifs at h with h2 h3
      · injection h with h; rw [← h]; exact main_exit_range (-ENODEV)
      · injection h with h; rw [← h]; exact main_exit_range _
      · split at h
        · injection h with h; rw [← h]; simp [MORSE_ARG_ERR]
        · split at h
          · exact main_command_range cfg _ _ _ _ out h
          · injection h with h; rw [← h]; exact main_exit_range MORSE_CMD_ERR

theorem main_of_parse (cfg : build_config) (env : nl80211_env)
    (commands : List command_handler)
    (config_file_parse : String → Option String → Option String → Option String →
      Int × Option String × Option String × Option String)
    (debug : Bool) (file_opts trans_opts iface_opts cfg_opts : Option String)
    (args : List String) (t i c : Option String) (p : transport_out)
    (h_file : (file_opts = none ∧ t = trans_opts ∧ i = iface_opts ∧ c = cfg_opts) ∨
      ∃ f, file_opts = some f ∧
        config_file_parse f trans_opts iface_opts cfg_opts = (0, t, i, c))
    (h_parse : morsectrl_transport_parse cfg env (main_transport debug) t i c = .ok p) :
    main cfg env commands config_file_parse debug file_opts trans_opts iface_opts cfg_opts
        args =
      if p.transport.vars.type = morsectrl_transport_type.MORSECTRL_TRANSPORT_NONE then
        .ok { ret := main_exit (-ENODEV), transport := p.transport,
              trace := [main_event.transport_parse p.ret] }
      else if p.ret ≠ 0 then
        .ok { ret := main_exit p.ret, transport := p.transport,
              trace := [main_event.transport_parse p.ret] }
      else
        match args with
        | [] => .ok { ret := MORSE_ARG_ERR, transport := p.transport,
                      trace := [main_event.transport_parse p.ret] }
        | argv0 :: _ =>
          match commands.find? (fun c => strcmp_eq argv0 c.name) with
          | some c => main_command cfg c p.transport args [main_event.transport_parse p.ret]
          | none =>
            .ok { ret := main_exit MORSE_CMD_ERR, transport := p.transport,
                  trace := [main_event.transport_parse p.ret] } := by
  rcases h_file with ⟨hf, rfl, rfl, rfl⟩ | ⟨f, hf, hc⟩
  · unfold main
    simp only [hf, MORSE_OK, h_parse]
    simp
  · unfold main
    simp only [hf, hc, h_parse]
    simp

/-- C16: whatever value `ret` holds when `main` reaches its label `exit`, the value returned is
`ret` when `0 <= ret <= 254` and `MORSE_CMD_ERR` (2) otherwise, and on every path `main`
returns the value of its label `exit` for the value that path sets: the result of the
configuration file, `-ENODEV` when no transport is selected, the result of
`morsectrl_transport_parse`, `ETRANSFTDISPIERR`, the result of `morsectrl_transport_init`
when it fails, the result of the handler of the command, and `MORSE_CMD_ERR` for a name that
is not in the table; without a command `main` returns `MORSE_ARG_ERR`.  Consequently `main`
never returns a negative value or a value above 254, and success is 0. -/
theorem main_exit_code (cfg : build_config) (env : nl80211_env)
    (commands : List command_handler)
    (config_file_parse : String → Option String → Option String → Option String →
      Int × Option String × Option String × Option String)
    (debug : Bool) (file_opts trans_opts iface_opts cfg_opts : Option String)
    (args : List String) :
    (∀ r : Int, main_exit r = if 0 ≤ r ∧ r ≤ 254 then r else 2) ∧
    main_exit 0 = 0 ∧
    (∀ out, main cfg env commands config_file_parse debug file_opts trans_opts iface_opts cfg_opts
        args = .ok out → 0 ≤ out.ret ∧ out.ret ≤ 254) ∧
    (∀ f, file_opts = some f → (config_file_parse f trans_opts iface_opts cfg_opts).1 ≠ 0 →
      main cfg env commands config_file_parse debug file_opts trans_opts iface_opts cfg_opts
        args =
        .ok { ret := main_exit (config_file_parse f trans_opts iface_opts cfg_opts).1,
              transport := main_transport debug, trace := [] }) ∧
    (∀ (t i c : Option String) (p : transport_out),
      ((file_opts = none ∧ t = trans_opts ∧ i = iface_opts ∧ c = cfg_opts) ∨
        ∃ f, file_opts = some f ∧
          config_file_parse f trans_opts iface_opts cfg_opts = (0, t, i, c)) →
      morsectrl_transport_parse cfg env (main_transport debug) t i c = .ok p →
      (p.transport.vars.type = morsectrl_transport_type.MORSECTRL_TRANSPORT_NONE →
        main cfg env commands config_file_parse debug file_opts trans_opts iface_opts cfg_opts
        args =
          .ok { ret := main_exit (-ENODEV), transport := p.transport,
                trace := [main_event.transport_parse p.ret] }) ∧
      (p.transport.vars.type ≠ morsectrl_transport_type.MORSECTRL_TRANSPORT_NONE →
        p.ret ≠ 0 →
        main cfg env commands config_file_parse debug file_opts trans_opts iface_opts cfg_opts
        args =
          .ok { ret := main_exit p.ret, transport := p.transport,
                trace := [main_event.transport_parse p.ret] }) ∧
      (p.transport.vars.type ≠ morsectrl_transport_type.MORSECTRL_TRANSPORT_NONE →
        p.ret = 0 → args = [] →
        main cfg env commands config_file_parse debug file_opts trans_opts iface_opts cfg_opts
        args =
          .ok { ret := MORSE_ARG_ERR, transport := p.transport,
                trace := [main_event.transport_parse p.ret] }) ∧
      (∀ (argv0 : String) (rest : List String),
        p.transport.vars.type ≠ morsectrl_transport_type.MORSECTRL_TRANSPORT_NONE →
        p.ret = 0 → args = argv0 :: rest →
        (commands.find? (fun c => strcmp_eq argv0 c.name) = none →
          main cfg env commands config_file_parse debug file_opts trans_opts iface_opts cfg_opts
        args =
            .ok { ret := main_exit MORSE_CMD_ERR, transport := p.transport,
                  trace := [main_event.transport_parse p.ret] }) ∧
        (∀ cmd : command_handler,
          commands.find? (fun c => strcmp_eq argv0 c.name) = some cmd →
          ((cfg.ENABLE_TRANS_FTDI_SPI = true ∧ cmd.direct_chip_supported_cmd = false ∧
              p.transport.vars.type =
                morsectrl_transport_type.MORSECTRL_TRANSPORT_FTDI_SPI) →
            main cfg env commands config_file_parse debug file_opts trans_opts iface_opts cfg_opts
        args =
              .ok { ret := main_exit ETRANSFTDISPIERR, transport := p.transport,
                    trace := [main_event.transport_parse p.ret] }) ∧
          (¬ (cfg.ENABLE_TRANS_FTDI_SPI = true ∧ cmd.direct_chip_supported_cmd = false ∧
              p.transport.vars.type =
                morsectrl_transport_type.MORSECTRL_TRANSPORT_FTDI_SPI) →
            (∀ i0 : transport_out,
              (cmd.is_intf_cmd = true ∨
                (strncmp_eq cmd.name.toList "reset".toList cmd.name.length = true ∧
                  p.transport.vars.has_reset = true)) →
              morsectrl_transport_init p.transport = .ok i0 → i0.ret ≠ 0 →
              main cfg env commands config_file_parse debug file_opts trans_opts iface_opts cfg_opts
        args =
                .ok { ret := main_exit i0.ret, transport := i0.transport,
                      trace := [main_event.transport_parse p.ret,
                                main_event.transport_init i0.ret] }) ∧
            (∀ (t0 : morsectrl_transport) (trace0 : List main_event),
              ((cmd.is_intf_cmd = true ∨
                  (strncmp_eq cmd.name.toList "reset".toList cmd.name.length = true ∧
                    p.transport.vars.has_reset = true)) ∧
                ∃ i0, morsectrl_transport_init p.transport = .ok i0 ∧ i0.ret = 0 ∧
                  t0 = i0.transport ∧
                  trace0 = [main_event.transport_parse p.ret,
                            main_event.transport_init i0.ret]) ∨
              (¬ (cmd.is_intf_cmd = true ∨
                  (strncmp_eq cmd.name.toList "reset".toList cmd.name.length = true ∧
                    p.transport.vars.has_reset = true)) ∧
                t0 = p.transport ∧ trace0 = [main_event.transport_parse p.ret]) →
              (cmd.is_intf_cmd = false →
                main cfg env commands config_file_parse debug file_opts trans_opts iface_opts cfg_opts
        args =
                  .ok { ret := main_exit (cmd.handler t0 args).1,
                        transport := (cmd.handler t0 args).2,
                        trace := trace0 ++
                          [main_event.handler cmd.name (cmd.handler t0 args).1] }) ∧
              (cmd.is_intf_cmd = true →
                ∀ d, morsectrl_transport_deinit (cmd.handler t0 args).2 = .ok d →
                main cfg env commands config_file_parse debug file_opts trans_opts iface_opts cfg_opts
        args =
                  .ok { ret := main_exit (cmd.handler t0 args).1,
                        transport := d.transport,
                        trace := trace0 ++
                          [main_event.handler cmd.name (cmd.handler t0 args).1,
                           main_event.transport_deinit d.ret] })))))) := by
  refine ⟨?_, by decide, ?_, ?_, ?_⟩
  · intro r
    unfold main_exit MORSE_CMD_ERR
    split_ifs <;> omega
  · intro out h
    exact main_range cfg env commands config_file_parse debug file_opts trans_opts iface_opts
      cfg_opts args out h
  · intro f hf hne
    unfold main
    simp only [hf, hne]
    simp
    intro h0
    exact absurd h0 hne
  · intro t i c p h_file h_parse
    have hmain := main_of_parse cfg env commands config_file_parse debug file_opts trans_opts
      iface_opts cfg_opts args t i c p h_file h_parse
    refine ⟨?_, ?_, ?_, ?_⟩
    · intro hty
      rw [hmain, if_pos hty]
    · intro hty hret
      rw [hmain, if_neg hty, if_pos hret]
    · intro hty hret hargs
      rw [hmain, if_neg hty, if_neg (not_not.mpr hret), hargs]
    · intro argv0 rest hty hret hargs
      have hcmd : main cfg env commands config_file_parse debug file_opts trans_opts
                iface_opts cfg_opts args =
          match commands.find? (fun c => strcmp_eq argv0 c.name) with
          | some c => main_command cfg c p.transport args [main_event.transport_parse p.ret]
          | none =>
            .ok { ret := main_exit MORSE_CMD_ERR, transport := p.transport,
                  trace := [main_event.transport_parse p.ret] } := by
        rw [hmain, if_neg hty, if_neg (not_not.mpr hret)]
        subst hargs
        rfl
      refine ⟨?_, ?_⟩
      · intro hfind
        rw [hcmd, hfind]
      · intro cmd hfind
        rw [hfind] at hcmd
        simp only at hcmd
        refine ⟨?_, ?_⟩
        · intro hunsup
          rw [hcmd]
          unfold main_command
          rw [if_pos hunsup]
        · intro hsup
          refine ⟨?_, ?_⟩
          · intro i0 hneeds hinit hne
            rw [hcmd]
            unfold main_command
            rw [if_neg hsup, if_pos hneeds]
            simp only [hinit]
            rw [if_pos hne]
            rfl
          · intro t0 trace0 hpath
            have hhandler : main cfg env commands config_file_parse debug file_opts trans_opts
                iface_opts cfg_opts args = main_handler cmd t0 args trace0 := by
              rw [hcmd]
              unfold main_command
              rw [if_neg hsup]
              rcases hpath with ⟨hneeds, i0, hinit, hzero, rfl, rfl⟩ | ⟨hnot, rfl, rfl⟩
              · rw [if_pos hneeds]
                simp only [hinit]
                rw [if_neg (not_not.mpr hzero)]
                rfl
              · rw [if_neg hnot]
            refine ⟨?_, ?_⟩
            · intro hintf
              rw [hhandler]
              unfold main_handler
              simp [hintf]
            · intro hintf d hd
              rw [hhandler]
              unfold main_handler
              simp [hintf, hd]

/-- Instance of C16: a value of 300 at the label `exit` gives 2; the command `channel` on the
packet transport, whose handler ends with -110, gives 2 after parse, init, handler and deinit;
and the unknown command name `nosuch` gives 2. -/
theorem main_exit_code_witness :
    main_exit 300 = (if (0 : Int) ≤ 300 ∧ (300 : Int) ≤ 254 then 300 else 2) ∧
    (∃ out, main example_build example_env
        [example_version_entry, example_channel_entry (-110), example_reset_entry]
        example_config_file_parse false none none none none ["channel"] = .ok out ∧
      out.ret = 2 ∧
      out.trace = [main_event.transport_parse 0, main_event.transport_init 0,
                   main_event.handler "channel" (-110), main_event.transport_deinit 0]) ∧
    (∃ out, main example_build example_env
        [example_version_entry, example_channel_entry (-110), example_reset_entry]
        example_config_file_parse false none none none none ["nosuch"] = .ok out ∧
      out.ret = 2) :=
  ⟨(main_exit_code example_build example_env
      [example_version_entry, example_channel_entry (-110), example_reset_entry]
      example_config_file_parse false none none none none ["channel"]).1 300,
   ⟨_, ((((((main_exit_code example_build example_env
      [example_version_entry, example_channel_entry (-110), example_reset_entry]
      example_config_file_parse false none none none none ["channel"]).2.2.2.2
        none none none _ (Or.inl ⟨rfl, rfl, rfl, rfl⟩) rfl).2.2.2
        "channel" [] (by decide) rfl rfl).2
        (example_channel_entry (-110)) rfl).2 (by decide)).2
        _ _ (Or.inl ⟨Or.inl rfl, _, rfl, rfl, rfl, rfl⟩)).2 rfl _ rfl,
     by decide, rfl⟩,
   ⟨_, (((main_exit_code example_build example_env
      [example_version_entry, example_channel_entry (-110), example_reset_entry]
      example_config_file_parse false none none none none ["nosuch"]).2.2.2.2
        none none none _ (Or.inl ⟨rfl, rfl, rfl, rfl⟩) rfl).2.2.2
        "nosuch" [] (by decide) rfl rfl).1 rfl,
     by decide⟩⟩

/-- C17, the code at the failing input: for the table entry `reset` (`is_intf_cmd` false) on a
transport whose `has_reset` flag is set, `main` calls `morsectrl_transport_init`, which
succeeds, then the handler, and returns without calling `morsectrl_transport_deinit`.  The
same holds for every entry that is not an interface command and whose name is a beginning of
`reset`, whatever its handler returns. -/
theorem main_reset_init_without_deinit :
    (main example_build example_env [example_version_entry, example_reset_entry]
      example_config_file_parse false none (some "ftdi_spi") none none ["reset"]).map
        (fun out => (out.ret, out.trace)) =
      .ok (0, [main_event.transport_parse 0, main_event.transport_init 0,
               main_event.handler "reset" 0]) ∧
    (∀ (cfg : build_config) (c : command_handler) (transport : morsectrl_transport)
        (args : List String) (trace : List main_event) (i : transport_out),
      c.is_intf_cmd = false →
      strncmp_eq c.name.toList "reset".toList c.name.length = true →
      transport.vars.has_reset = true → c.direct_chip_supported_cmd = true →
      morsectrl_transport_init transport = .ok i → i.ret = 0 →
      main_command cfg c transport args trace =
        .ok { ret := main_exit (c.handler i.transport args).1,
              transport := (c.handler i.transport args).2,
              trace := trace ++ [main_event.transport_init 0] ++
                [main_event.handler c.name (c.handler i.transport args).1] }) := by
  refine ⟨rfl, ?_⟩
  intro cfg c transport args trace i hintf hname hreset hdirect hi hret
  unfold main_command main_handler
  have h1 : ¬ (cfg.ENABLE_TRANS_FTDI_SPI = true ∧ c.direct_chip_supported_cmd = false ∧
      transport.vars.type = morsectrl_transport_type.MORSECTRL_TRANSPORT_FTDI_SPI) := by
    rintro ⟨_, h', _⟩
    rw [hdirect] at h'
    exact absurd h' (by decide)
  simp only [h1, if_false, hintf, hname, hreset, and_self, or_true, if_true, hi, hret]
  simp

/-! ## Short responses: claim C18 -/

theorem nl80211_send_nonneg (env : nl80211_env) (vars : morsectrl_transport_vars)
    (cmd resp : morsectrl_transport_buff)
    (h_type : vars.type = morsectrl_transport_type.MORSECTRL_TRANSPORT_NL80211)
    (h_msg : env.nlmsg_alloc_ok = true) (h_put : env.genlmsg_put_ok = true)
    (h_idx : 0 ≤ env.nla_put_u32_ifindex) (h_snd : 0 ≤ env.nl_send_auto_complete)
    (h_rcv : 0 ≤ env.nl_recvmsgs) (h_ack : 0 ≤ env.nl_wait_for_ack) :
    0 ≤ (morsectrl_nl80211_send env vars cmd resp).ret := by
  unfold morsectrl_nl80211_send
  have e1 : ¬ (env.nla_put_u32_ifindex < ETRANSSUCC) := by unfold ETRANSSUCC; omega
  have e2 : ¬ (env.nl_send_auto_complete < ETRANSSUCC) := by unfold ETRANSSUCC; omega
  have e3 : ¬ (env.nl_recvmsgs < ETRANSSUCC) := by unfold ETRANSSUCC; omega
  simp only [h_type, ne_eq, not_true_eq_false, if_false, h_msg, h_put, Bool.not_true, e1, e2,
    e3, Bool.false_eq_true]
  split_ifs <;> first | exact h_idx | exact h_ack | exact h_rcv

theorem packet_send_provided (env : nl80211_env) (vars : morsectrl_transport_vars) :
    send_provided { vars := vars, tops := some (nl80211_ops env) } := by
  intro tops h
  have h2 : nl80211_ops env = tops := Option.some.inj h
  rw [← h2]; rfl

/-- C18, as the claim states it, fails: with a response of two bytes, and with no response data
at all, the packet backend's `send` returns 0, and `morsectrl_send_command` returns the status
decoded from the first four bytes of the response buffer (513 and 0 on a zeroed buffer). -/
theorem short_response_not_rejected :
    (morsectrl_nl80211_send example_env_short example_vars example_cmd example_resp_clear).ret
      = 0 ∧
    (morsectrl_nl80211_send example_env_short example_vars example_cmd
      example_resp_clear).buff.data_len = 2 ∧
    (morsectrl_send_command 12
      { vars := example_vars, tops := some (nl80211_ops example_env_short) } 66
      (some example_cmd) (some example_resp_clear)).map (fun out => out.ret) = .ok 513 ∧
    (morsectrl_nl80211_send example_env_silent example_vars example_cmd
      example_resp_clear).ret = 0 ∧
    (morsectrl_send_command 12
      { vars := example_vars, tops := some (nl80211_ops example_env_silent) } 66
      (some example_cmd) (some example_resp_clear)).map (fun out => out.ret) = .ok 0 :=
  ⟨by decide, by decide, rfl, by decide, rfl⟩

/-- C18, amended: the packet backend does not compare the length of the received response with
the size of the envelope.  When the transport is a packet transport and every libnl call of the
exchange succeeds, `send` returns a non-negative value however few bytes were received, and
`morsectrl_send_command` returns the status decoded from the four bytes at the data pointer of
the response buffer as the exchange left it. -/
theorem short_response_is_decoded (hc : Nat) (env : nl80211_env)
    (vars : morsectrl_transport_vars) (message_id : Int)
    (cmd resp : morsectrl_transport_buff)
    (h_type : vars.type = morsectrl_transport_type.MORSECTRL_TRANSPORT_NL80211)
    (h_msg : env.nlmsg_alloc_ok = true) (h_put : env.genlmsg_put_ok = true)
    (h_idx : 0 ≤ env.nla_put_u32_ifindex) (h_snd : 0 ≤ env.nl_send_auto_complete)
    (h_rcv : 0 ≤ env.nl_recvmsgs) (h_ack : 0 ≤ env.nl_wait_for_ack) :
    0 ≤ (morsectrl_nl80211_send env vars (command_hdr_write hc message_id cmd) resp).ret ∧
    ∃ out, morsectrl_send_command hc { vars := vars, tops := some (nl80211_ops env) }
        message_id (some cmd) (some resp) = .ok out ∧
      out.ret = u32_to_int (load32le
        (morsectrl_nl80211_send env vars (command_hdr_write hc message_id cmd)
          resp).buff.memblock (resp.data + OFFSET_STATUS)) ∧
      out.resp = some
        (morsectrl_nl80211_send env vars (command_hdr_write hc message_id cmd) resp).buff := by
  have hnn := nl80211_send_nonneg env vars (command_hdr_write hc message_id cmd) resp h_type
    h_msg h_put h_idx h_snd h_rcv h_ack
  have hb := transport_send_some { vars := vars, tops := some (nl80211_ops env) }
    (command_hdr_write hc message_id cmd) resp (nl80211_ops env) (morsectrl_nl80211_send env)
    rfl rfl
  exact ⟨hnn, _, send_command_of_success hc _ message_id cmd resp _ hb hnn, rfl, rfl⟩

/-- Instance of C18 as amended: a response of two bytes on a zeroed response buffer. -/
theorem short_response_is_decoded_witness :
    0 ≤ (morsectrl_nl80211_send example_env_short example_vars
      (command_hdr_write 12 66 example_cmd) example_resp_clear).ret ∧
    ∃ out, morsectrl_send_command 12
        { vars := example_vars, tops := some (nl80211_ops example_env_short) } 66
        (some example_cmd) (some example_resp_clear) = .ok out ∧
      out.ret = u32_to_int (load32le
        (morsectrl_nl80211_send example_env_short example_vars
          (command_hdr_write 12 66 example_cmd) example_resp_clear).buff.memblock
        (example_resp_clear.data + OFFSET_STATUS)) ∧
      out.resp = some
        (morsectrl_nl80211_send example_env_short example_vars
          (command_hdr_write 12 66 example_cmd) example_resp_clear).buff :=
  short_response_is_decoded 12 example_env_short example_vars 66 example_cmd
    example_resp_clear rfl rfl rfl (by decide) (by decide) (by decide) (by decide)

/-! ## Diagnostics and the force-assert command: claims C19 and C20 -/

/-- C19: after a successful transport exchange, `morsectrl_send_command` returns the decoded
status and adds to what the backend printed at most the "Command failed" diagnostic: with the
debug flag set, exactly when the status is neither 0 nor 110; with the debug flag clear,
never.  A status of 110 is returned as 110. -/
theorem command_failed_diagnostic (hc : Nat) (vars : morsectrl_transport_vars)
    (tops : morsectrl_transport_ops)
    (send : morsectrl_transport_vars → morsectrl_transport_buff → morsectrl_transport_buff →
      buff_out)
    (message_id : Int) (cmd resp : morsectrl_transport_buff)
    (h_send : tops.send = some send)
    (h_ok : 0 ≤ (send vars (command_hdr_write hc message_id cmd) resp).ret) :
    ∃ out emitted,
      morsectrl_send_command hc { vars := vars, tops := some tops } message_id (some cmd)
        (some resp) = .ok out ∧
      out.ret = u32_to_int (load32le
        (send vars (command_hdr_write hc message_id cmd) resp).buff.memblock
        (resp.data + OFFSET_STATUS)) ∧
      out.log = event.ops_call ops_member.send ::
        (send vars (command_hdr_write hc message_id cmd) resp).log ++ emitted ∧
      ((send vars (command_hdr_write hc message_id cmd) resp).vars.debug = true →
        (emitted = [event.mctrl_err_command_failed] ↔ (out.ret ≠ 0 ∧ out.ret ≠ 110)) ∧
        (emitted = [] ↔ (out.ret = 0 ∨ out.ret = 110))) ∧
      ((send vars (command_hdr_write hc message_id cmd) resp).vars.debug = false →
        emitted = []) ∧
      (u32_to_int (load32le
        (send vars (command_hdr_write hc message_id cmd) resp).buff.memblock
        (resp.data + OFFSET_STATUS)) = 110 → out.ret = 110) := by
  have hb := transport_send_some { vars := vars, tops := some tops }
    (command_hdr_write hc message_id cmd) resp tops send rfl h_send
  refine ⟨_, _, send_command_of_success hc _ message_id cmd resp _ hb h_ok, rfl, rfl, ?_, ?_,
    fun h => h⟩
  · intro hd
    simp only [hd]
    generalize u32_to_int (load32le
      (send vars (command_hdr_write hc message_id cmd) resp).buff.memblock
      (resp.data + OFFSET_STATUS)) = status
    by_cases h0 : status = 0 <;> by_cases h1 : status = 110 <;> simp [h0, h1]
  · intro hd
    simp [hd]

/-- Instance of C19: debug set, a backend that succeeds with status bytes `6E 00 00 00`; the
result is 110. -/
theorem command_failed_diagnostic_witness :
    ∃ out, morsectrl_send_command 12
        { vars := { example_vars with debug := true },
          tops := some (mock_ops 0 [110, 0, 0, 0]) } 66
        (some example_cmd) (some example_resp) = .ok out ∧ out.ret = 110 :=
  match command_failed_diagnostic 12 { example_vars with debug := true }
    (mock_ops 0 [110, 0, 0, 0]) _ 66 example_cmd example_resp rfl (by decide) with
  | ⟨out, _, h, _, _, _, _, h110⟩ => ⟨out, h, h110 (by decide)⟩

/-- C20, as the claim states it, fails: when the round trip of `force_assert` returns 110, the
value that `morsectrl_send_command` exempts from its diagnostic, `force_assert` returns -1;
it returns 0 when the round trip returns -110. -/
theorem force_assert_rejects_110 :
    (force_assert_exchange 12 16 0
      { vars := example_vars, tops := some (nl80211_ops example_env_status_110) } 1 []
      0).map (fun st => st.ret) = .ok 110 ∧
    (force_assert 12 16 0
      { vars := example_vars, tops := some (nl80211_ops example_env_status_110) } 1 []
      0).map (fun out => out.ret) = .ok (-1) ∧
    (force_assert_exchange 12 16 0
      { vars := example_vars, tops := some (nl80211_ops example_env_status_minus_110) } 1 []
      0).map (fun st => st.ret) = .ok (-110) ∧
    (force_assert 12 16 0
      { vars := example_vars, tops := some (nl80211_ops example_env_status_minus_110) } 1 []
      0).map (fun out => out.ret) = .ok 0 :=
  ⟨rfl, rfl, rfl, rfl⟩

theorem force_assert_of_exchange (hc hr : Nat) (force_assert_id : Int)
    (transport : morsectrl_transport) (argc : Nat) (options : List Char) (hart_id : Int)
    (st : force_assert_state) (h_argc : argc = 1 ∨ argc = 2)
    (h_st : force_assert_exchange hc hr force_assert_id transport argc options hart_id =
      .ok st) :
    force_assert hc hr force_assert_id transport argc options hart_id =
      .ok { ret := if st.ret ≠ -110 then -1 else 0,
            log := st.log ++
              (if st.ret ≠ -110 then
                event.mctrl_err "Chip didn't timeout. Command failed" ::
                  (if st.ret ≠ 0 then
                    [event.mctrl_err ("Wrong error code returned: " ++ toString st.ret)]
                   else [])
               else []),
            frees := (morsectrl_transport_buff_free st.cmd_tbuff).2 ++
              (morsectrl_transport_buff_free st.rsp_tbuff).2 } := by
  have h0 : ¬ argc = 0 := by omega
  have h2 : ¬ argc > 2 := by omega
  unfold force_assert
  simp only [h0, h2, if_false, h_st]

/-- C20, amended: run with one or two arguments, `force_assert` returns 0 exactly when its
round trip returns -110, and -1 for every other outcome: a round trip returning 0 or 110, an
option that names no hart, and a buffer that could not be allocated.  The round trip is the
call of `morsectrl_send_command` on the two buffers allocated. -/
theorem force_assert_result (hc hr : Nat) (force_assert_id : Int)
    (transport : morsectrl_transport) (argc : Nat) (options : List Char) (hart_id : Int)
    (st : force_assert_state)
    (h_argc : argc = 1 ∨ argc = 2)
    (h_st : force_assert_exchange hc hr force_assert_id transport argc options hart_id =
      .ok st) :
    (∃ out, force_assert hc hr force_assert_id transport argc options hart_id = .ok out ∧
      (out.ret = 0 ↔ st.ret = -110) ∧ (out.ret = -1 ↔ st.ret ≠ -110) ∧
      (st.ret = 0 → out.ret = -1) ∧ (st.ret = 110 → out.ret = -1)) ∧
    (∀ ca ra, morsectrl_transport_cmd_alloc hc transport 4 = .ok ca →
      morsectrl_transport_resp_alloc hr transport 0 = .ok ra →
      ca.buff = none ∨ ra.buff = none → st.ret = -1) ∧
    (∀ ca ra c r, morsectrl_transport_cmd_alloc hc transport 4 = .ok ca →
      morsectrl_transport_resp_alloc hr transport 0 = .ok ra →
      ca.buff = some c → ra.buff = some r →
      (if argc = 1 then some MAC_HARTID else force_assert_getopt hart_id options) = none →
      st.ret = -1) ∧
    (∀ ca ra c r hart sc, morsectrl_transport_cmd_alloc hc transport 4 = .ok ca →
      morsectrl_transport_resp_alloc hr transport 0 = .ok ra →
      ca.buff = some c → ra.buff = some r →
      (if argc = 1 then some MAC_HARTID else force_assert_getopt hart_id options) =
        some hart →
      morsectrl_send_command hc transport force_assert_id
        (some { c with memblock := store32le c.memblock (c.data + hc) (int_to_u32 hart) })
        (some r) = .ok sc →
      st.ret = sc.ret) := by
  refine ⟨?_, ?_, ?_, ?_⟩
  · refine ⟨_, force_assert_of_exchange hc hr force_assert_id transport argc options hart_id
      st h_argc h_st, ?_, ?_, ?_, ?_⟩
    · by_cases h : st.ret = -110 <;> simp [h]
    · by_cases h : st.ret = -110 <;> simp [h]
    · intro h; simp [h]
    · intro h; simp [h]
  · intro ca ra hca hra hnone
    unfold force_assert_exchange at h_st
    simp only [hca, hra] at h_st
    rcases hnone with h | h
    · simp only [h] at h_st
      injection h_st with h_st
      rw [← h_st]
    · cases hc2 : ca.buff with
      | none =>
        simp only [hc2] at h_st
        injection h_st with h_st
        rw [← h_st]
      | some c =>
        simp only [hc2, h] at h_st
        injection h_st with h_st
        rw [← h_st]
  · intro ca ra c r hca hra hc2 hr2 hh
    unfold force_assert_exchange at h_st
    simp only [hca, hra, hc2, hr2, hh] at h_st
    injection h_st with h_st
    rw [← h_st]
  · intro ca ra c r hart sc hca hra hc2 hr2 hh hsc
    unfold force_assert_exchange at h_st
    simp only [hca, hra, hc2, hr2, hh, hsc] at h_st
    injection h_st with h_st
    rw [← h_st]

/-- Instance of C20 as amended: one argument on a packet transport whose firmware answers
with status -110. -/
theorem force_assert_result_witness :
    ∃ out, force_assert 12 16 0
        { vars := example_vars, tops := some (nl80211_ops example_env_status_minus_110) } 1 []
        0 = .ok out ∧ out.ret = 0 :=
  match (force_assert_result 12 16 0
    { vars := example_vars, tops := some (nl80211_ops example_env_status_minus_110) } 1 [] 0
    _ (Or.inl rfl) rfl).1 with
  | ⟨out, h, hzero, _, _, _⟩ => ⟨out, h, hzero.2 rfl⟩

/-! ## The response buffer and the header fields: claims C21, C22, C24 and C25 -/

theorem load8_memcpy (src : List Nat) : ∀ (m : List Nat) (off j : Nat),
    load8 (memcpy m off src) j =
      if off ≤ j ∧ j < off + src.length ∧ j < m.length then src.getD (j - off) 0 % 256
      else load8 m j := by
  induction src with
  | nil =>
    intro m off j
    have hfalse : ¬ (off ≤ j ∧ j < off + ([] : List Nat).length ∧ j < m.length) := by
      simp only [List.length_nil]; omega
    simp only [memcpy, if_neg hfalse]
  | cons b bs ih =>
    intro m off j
    simp only [memcpy, ih, load8_store8, length_store8, List.length_cons]
    by_cases h0 : j = off
    · subst h0
      by_cases hl : j < m.length
      · have h1 : ¬ (j + 1 ≤ j ∧ j < j + 1 + bs.length ∧ j < m.length) := by omega
        have h2 : (j ≤ j ∧ j < j + (bs.length + 1) ∧ j < m.length) := by omega
        simp [h1, h2, hl]
      · have h1 : ¬ (j + 1 ≤ j ∧ j < j + 1 + bs.length ∧ j < m.length) := by omega
        have h2 : ¬ (j ≤ j ∧ j < j + (bs.length + 1) ∧ j < m.length) := by omega
        simp [h1, h2, hl]
    · by_cases h3 : off + 1 ≤ j ∧ j < off + 1 + bs.length ∧ j < m.length
      · have h4 : off ≤ j ∧ j < off + (bs.length + 1) ∧ j < m.length := by omega
        have h5 : j - off = (j - (off + 1)) + 1 := by omega
        simp only [h3, h4, if_true, h5, List.getD_cons_succ, and_self]
      · have h4 : ¬ (off ≤ j ∧ j < off + (bs.length + 1) ∧ j < m.length) := by omega
        simp [h3, h4, h0]

/-- C21: `morsectrl_send_command` does not write to the response buffer.  For every backend
whose `send` succeeds leaving a status `s` and a payload `P` in the response buffer, the
result is `s` and the response buffer afterwards is the one the backend left: same length,
same payload `P`, same bytes. -/
theorem send_command_leaves_response (hc hr : Nat) (vars : morsectrl_transport_vars)
    (tops : morsectrl_transport_ops)
    (send : morsectrl_transport_vars → morsectrl_transport_buff → morsectrl_transport_buff →
      buff_out)
    (message_id : Int) (cmd resp : morsectrl_transport_buff) (s : Int) (P : List Nat)
    (h_send : tops.send = some send)
    (h_ok : (send vars (command_hdr_write hc message_id cmd) resp).ret = 0)
    (h_status : u32_to_int (load32le
      (send vars (command_hdr_write hc message_id cmd) resp).buff.memblock
      (resp.data + OFFSET_STATUS)) = s)
    (h_payload :
      resp_payload hr (send vars (command_hdr_write hc message_id cmd) resp).buff = P) :
    ∃ out r, morsectrl_send_command hc { vars := vars, tops := some tops } message_id
        (some cmd) (some resp) = .ok out ∧
      out.ret = s ∧ out.resp = some r ∧
      r = (send vars (command_hdr_write hc message_id cmd) resp).buff ∧
      r.data_len = (send vars (command_hdr_write hc message_id cmd) resp).buff.data_len ∧
      resp_payload hr r = P := by
  have hb := transport_send_some { vars := vars, tops := some tops }
    (command_hdr_write hc message_id cmd) resp tops send rfl h_send
  exact ⟨_, _, send_command_of_success hc _ message_id cmd resp _ hb (by simp [h_ok]),
    h_status, rfl, rfl, rfl, h_payload⟩

/-- Instance of C21: message id 0x42 and a backend that answers status 0 with the payload
`01 02 03 04`. -/
theorem send_command_leaves_response_witness :
    ∃ out r, morsectrl_send_command 12 { vars := example_vars, tops := some example_echo_ops }
        66 (some example_cmd) (some example_resp) = .ok out ∧
      out.ret = 0 ∧ out.resp = some r ∧ resp_payload 16 r = [1, 2, 3, 4] :=
  match send_command_leaves_response 12 16 example_vars example_echo_ops _ 66 example_cmd
    example_resp 0 [1, 2, 3, 4] rfl rfl (by decide) (by decide) with
  | ⟨out, r, h, hret, hresp, _, _, hp⟩ => ⟨out, r, h, hret, hresp, hp⟩

/-- C22: the receive handler of the packet backend, given vendor data of length `L` and a
response buffer whose `data_len` is `D`, copies the first `min(L, D)` bytes of the data to the
start of the buffer's data and sets `data_len` to `min(L, D)`: no byte outside these is
written, `data_len` does not grow, and `capacity`, the block and the data pointer are
unchanged. -/
theorem receive_handler_copies_min (vars : morsectrl_transport_vars) (data : List Nat)
    (resp : morsectrl_transport_buff)
    (h_type : vars.type = morsectrl_transport_type.MORSECTRL_TRANSPORT_NL80211)
    (h_bytes : ∀ i, data.getD i 0 < 256)
    (h_inv : wire_buffer_invariant resp) (h_blk : block_allocated resp) :
    (morsectrl_nl80211_receive_handler vars (some data) resp).1 = nl_cb_action.NL_OK ∧
    (morsectrl_nl80211_receive_handler vars (some data) resp).2.1.data_len =
      min data.length resp.data_len ∧
    (∀ i, i < min data.length resp.data_len →
      load8 (morsectrl_nl80211_receive_handler vars (some data) resp).2.1.memblock
        (resp.data + i) = data.getD i 0) ∧
    (∀ j, j < resp.data ∨ resp.data + min data.length resp.data_len ≤ j →
      load8 (morsectrl_nl80211_receive_handler vars (some data) resp).2.1.memblock j =
        load8 resp.memblock j) ∧
    (morsectrl_nl80211_receive_handler vars (some data) resp).2.1.data_len ≤ resp.data_len ∧
    (morsectrl_nl80211_receive_handler vars (some data) resp).2.1.capacity = resp.capacity ∧
    (morsectrl_nl80211_receive_handler vars (some data) resp).2.1.data = resp.data ∧
    (morsectrl_nl80211_receive_handler vars (some data) resp).2.1.memblock.length =
      resp.memblock.length := by
  have hfit : resp.data + resp.data_len ≤ resp.memblock.length := by
    unfold wire_buffer_invariant at h_inv
    unfold block_allocated at h_blk
    omega
  have hnot : ¬ (vars.type ≠ morsectrl_transport_type.MORSECTRL_TRANSPORT_NL80211) := by
    simp [h_type]
  unfold morsectrl_nl80211_receive_handler
  simp only [hnot, if_false, length_memcpy, load8_memcpy, List.length_take]
  by_cases hl : data.length > resp.data_len
  · have hmin : min data.length resp.data_len = resp.data_len := by omega
    simp only [hl, decide_True, if_true, hmin]
    refine ⟨trivial, trivial, ?_, ?_, le_refl _, trivial, trivial, trivial⟩
    · intro i hi
      have h1 : resp.data ≤ resp.data + i ∧
          resp.data + i < resp.data + min resp.data_len data.length ∧
          resp.data + i < resp.memblock.length := by omega
      rw [if_pos h1]
      have h2 : resp.data + i - resp.data = i := by omega
      rw [h2, List.getD_eq_getElem?_getD, List.getElem?_take_of_lt hi,
        ← List.getD_eq_getElem?_getD]
      exact Nat.mod_eq_of_lt (h_bytes i)
    · intro j hj
      have h1 : ¬ (resp.data ≤ j ∧ j < resp.data + min resp.data_len data.length ∧
          j < resp.memblock.length) := by omega
      rw [if_neg h1]
  · have hmin : min data.length resp.data_len = data.length := by omega
    simp only [hl, decide_False, if_false, Bool.false_eq_true, hmin]
    refine ⟨trivial, trivial, ?_, ?_, by omega, trivial, trivial, trivial⟩
    · intro i hi
      have h1 : resp.data ≤ resp.data + i ∧
          resp.data + i < resp.data + min data.length data.length ∧
          resp.data + i < resp.memblock.length := by omega
      rw [if_pos h1]
      have h2 : resp.data + i - resp.data = i := by omega
      rw [h2, List.take_length]
      exact Nat.mod_eq_of_lt (h_bytes i)
    · intro j hj
      have h1 : ¬ (resp.data ≤ j ∧ j < resp.data + min data.length data.length ∧
          j < resp.memblock.length) := by omega
      rw [if_neg h1]

theorem getD_replicate_lt (n b i : Nat) (hb : b < 256) :
    (List.replicate n b).getD i 0 < 256 := by
  rw [List.getD_eq_getElem?_getD, List.getElem?_replicate]
  split_ifs
  · simpa using hb
  · simp

/-- Instance of C22: 35 bytes of vendor data for a 20-byte response buffer. -/
theorem receive_handler_copies_min_witness :
    (morsectrl_nl80211_receive_handler example_vars (some (List.replicate 35 7))
      example_resp).2.1.data_len = min (List.replicate 35 7).length example_resp.data_len ∧
    (morsectrl_nl80211_receive_handler example_vars (some (List.replicate 35 7))
      example_resp).2.1.memblock.length = example_resp.memblock.length :=
  ⟨(receive_handler_copies_min example_vars (List.replicate 35 7) example_resp rfl
      (fun i => getD_replicate_lt 35 7 i (by decide)) (by decide) (by decide)).2.1,
   (receive_handler_copies_min example_vars (List.replicate 35 7) example_resp rfl
      (fun i => getD_replicate_lt 35 7 i (by decide)) (by decide)
      (by decide)).2.2.2.2.2.2.2⟩

/-- C24, as the claim states it, fails: with no backend selected and two non-null buffers,
`morsectrl_send_command` returns `-ETRANSERR` (-2), which is neither `-ENOMEM`, nor a value
returned by a backend's `send` (none is called), nor the status in the response buffer (0). -/
theorem send_command_without_backend :
    (morsectrl_send_command 12 { vars := example_vars, tops := none } 66 (some example_cmd)
      (some example_resp_clear)).map (fun out => (out.ret, out.log)) = .ok (-2, []) ∧
    (-2 : Int) ≠ -ENOMEM ∧
    u32_to_int (load32le example_resp_clear.memblock
      (example_resp_clear.data + OFFSET_STATUS)) = 0 :=
  ⟨rfl, by decide, by decide⟩

/-- C24, amended: the values `morsectrl_send_command` can return are `-ENOMEM` (a null
buffer), `-ETRANSERR` (no backend selected), a negative value returned by the backend's
`send`, or the decoded response status: when the backend's `send` returns any non-negative
value, the result is the decoded status and that value is discarded. -/
theorem send_command_result_values (hc : Nat) (transport : morsectrl_transport)
    (message_id : Int) (cmd resp : Option morsectrl_transport_buff)
    (h_send : send_provided transport) :
    ∃ out, morsectrl_send_command hc transport message_id cmd resp = .ok out ∧
      (((cmd = none ∨ resp = none) ∧ out.ret = -12) ∨
       (∃ c r, cmd = some c ∧ resp = some r ∧ transport.tops = none ∧ out.ret = -2) ∨
       (∃ c r tops send, cmd = some c ∧ resp = some r ∧ transport.tops = some tops ∧
          tops.send = some send ∧
          (send transport.vars (command_hdr_write hc message_id c) r).ret < 0 ∧
          out.ret = (send transport.vars (command_hdr_write hc message_id c) r).ret) ∨
       (∃ c r tops send, cmd = some c ∧ resp = some r ∧ transport.tops = some tops ∧
          tops.send = some send ∧
          0 ≤ (send transport.vars (command_hdr_write hc message_id c) r).ret ∧
          out.ret = u32_to_int (load32le
            (send transport.vars (command_hdr_write hc message_id c) r).buff.memblock
            (r.data + OFFSET_STATUS)))) := by
  cases cmd with
  | none =>
    exact ⟨{ ret := -ENOMEM, vars := transport.vars, cmd := none, resp := resp, log := [] },
      by cases resp <;> rfl, Or.inl ⟨Or.inl rfl, rfl⟩⟩
  | some c =>
    cases resp with
    | none => exact ⟨_, rfl, Or.inl ⟨Or.inr rfl, rfl⟩⟩
    | some r =>
      cases htops : transport.tops with
      | none =>
        have hb := transport_send_none transport (command_hdr_write hc message_id c) r htops
        exact ⟨_, send_command_of_failure hc transport message_id c r _ hb
            (by simp [ETRANSERR]),
          Or.inr (Or.inl ⟨c, r, rfl, rfl, rfl, rfl⟩)⟩
      | some tops =>
        have h := h_send tops htops
        cases hsend : tops.send with
        | none => simp [hsend] at h
        | some send =>
          have hb := transport_send_some transport (command_hdr_write hc message_id c) r tops
            send htops hsend
          by_cases hneg : (send transport.vars (command_hdr_write hc message_id c) r).ret < 0
          · exact ⟨_, send_command_of_failure hc transport message_id c r _ hb hneg,
              Or.inr (Or.inr (Or.inl ⟨c, r, tops, send, rfl, rfl, rfl, hsend, hneg, rfl⟩))⟩
          · exact ⟨_, send_command_of_success hc transport message_id c r _ hb
                (not_lt.mp hneg),
              Or.inr (Or.inr (Or.inr ⟨c, r, tops, send, rfl, rfl, rfl, hsend,
                not_lt.mp hneg, rfl⟩))⟩

/-- Instance of C24 as amended: a backend whose `send` returns 7 and leaves status bytes
`6E 00 00 00`; the result is 110. -/
theorem send_command_result_values_witness :
    (morsectrl_send_command 12
      { vars := example_vars, tops := some (mock_ops 7 [110, 0, 0, 0]) } 66
      (some example_cmd) (some example_resp)).map (fun out => out.ret) = .ok 110 ∧
    ∃ out, morsectrl_send_command 12
        { vars := example_vars, tops := some (mock_ops 7 [110, 0, 0, 0]) } 66
        (some example_cmd) (some example_resp) = .ok out :=
  ⟨rfl,
   match send_command_result_values 12
      { vars := example_vars, tops := some (mock_ops 7 [110, 0, 0, 0]) } 66
      (some example_cmd) (some example_resp)
      (fun tops h => by
        have h2 : mock_ops 7 [110, 0, 0, 0] = tops := Option.some.inj h
        rw [← h2]; rfl) with
   | ⟨out, h, _⟩ => ⟨out, h⟩⟩

theorem transport_select_nl80211 (cfg : build_config) (env : nl80211_env) (name : String)
    (h_cfg : cfg.ENABLE_TRANS_NL80211 = true)
    (h_pre : transport_nl80211.toList <+: name.toList) :
    transport_select cfg env (some name) =
      (morsectrl_transport_type.MORSECTRL_TRANSPORT_NL80211, some (nl80211_ops env),
        "NL80211") := by
  unfold transport_select
  have e1 : transport_nl80211.length = transport_nl80211.toList.length := rfl
  have h1 : strncmp_eq name.toList transport_nl80211.toList transport_nl80211.length
      = true := by
    rw [e1]; exact (strncmp_eq_iff _ _).2 h_pre
  simp only [h_cfg, h1, Bool.and_self, if_true]

/-- C26: for a non-null transport name and the packet backend compiled in,
`morsectrl_transport_parse` selects the nl80211 backend if and only if the name begins with
the seven characters `nl80211`: such a name, whatever follows, is parsed as nl80211 with
result 0, and a proper beginning of `nl80211`, the empty string included, selects no
backend. -/
theorem parse_matches_nl80211_by_beginning (cfg : build_config) (env : nl80211_env)
    (transport : morsectrl_transport) (name : String) (iface_opts cfg_opts : Option String)
    (h_cfg : cfg.ENABLE_TRANS_NL80211 = true) :
    ((transport_select cfg env (some name)).1 =
        morsectrl_transport_type.MORSECTRL_TRANSPORT_NL80211 ↔
      "nl80211".toList <+: name.toList) ∧
    ("nl80211".toList <+: name.toList →
      ∃ out, morsectrl_transport_parse cfg env transport (some name) iface_opts cfg_opts =
          .ok out ∧
        out.ret = 0 ∧
        out.transport.vars.type = morsectrl_transport_type.MORSECTRL_TRANSPORT_NL80211 ∧
        out.transport.tops = some (nl80211_ops env)) ∧
    (name.toList <+: "nl80211".toList → name ≠ "nl80211" →
      transport.vars.has_error_function = true →
      ∃ out, morsectrl_transport_parse cfg env transport (some name) iface_opts cfg_opts =
          .ok out ∧
        out.ret = -2 ∧
        out.transport.vars.type = morsectrl_transport_type.MORSECTRL_TRANSPORT_NONE ∧
        out.transport.tops = none) := by
  refine ⟨?_, ?_, ?_⟩
  · constructor
    · intro h
      by_contra hn
      unfold transport_select at h
      have e1 : transport_nl80211.length = transport_nl80211.toList.length := rfl
      have h1 : strncmp_eq name.toList transport_nl80211.toList transport_nl80211.length
          = false := by
        rw [e1, Bool.eq_false_iff]
        intro hh
        exact hn ((strncmp_eq_iff _ _).1 hh)
      simp only [h_cfg, h1, Bool.and_false, Bool.false_eq_true, if_false] at h
      split_ifs at h
    · intro h
      rw [transport_select_nl80211 cfg env name h_cfg h]
  · intro h
    have hsel := transport_select_nl80211 cfg env name h_cfg h
    have hret : (morsectrl_nl80211_parse env
        { transport.vars with type := morsectrl_transport_type.MORSECTRL_TRANSPORT_NL80211 }
        iface_opts cfg_opts).ret = 0 := by
      simp [morsectrl_nl80211_parse, ETRANSSUCC]
    have hparse : (nl80211_ops env).parse = some (morsectrl_nl80211_parse env) := rfl
    refine ⟨{ ret := (morsectrl_nl80211_parse env
                { transport.vars with
                  type := morsectrl_transport_type.MORSECTRL_TRANSPORT_NL80211 }
                iface_opts cfg_opts).ret,
              transport :=
                { vars := (morsectrl_nl80211_parse env
                    { transport.vars with
                      type := morsectrl_transport_type.MORSECTRL_TRANSPORT_NL80211 }
                    iface_opts cfg_opts).vars,
                  tops := some (nl80211_ops env) },
              log := (if transport.vars.debug then
                  [event.mctrl_print "Transport set to: ", event.mctrl_print "NL80211"]
                else []) ++ event.ops_call ops_member.parse ::
                  (morsectrl_nl80211_parse env
                    { transport.vars with
                      type := morsectrl_transport_type.MORSECTRL_TRANSPORT_NL80211 }
                    iface_opts cfg_opts).log }, ?_, hret, ?_, rfl⟩
    · unfold morsectrl_transport_parse
      simp only [hsel, hparse, hret, ne_eq, not_true_eq_false, if_false]
    · simp [morsectrl_nl80211_parse]
  · intro hpre hne herr
    have hlen : name.toList.length < 7 := by
      have h1 := hpre.length_le
      have h2 : name.toList.length ≠ 7 := by
        intro h7
        apply hne
        have := hpre.eq_of_length (by simpa using h7)
        exact String.ext this
      have h3 : "nl80211".toList.length = 7 := rfl
      omega
    have h_nl : cfg.ENABLE_TRANS_NL80211 = true →
        ¬ (transport_nl80211.toList <+: name.toList) := by
      intro _ hp
      have := hp.length_le
      have h3 : transport_nl80211.toList.length = 7 := rfl
      omega
    have h_spi : cfg.ENABLE_TRANS_FTDI_SPI = true →
        ¬ (transport_ftdi_spi.toList <+: name.toList) := by
      intro _ hp
      have := hp.length_le
      have h3 : transport_ftdi_spi.toList.length = 8 := rfl
      omega
    refine ⟨{ ret := -ETRANSERR,
              transport :=
                { vars := { transport.vars with
                            type := morsectrl_transport_type.MORSECTRL_TRANSPORT_NONE },
                  tops := none },
              log := (if transport.vars.debug then
                  [event.mctrl_print "Transport set to: ", event.mctrl_print "None"]
                else []) ++
                [event.error_function "Transport parsing" (-ETRANSERR) "Invalid transport"] },
      ?_, rfl, rfl, rfl⟩
    unfold morsectrl_transport_parse
    simp only [transport_select_unknown cfg env name h_nl h_spi, herr, if_true]

/-- Instance of C26: the name `nl80211_wlan1` selects nl80211, and the name `nl802` selects no
backend. -/
theorem parse_matches_nl80211_by_beginning_witness :
    (∃ out, morsectrl_transport_parse example_build example_env example_unparsed
        (some "nl80211_wlan1") none none = .ok out ∧
      out.ret = 0 ∧
      out.transport.vars.type = morsectrl_transport_type.MORSECTRL_TRANSPORT_NL80211 ∧
      out.transport.tops = some (nl80211_ops example_env)) ∧
    (∃ out, morsectrl_transport_parse example_build example_env example_unparsed
        (some "nl802") none none = .ok out ∧
      out.ret = -2 ∧
      out.transport.vars.type = morsectrl_transport_type.MORSECTRL_TRANSPORT_NONE ∧
      out.transport.tops = none) :=
  ⟨(parse_matches_nl80211_by_beginning example_build example_env example_unparsed
      "nl80211_wlan1" none none rfl).2.1 (by decide),
   (parse_matches_nl80211_by_beginning example_build example_env example_unparsed
      "nl802" none none rfl).2.2 (by decide) (by decide) rfl⟩

/-- C27: `morsectrl_transport_deinit` clears the backend selection whatever the backend's
`deinit` returns, and returns that value.  In the state it leaves, `init`, `send`, the
register, memory and raw operations and `reset_device` return `-ETRANSERR` (-2) without
calling a backend function, every allocator returns null, and a second
`morsectrl_transport_deinit` calls no backend function and returns 0. -/
theorem deinit_clears_backend (transport : morsectrl_transport)
    (tops : morsectrl_transport_ops) (deinit : morsectrl_transport_vars → int_out)
    (hc hr size addr value : Nat) (b1 b2 : morsectrl_transport_buff) (start finish : Bool)
    (h_tops : transport.tops = some tops) (h_deinit : tops.deinit = some deinit) :
    ∃ out, morsectrl_transport_deinit transport = .ok out ∧
      out.ret = (deinit transport.vars).ret ∧
      out.transport.tops = none ∧
      (morsectrl_transport_init out.transport).map (fun o => (o.ret, o.log)) = .ok (-2, []) ∧
      (morsectrl_transport_send out.transport b1 b2).map (fun o => (o.ret, o.log)) =
        .ok (-2, []) ∧
      ((morsectrl_transport_reg_read out.transport addr value).ret = -2 ∧
        (morsectrl_transport_reg_read out.transport addr value).log = []) ∧
      ((morsectrl_transport_reg_write out.transport addr value).ret = -2 ∧
        (morsectrl_transport_reg_write out.transport addr value).log = []) ∧
      ((morsectrl_transport_mem_read out.transport b1 addr).ret = -2 ∧
        (morsectrl_transport_mem_read out.transport b1 addr).log = []) ∧
      ((morsectrl_transport_mem_write out.transport b1 addr).ret = -2 ∧
        (morsectrl_transport_mem_write out.transport b1 addr).log = []) ∧
      (morsectrl_transport_raw_read out.transport b1 start finish).map
        (fun o => (o.ret, o.log)) = .ok (-2, []) ∧
      (morsectrl_transport_raw_write out.transport b1 start finish).map
        (fun o => (o.ret, o.log)) = .ok (-2, []) ∧
      (morsectrl_transport_raw_read_write out.transport b1 b2 start finish).map
        (fun o => (o.ret, o.log)) = .ok (-2, []) ∧
      ((morsectrl_transport_reset_device out.transport).ret = -2 ∧
        (morsectrl_transport_reset_device out.transport).log = []) ∧
      morsectrl_transport_cmd_alloc hc out.transport size = .ok { buff := none, log := [] } ∧
      morsectrl_transport_resp_alloc hr out.transport size =
        .ok { buff := none, log := [] } ∧
      (morsectrl_transport_raw_read_alloc out.transport size).buff = none ∧
      (morsectrl_transport_raw_write_alloc out.transport size).buff = none ∧
      (morsectrl_transport_deinit out.transport).map (fun o => (o.ret, o.log)) =
        .ok (0, []) ∧
      ((morsectrl_transport_deinit out.transport).map (fun o => o.transport.tops.isNone)) =
        .ok true := by
  refine ⟨{ ret := (deinit transport.vars).ret,
            transport := { vars := (deinit transport.vars).vars, tops := none },
            log := event.ops_call ops_member.deinit :: (deinit transport.vars).log },
    ?_, rfl, rfl, rfl, rfl, ⟨rfl, rfl⟩, ⟨rfl, rfl⟩, ⟨rfl, rfl⟩, ⟨rfl, rfl⟩, rfl, rfl, rfl,
    ⟨rfl, rfl⟩, rfl, rfl, rfl, rfl, rfl, rfl⟩
  simp [morsectrl_transport_deinit, h_tops, h_deinit]

/-- Instance of C27: the packet transport. -/
theorem deinit_clears_backend_witness :
    ∃ out, morsectrl_transport_deinit example_transport = .ok out ∧
      out.ret = 0 ∧ out.transport.tops = none ∧
      (morsectrl_transport_send out.transport example_cmd example_resp).map
        (fun o => (o.ret, o.log)) = .ok (-2, []) :=
  match deinit_clears_backend example_transport (nl80211_ops example_env)
    morsectrl_nl80211_deinit 12 16 8 0 0 example_cmd example_resp true true rfl rfl with
  | ⟨out, h, hret, htops, _, hsend, _⟩ => ⟨out, h, hret, htops, hsend⟩

/-! ## The statistics loop ends: claim C28 -/

theorem stats_resp_sz_step (resp_sz : Int) (len : Nat)
    (h_hi : resp_sz < 2147483648) (h_len : (len : Int) ≤ resp_sz) :
    size_to_int (size_sub (int_to_size resp_sz) (size_add STATS_TLV_OVERHEAD len)) =
      resp_sz - 4 - (len : Int) := by
  unfold size_to_int u32_to_int size_sub int_to_size size_add STATS_TLV_OVERHEAD SIZE_T_MOD
  norm_num
  split_ifs <;> omega

theorem int_to_size_neg (resp_sz : Int) (h_lo : -2147483648 ≤ resp_sz) (h_neg : resp_sz < 0) :
    int_to_size resp_sz > STATS_TLV_OVERHEAD := by
  unfold int_to_size STATS_TLV_OVERHEAD SIZE_T_MOD
  norm_num
  omega

theorem int_to_size_nonneg (resp_sz : Int) (h0 : 0 ≤ resp_sz) (h_hi : resp_sz < 2147483648) :
    (int_to_size resp_sz : Int) = resp_sz := by
  unfold int_to_size SIZE_T_MOD
  norm_num
  omega

theorem stats_tlv_body_continue (known selected : Nat → Bool) (m : List Nat) (buf : Nat)
    (resp_sz : Int) (events : List tlv_event) (buf1 : Nat) (resp_sz1 : Int)
    (h_hi : resp_sz < 2147483648)
    (h : stats_tlv_body known selected m buf resp_sz = (events, some (buf1, resp_sz1))) :
    0 < load16le m (buf + 2) ∧ (load16le m (buf + 2) : Int) ≤ resp_sz ∧
    resp_sz1 = resp_sz - 4 - (load16le m (buf + 2) : Int) ∧
    buf1 = buf + 4 + load16le m (buf + 2) := by
  unfold stats_tlv_body at h
  by_cases hm : (load16le m (buf + 2) : Int) > resp_sz ∨ load16le m (buf + 2) = 0
  · simp [hm] at h
  · simp only [hm, if_false, Prod.mk.injEq, Option.some.injEq] at h
    have h1 : (load16le m (buf + 2) : Int) ≤ resp_sz := by omega
    have h2 : 0 < load16le m (buf + 2) := by omega
    obtain ⟨_, hb, hs⟩ := h
    rw [stats_resp_sz_step resp_sz _ h_hi h1] at hs
    exact ⟨h2, h1, hs.symm, by omega⟩

theorem stats_tlv_body_negative (known selected : Nat → Bool) (m : List Nat) (buf : Nat)
    (resp_sz : Int) (h_neg : resp_sz < 0) :
    stats_tlv_body known selected m buf resp_sz =
      ([tlv_event.header buf,
        tlv_event.malformed (load16le m buf) (load16le m (buf + 2)) resp_sz], none) := by
  unfold stats_tlv_body
  have hm : (load16le m (buf + 2) : Int) > resp_sz ∨ load16le m (buf + 2) = 0 := by omega
  simp only [hm, if_true]

theorem stats_tlv_loop_terminates (known selected : Nat → Bool) (m : List Nat) :
    ∀ (fuel buf : Nat) (resp_sz : Int), resp_sz < 2147483648 →
      resp_sz.toNat / 5 + 1 ≤ fuel →
      ∃ events, stats_tlv_loop known selected m fuel buf resp_sz = some events := by
  intro fuel
  induction fuel with
  | zero => intro buf resp_sz _ hf; omega
  | succ fuel ih =>
    intro buf resp_sz h_hi hf
    unfold stats_tlv_loop
    by_cases hc : int_to_size resp_sz > STATS_TLV_OVERHEAD
    · simp only [hc, if_true]
      rcases hb : stats_tlv_body known selected m buf resp_sz with ⟨events, next⟩
      cases next with
      | none => exact ⟨events, rfl⟩
      | some st =>
        obtain ⟨buf1, resp_sz1⟩ := st
        obtain ⟨hpos, hle, hsz, _⟩ :=
          stats_tlv_body_continue known selected m buf resp_sz events buf1 resp_sz1 h_hi hb
        have hnn := int_to_size_nonneg resp_sz (by omega) h_hi
        have hov : STATS_TLV_OVERHEAD = 4 := rfl
        have hf1 : resp_sz1.toNat / 5 + 1 ≤ fuel := by omega
        obtain ⟨rest, hrest⟩ := ih buf1 resp_sz1 (by omega) hf1
        exact ⟨events ++ rest, by simp [hrest]⟩
    · simp only [hc, if_false]
      exact ⟨[], rfl⟩

/-- C28: the TLV loop of `morsectrl_stats_cmd` terminates for every response content and
every received length, a length below the size of the response header included: a pass
through the body either stops on a malformed TLV or lowers the remaining size by at least 5,
and a pass entered with a negative remaining size stops. -/
theorem stats_tlv_loop_total (sizeof_response : Nat) (known selected : Nat → Bool)
    (rsp_tbuff : morsectrl_transport_buff) :
    (∃ events, stats_tlv_walk sizeof_response known selected rsp_tbuff = some events) ∧
    (∀ (m : List Nat) (fuel buf : Nat) (resp_sz : Int), resp_sz < 2147483648 →
      resp_sz.toNat / 5 + 1 ≤ fuel →
      ∃ events, stats_tlv_loop known selected m fuel buf resp_sz = some events) ∧
    (∀ (m : List Nat) (buf : Nat) (resp_sz : Int) events buf1 resp_sz1,
      resp_sz < 2147483648 →
      stats_tlv_body known selected m buf resp_sz = (events, some (buf1, resp_sz1)) →
      resp_sz1 ≤ resp_sz - 5) ∧
    (∀ (m : List Nat) (buf : Nat) (resp_sz : Int), resp_sz < 0 →
      (stats_tlv_body known selected m buf resp_sz).2 = none) := by
  refine ⟨?_, ?_, ?_, ?_⟩
  · unfold stats_tlv_walk
    have hlt : size_to_int (size_sub rsp_tbuff.data_len sizeof_response) < 2147483648 := by
      unfold size_to_int u32_to_int
      split_ifs <;> omega
    exact stats_tlv_loop_terminates known selected rsp_tbuff.memblock _ _ _ hlt (le_refl _)
  · intro m fuel buf resp_sz h_hi hf
    exact stats_tlv_loop_terminates known selected m fuel buf resp_sz h_hi hf
  · intro m buf resp_sz events buf1 resp_sz1 h_hi h
    obtain ⟨hpos, _, hsz, _⟩ :=
      stats_tlv_body_continue known selected m buf resp_sz events buf1 resp_sz1 h_hi h
    omega
  · intro m buf resp_sz h_neg
    rw [stats_tlv_body_negative known selected m buf resp_sz h_neg]

/-! ## Bounds of the statistics loop: claim C29 -/

/-- C29, the code at the failing input: of a response with 24 received bytes (8 bytes of
statistics) whose TLV announces a value of 8 bytes, the loop hands the 8 bytes at offsets 20
to 27 to the formatter, 4 of them after the received bytes, and then, the remaining size
being -4, reads one more header at offset 28.  In general a TLV whose length is at most the
remaining size is handled though its header and value take up to 4 bytes more than remain. -/
theorem stats_tlv_value_past_received :
    example_stats_resp.data + example_stats_resp.data_len = 24 ∧
    stats_tlv_walk 16 (fun tag => tag == 1) (fun _ => true) example_stats_resp =
      some [tlv_event.header 16, tlv_event.format 1 20 8,
            tlv_event.header 28, tlv_event.malformed 43690 43690 (-4)] ∧
    (∀ (known selected : Nat → Bool) (m : List Nat) (buf : Nat) (resp_sz : Int),
      0 < load16le m (buf + 2) → (load16le m (buf + 2) : Int) ≤ resp_sz →
      resp_sz < (load16le m (buf + 2) : Int) + 4 → resp_sz < 2147483648 →
      stats_tlv_body known selected m buf resp_sz =
        ([tlv_event.header buf,
          if known (load16le m buf) then
            if selected (load16le m buf) then
              tlv_event.format (load16le m buf) (buf + 4) (load16le m (buf + 2))
            else tlv_event.filtered (load16le m buf) (buf + 4) (load16le m (buf + 2))
          else tlv_event.hexdump (load16le m buf) (buf + 4) (load16le m (buf + 2))],
          some (buf + 4 + load16le m (buf + 2), resp_sz - 4 - (load16le m (buf + 2) : Int))) ∧
      resp_sz - 4 - (load16le m (buf + 2) : Int) < 0) := by
  refine ⟨rfl, by decide, ?_⟩
  intro known selected m buf resp_sz hpos hle hlt h_hi
  have hm : ¬ ((load16le m (buf + 2) : Int) > resp_sz ∨ load16le m (buf + 2) = 0) := by omega
  refine ⟨?_, by omega⟩
  unfold stats_tlv_body
  simp only [hm, if_false]
  rw [stats_resp_sz_step resp_sz _ h_hi hle]

/-! ## Values of the statistics: claim C30 -/

theorem load_le_eq_sum (m : List Nat) : ∀ (n off : Nat),
    load_le m off n = ∑ i in Finset.range n, load8 m (off + i) * 256 ^ i := by
  intro n
  induction n with
  | zero => intro off; simp [load_le]
  | succ n ih =>
    intro off
    rw [load_le, ih, Finset.sum_range_succ', Finset.mul_sum]
    simp only [pow_zero, mul_one, Nat.add_zero]
    rw [add_comm]
    congr 1
    apply Finset.sum_congr rfl
    intro i _
    rw [pow_succ]
    have : off + 1 + i = off + (i + 1) := by omega
    rw [this]
    ring

theorem sign_extend_spec (bits v : Nat) (h_bits : 0 < bits) (h_v : v < 2 ^ bits) :
    sign_extend bits v % ((2 ^ bits : Nat) : Int) = (v : Int) ∧
    -((2 ^ (bits - 1) : Nat) : Int) ≤ sign_extend bits v ∧
    sign_extend bits v < ((2 ^ (bits - 1) : Nat) : Int) := by
  have hmod : v % 2 ^ bits = v := Nat.mod_eq_of_lt h_v
  have hpow : 2 ^ bits = 2 * 2 ^ (bits - 1) := by
    obtain ⟨k, rfl⟩ : ∃ k, bits = k + 1 := ⟨bits - 1, by omega⟩
    simp [pow_succ, mul_comm]
  unfold sign_extend
  rw [hmod]
  generalize 2 ^ (bits - 1) = half at hpow
  rw [hpow] at h_v ⊢
  split_ifs with h
  · refine ⟨?_, by omega, by omega⟩
    apply Int.emod_eq_of_lt <;> omega
  · refine ⟨?_, by omega, by omega⟩
    have : ((v : Int) - ((2 * half : Nat) : Int)) % ((2 * half : Nat) : Int) =
        (v : Int) % ((2 * half : Nat) : Int) := by
      have h3 := @Int.add_mul_emod_self (v : Int) (-1) ((2 * half : Nat) : Int)
      rw [← h3]
      congr 1
      ring
    rw [this]
    apply Int.emod_eq_of_lt <;> omega

theorem load_le_lt (m : List Nat) (h_bytes : ∀ i, m.getD i 0 < 256) : ∀ (n off : Nat),
    load_le m off n < 2 ^ (8 * n) := by
  intro n
  induction n with
  | zero => intro off; simp [load_le]
  | succ n ih =>
    intro off
    have h1 := ih (off + 1)
    have h0 : load8 m off < 256 := h_bytes off
    have hp : 2 ^ (8 * (n + 1)) = 256 * 2 ^ (8 * n) := by
      rw [Nat.mul_succ, pow_add]
      norm_num
      ring
    rw [load_le, hp]
    generalize 2 ^ (8 * n) = p at h1 ⊢
    generalize load_le m (off + 1) n = q at h1 ⊢
    nlinarith

/-- C30: for a size of 1, 2, 4 or 8 and a buffer of at least that many bytes,
`get_unsigned_value_as_uint64` returns the little-endian value of the first `size` bytes,
the sum of `buf[i] * 256^i`, and `get_signed_value_as_int64` its sign extension: the two
agree modulo `2^(8*size)` and the signed one lies in `[-2^(8*size-1), 2^(8*size-1))`; nothing
is printed.  For every other size both return 0 whatever the buffer holds. -/
theorem value_conversions (buf : List Nat) (size : Nat)
    (h_size : size = 1 ∨ size = 2 ∨ size = 4 ∨ size = 8)
    (h_len : size ≤ buf.length)
    (h_bytes : ∀ i, buf.getD i 0 < 256) :
    (get_unsigned_value_as_uint64 buf size).1 =
      ∑ i in Finset.range size, buf.getD i 0 * 256 ^ i ∧
    (get_unsigned_value_as_uint64 buf size).1 < 2 ^ (8 * size) ∧
    (get_signed_value_as_int64 buf size).1 =
      sign_extend (8 * size) (get_unsigned_value_as_uint64 buf size).1 ∧
    (get_signed_value_as_int64 buf size).1 % ((2 ^ (8 * size) : Nat) : Int) =
      ((get_unsigned_value_as_uint64 buf size).1 : Int) ∧
    -((2 ^ (8 * size - 1) : Nat) : Int) ≤ (get_signed_value_as_int64 buf size).1 ∧
    (get_signed_value_as_int64 buf size).1 < ((2 ^ (8 * size - 1) : Nat) : Int) ∧
    (get_unsigned_value_as_uint64 buf size).2 = [] ∧
    (get_signed_value_as_int64 buf size).2 = [] ∧
    (∀ (other : Nat) (b1 b2 : List Nat),
      other ≠ 1 → other ≠ 2 → other ≠ 4 → other ≠ 8 →
      (get_unsigned_value_as_uint64 b1 other).1 = 0 ∧
      (get_signed_value_as_int64 b1 other).1 = 0 ∧
      get_unsigned_value_as_uint64 b1 other = get_unsigned_value_as_uint64 b2 other ∧
      get_signed_value_as_int64 b1 other = get_signed_value_as_int64 b2 other) := by
  have hu : (get_unsigned_value_as_uint64 buf size).1 = load_le buf 0 size ∧
      (get_unsigned_value_as_uint64 buf size).2 = [] := by
    rcases h_size with rfl | rfl | rfl | rfl <;> simp [get_unsigned_value_as_uint64]
  have hs : (get_signed_value_as_int64 buf size).1 = sign_extend (8 * size) (load_le buf 0 size) ∧
      (get_signed_value_as_int64 buf size).2 = [] := by
    rcases h_size with rfl | rfl | rfl | rfl <;> simp [get_signed_value_as_int64]
  have hlt := load_le_lt buf h_bytes size 0
  have hpos : 0 < 8 * size := by omega
  obtain ⟨hmod, hlo, hhi⟩ := sign_extend_spec (8 * size) (load_le buf 0 size) hpos hlt
  have hsum := load_le_eq_sum buf size 0
  simp only [Nat.zero_add, load8] at hsum
  refine ⟨by rw [hu.1, hsum], by rw [hu.1]; exact hlt, by rw [hs.1, hu.1],
    by rw [hs.1, hu.1]; exact hmod, by rw [hs.1]; exact hlo, by rw [hs.1]; exact hhi,
    hu.2, hs.2, ?_⟩
  intro other b1 b2 h1 h2 h4 h8
  unfold get_unsigned_value_as_uint64 get_signed_value_as_int64
  simp [h1, h2, h4, h8]

theorem value_conversions_witness :
    (get_unsigned_value_as_uint64 [254, 255, 7] 2).1 = 65534 ∧
    (get_signed_value_as_int64 [254, 255, 7] 2).1 = -2 ∧
    (get_unsigned_value_as_uint64 [254, 255, 7] 2).1 < 2 ^ (8 * 2) ∧
    (get_unsigned_value_as_uint64 [254, 255, 7] 3).1 = 0 :=
  have h := value_conversions [254, 255, 7] 2 (by decide) (by decide)
    (by
      intro i
      rcases i with _ | _ | _ | i <;> simp)
  ⟨by decide, by decide, h.2.1, (h.2.2.2.2.2.2.2.2 3 [254, 255, 7] [] (by decide) (by decide)
    (by decide) (by decide)).1⟩

/-! ## The memory test of the raw access command: claim C23 -/

theorem transraw_fill_ends (base_value data data_len : Nat) (h_len : data_len < UINT32_MOD) :
    ∀ (fuel ii : Nat) (m : List Nat), ii % 4 = 0 → ii ≤ data_len →
      (data_len - ii) / 4 + 1 ≤ fuel + 1 →
      ∃ m1, transraw_fill base_value data data_len (fuel + 1) ii m = some m1 := by
  intro fuel
  induction fuel with
  | zero =>
    intro ii m h4 hii hf
    unfold transraw_fill
    have hu : UINT32_MOD = 4294967296 := rfl
    rw [hu] at h_len ⊢
    have hc : ¬ ((ii + 3) % 4294967296 < data_len) := by omega
    simp only [hc, if_false]
    exact ⟨m, rfl⟩
  | succ fuel ih =>
    intro ii m h4 hii hf
    unfold transraw_fill
    have hu : UINT32_MOD = 4294967296 := rfl
    rw [hu] at h_len ⊢
    by_cases hc : (ii + 3) % 4294967296 < data_len
    · simp only [hc, if_true]
      have h1 : (ii + 4) % 4294967296 = ii + 4 := by omega
      rw [h1]
      rw [← hu]
      apply ih
      · omega
      · omega
      · omega
    · simp only [hc, if_false]
      exact ⟨m, rfl⟩

theorem transport_buff_is_equal_iff (a b : morsectrl_transport_buff) :
    transport_buff_is_equal (some a) (some b) = true ↔
      a.data_len = b.data_len ∧
      ∀ i, i < a.data_len → load8 a.memblock (a.data + i) = load8 b.memblock (b.data + i) := by
  unfold transport_buff_is_equal
  by_cases h : a.data_len = b.data_len
  · simp [h, List.all_eq_true]
  · simp [h]

theorem memtest_ret_zero_iff (transport : morsectrl_transport) (base_addr size base_value : Nat)
    (out : memtest_out)
    (h : transraw_memtest transport base_addr size base_value = some out) :
    out.ret = 0 ↔ round_trip_succeeds transport base_addr size base_value := by
  unfold transraw_memtest at h
  unfold round_trip_succeeds
  rcases hwa : (morsectrl_transport_raw_write_alloc transport size).buff with _ | wb
  · simp only [hwa, Option.some.injEq] at h
    subst h
    simp
  · rcases hra : (morsectrl_transport_raw_read_alloc transport size).buff with _ | rb
    · simp only [hwa, hra, Option.some.injEq] at h
      subst h
      simp
    · simp only [hwa, hra] at h
      rcases hfill : transraw_fill base_value wb.data wb.data_len (wb.data_len / 4 + 1) 0
          wb.memblock with _ | m
      · simp only [hfill] at h
        exact absurd h (by simp)
      · simp only [hfill] at h
        by_cases hw : (morsectrl_transport_mem_write transport { wb with memblock := m }
            base_addr).ret = 0
        · by_cases hr : (morsectrl_transport_mem_read
              { transport with vars := (morsectrl_transport_mem_write transport
                  { wb with memblock := m } base_addr).vars } rb base_addr).ret = 0
          · by_cases he : transport_buff_is_equal (some { wb with memblock := m })
                (some (morsectrl_transport_mem_read
                  { transport with vars := (morsectrl_transport_mem_write transport
                      { wb with memblock := m } base_addr).vars } rb base_addr).buff) = true
            · simp only [hw, hr, he, ne_eq, not_true_eq_false, if_false, Bool.not_true,
                Bool.false_eq_true, Option.some.injEq] at h
              subst h
              have he2 := (transport_buff_is_equal_iff _ _).mp he
              constructor
              · intro _
                exact ⟨wb, rb, m, rfl, rfl, hfill, hw, hr, he2.1.symm,
                  fun i hi => (he2.2 i hi).symm⟩
              · intro _
                rfl
            · simp only [hw, hr, he, ne_eq, not_true_eq_false, if_false, Bool.not_false,
                if_true, Option.some.injEq] at h
              subst h
              constructor
              · intro h0
                exact absurd h0 (show ¬ ((-1 : Int) = 0) by decide)
              · rintro ⟨w1, r1, m1, h1, h2, h3, _, _, h6, h7⟩
                simp only [Option.some.injEq] at h1 h2
                subst h1
                subst h2
                rw [hfill] at h3
                simp only [Option.some.injEq] at h3
                subst h3
                exact absurd ((transport_buff_is_equal_iff { wb with memblock := m } _).mpr
                  ⟨h6.symm, fun i hi => (h7 i hi).symm⟩) he
          · simp only [hw, hr, ne_eq, not_true_eq_false, if_false, not_false_eq_true, if_true,
              Option.some.injEq] at h
            subst h
            constructor
            · intro h0
              exact absurd h0 hr
            · rintro ⟨w1, r1, m1, h1, h2, h3, _, h5, _, _⟩
              simp only [Option.some.injEq] at h1 h2
              subst h1
              subst h2
              rw [hfill] at h3
              simp only [Option.some.injEq] at h3
              subst h3
              exact absurd h5 hr
        · simp only [hw, ne_eq, not_false_eq_true, if_true, Option.some.injEq] at h
          subst h
          constructor
          · intro h0
            exact absurd h0 hw
          · rintro ⟨w1, r1, m1, h1, h2, h3, h4, _, _, _⟩
            simp only [Option.some.injEq] at h1 h2
            subst h1
            subst h2
            rw [hfill] at h3
            simp only [Option.some.injEq] at h3
            subst h3
            exact absurd h4 hw

theorem memtest_returns (transport : morsectrl_transport) (base_addr size base_value : Nat)
    (h_len : ∀ w, (morsectrl_transport_raw_write_alloc transport size).buff = some w →
      w.data_len < UINT32_MOD) :
    ∃ out, transraw_memtest transport base_addr size base_value = some out := by
  unfold transraw_memtest
  rcases hwa : (morsectrl_transport_raw_write_alloc transport size).buff with _ | wb
  · simp only [hwa]
    exact ⟨_, rfl⟩
  · rcases hra : (morsectrl_transport_raw_read_alloc transport size).buff with _ | rb
    · simp only [hwa, hra]
      exact ⟨_, rfl⟩
    · obtain ⟨m, hm⟩ := transraw_fill_ends base_value wb.data wb.data_len (h_len wb hwa)
        (wb.data_len / 4) 0 wb.memblock rfl (Nat.zero_le _) (by simp)
      simp only [hwa, hra, hm]
      split_ifs <;> exact ⟨_, rfl⟩

theorem transraw_fill_frame (base_value data data_len : Nat) :
    ∀ (fuel ii : Nat) (m m1 : List Nat),
      transraw_fill base_value data data_len fuel ii m = some m1 →
      (∀ i, load8 m i < 256) →
      m1.length = m.length ∧ ∀ i, load8 m1 i < 256 := by
  intro fuel
  induction fuel with
  | zero =>
    intro ii m m1 h
    simp [transraw_fill] at h
  | succ fuel ih =>
    intro ii m m1 h hb
    unfold transraw_fill at h
    split_ifs at h with hc
    · obtain ⟨hl, hbytes⟩ := ih _ _ m1 h (by
        intro i
        simp only [load8_store8]
        have h256 : ∀ v : Nat, v % 256 < 256 := fun v => Nat.mod_lt v (by decide)
        split_ifs <;> first | exact h256 _ | exact hb i)
      refine ⟨?_, hbytes⟩
      rw [hl]
      simp only [length_store8]
    · simp only [Option.some.injEq] at h
      subst h
      exact ⟨rfl, hb⟩

theorem example_chip_round_trip :
    round_trip_backend example_chip_mem_write example_chip_mem_read := by
  intro vars write read addr size hw hr
  obtain ⟨hwl, _, _, hwb⟩ := hw
  obtain ⟨hrl, hri, hra, _⟩ := hr
  unfold wire_buffer_invariant at hri
  unfold block_allocated at hra
  have hfind : (example_chip_mem_write vars write addr).vars.ftdi_spi.handle.find?
      (fun e => e.1 == addr) =
      some (addr, (List.range write.data_len).map
        (fun i => load8 write.memblock (write.data + i))) := by
    simp [example_chip_mem_write, List.find?]
  refine ⟨rfl, ?_, ?_, ?_⟩
  · unfold example_chip_mem_read
    rw [hfind]
  · unfold example_chip_mem_read
    rw [hfind]
    exact hrl
  · intro i hi
    unfold example_chip_mem_read
    rw [hfind]
    simp only
    rw [load8_memcpy]
    have hlen : (List.take read.data_len ((List.range write.data_len).map
        (fun i => load8 write.memblock (write.data + i)))).length = size := by
      simp [hwl, hrl]
    have hcond : read.data ≤ read.data + i ∧
        read.data + i < read.data + (List.take read.data_len ((List.range write.data_len).map
          (fun i => load8 write.memblock (write.data + i)))).length ∧
        read.data + i < read.memblock.length := by
      rw [hlen]
      omega
    rw [if_pos hcond]
    have hget : (List.take read.data_len ((List.range write.data_len).map
        (fun i => load8 write.memblock (write.data + i)))).getD (read.data + i - read.data) 0 =
        load8 write.memblock (write.data + i) := by
      have h1 : read.data + i - read.data = i := by omega
      rw [h1, List.getD_eq_getElem?_getD, List.getElem?_take]
      simp [hrl, hwl, hi, List.getElem?_range]
    rw [hget]
    exact Nat.mod_eq_of_lt (hwb _)

/-- C23: on a backend in which `mem_read` at an address returns exactly the bytes last stored
there by `mem_write`, and whose allocators give buffers of `size` bytes, `transraw_memtest`
returns 0, for every `size` a `uint32_t` holds and so for the sizes that `transraw_test` uses,
64, 512, 768, 1024, 1280 and 66304.  For every backend, whenever the fill loop ends (it does
when the write buffer is shorter than `2^32` bytes), `transraw_memtest` returns 0 if and only
if both buffers were allocated, `mem_write` and `mem_read` returned 0 and the read buffer
equals the written one in length and in every byte. -/
theorem memtest_round_trip (transport : morsectrl_transport) (ops : morsectrl_transport_ops)
    (write_alloc read_alloc : morsectrl_transport_vars → Nat → Option morsectrl_transport_buff)
    (mem_write : morsectrl_transport_vars → morsectrl_transport_buff → Nat → int_out)
    (mem_read : morsectrl_transport_vars → morsectrl_transport_buff → Nat → buff_out)
    (base_addr size base_value : Nat) (write_buff read_buff : morsectrl_transport_buff)
    (h_size : size < UINT32_MOD)
    (h_tops : transport.tops = some ops)
    (h_write_alloc : ops.write_alloc = some write_alloc)
    (h_read_alloc : ops.read_alloc = some read_alloc)
    (h_mem_write : ops.mem_write = some mem_write)
    (h_mem_read : ops.mem_read = some mem_read)
    (h_write_buff : write_alloc transport.vars size = some write_buff)
    (h_read_buff : read_alloc transport.vars size = some read_buff)
    (h_write_bytes : buffer_of_bytes write_buff size)
    (h_read_bytes : buffer_of_bytes read_buff size)
    (h_backend : round_trip_backend mem_write mem_read) :
    (∃ out, transraw_memtest transport base_addr size base_value = some out ∧ out.ret = 0) ∧
    (transraw_test_sizes = [64, 64, 512, 768, 1024, 1280, 66304] ∧
      ∀ s, s ∈ transraw_test_sizes → s < UINT32_MOD) ∧
    (∀ (t : morsectrl_transport) (a s v : Nat) (out : memtest_out),
      transraw_memtest t a s v = some out →
      (out.ret = 0 ↔ round_trip_succeeds t a s v)) ∧
    (∀ (t : morsectrl_transport) (a s v : Nat),
      (∀ w, (morsectrl_transport_raw_write_alloc t s).buff = some w →
        w.data_len < UINT32_MOD) →
      ∃ out, transraw_memtest t a s v = some out) := by
  refine ⟨?_, ⟨rfl, by decide⟩, ?_, ?_⟩
  · have hwa : (morsectrl_transport_raw_write_alloc transport size).buff = some write_buff := by
      simp [morsectrl_transport_raw_write_alloc, h_tops, h_write_alloc, h_write_buff]
    have hra : (morsectrl_transport_raw_read_alloc transport size).buff = some read_buff := by
      simp [morsectrl_transport_raw_read_alloc, h_tops, h_read_alloc, h_read_buff]
    have hlen : ∀ w, (morsectrl_transport_raw_write_alloc transport size).buff = some w →
        w.data_len < UINT32_MOD := by
      intro w hw
      rw [hwa] at hw
      simp only [Option.some.injEq] at hw
      subst hw
      rw [h_write_bytes.1]
      exact h_size
    obtain ⟨out, hout⟩ := memtest_returns transport base_addr size base_value hlen
    refine ⟨out, hout, ?_⟩
    rw [memtest_ret_zero_iff transport base_addr size base_value out hout]
    obtain ⟨m, hm⟩ := transraw_fill_ends base_value write_buff.data write_buff.data_len
      (hlen write_buff hwa) (write_buff.data_len / 4) 0 write_buff.memblock rfl
      (Nat.zero_le _) (by simp)
    obtain ⟨hml, hmb⟩ := transraw_fill_frame base_value write_buff.data write_buff.data_len
      _ _ _ m hm h_write_bytes.2.2.2
    have hfilled : buffer_of_bytes { write_buff with memblock := m } size := by
      obtain ⟨h1, h2, h3, _⟩ := h_write_bytes
      unfold block_allocated at h3
      exact ⟨h1, h2, by unfold block_allocated; simp only; rw [hml]; exact h3, hmb⟩
    obtain ⟨b1, b2, b3, b4⟩ := h_backend transport.vars { write_buff with memblock := m }
      read_buff base_addr size hfilled h_read_bytes
    have hw : morsectrl_transport_mem_write transport { write_buff with memblock := m }
        base_addr =
        { mem_write transport.vars { write_buff with memblock := m } base_addr with
          log := event.ops_call ops_member.mem_write ::
            (mem_write transport.vars { write_buff with memblock := m } base_addr).log } := by
      simp [morsectrl_transport_mem_write, h_tops, h_mem_write]
    have hr : ∀ v, morsectrl_transport_mem_read { transport with vars := v } read_buff
        base_addr =
        { mem_read v read_buff base_addr with
          log := event.ops_call ops_member.mem_read :: (mem_read v read_buff base_addr).log } := by
      intro v
      simp [morsectrl_transport_mem_read, h_tops, h_mem_read]
    refine ⟨write_buff, read_buff, m, hwa, hra, hm, ?_, ?_, ?_, ?_⟩
    · rw [hw]
      exact b1
    · rw [hw, hr]
      exact b2
    · rw [hw, hr]
      exact b3.trans h_write_bytes.1.symm
    · intro i hi
      rw [hw, hr]
      exact b4 i (by rw [← h_write_bytes.1]; exact hi)
  · intro t a s v out hout
    exact memtest_ret_zero_iff t a s v out hout
  · intro t a s v hlen
    exact memtest_returns t a s v hlen

/-- Instance of C23: 8 bytes at `IMEM_BANK0_ADDR` with `BYTE_TEST_VALUE_BASE`, on a device
that keeps what is written, and on one that stores nothing. -/
theorem memtest_round_trip_witness :
    (∃ out, transraw_memtest example_chip_transport 1048576 8 591724544 = some out ∧
      out.ret = 0) ∧
    (transraw_memtest example_chip_transport 1048576 8 591724544).map
        (fun out => (out.ret, out.vars.ftdi_spi.handle, out.log)) =
      some (0, [(1048576, [0, 0, 69, 35, 4, 0, 69, 35])],
            [event.ops_call ops_member.write_alloc, event.ops_call ops_member.read_alloc,
             event.ops_call ops_member.mem_write, event.ops_call ops_member.mem_read]) ∧
    (transraw_memtest example_deaf_chip_transport 1048576 8 591724544).map
        (fun out => out.ret) = some (-1) :=
  ⟨(memtest_round_trip example_chip_transport example_chip_ops example_chip_alloc
      example_chip_alloc example_chip_mem_write example_chip_mem_read 1048576 8 591724544
      { memblock := List.replicate 8 0, capacity := 8, data := 0, data_len := 8 }
      { memblock := List.replicate 8 0, capacity := 8, data := 0, data_len := 8 }
      (by decide) rfl rfl rfl rfl rfl rfl rfl
      ⟨rfl, by decide, by decide, fun i => getD_replicate_lt 8 0 i (by decide)⟩
      ⟨rfl, by decide, by decide, fun i => getD_replicate_lt 8 0 i (by decide)⟩
      example_chip_round_trip).1,
   by decide, by decide⟩

end Morsectrl
